import Mathlib

/-!
# Bitcoin Firewall 1.3.0: the examination and detection engine

A shallow embedding of `src/firewall.cpp` and of the firewall commands of `src/rpc/net.cpp`
that the theorems need, and theorems about them.

Conventions of the embedding:

* `int` values are `Int`; where the source does arithmetic on them the result is
  brought back into the 32-bit range with `toInt32` (two's complement wrap).
* `uint64_t` / `size_t` values are `Nat`, conversions from `int` go through `toSizeT`.
* `double` values are read as exact rationals (`Rat`): rounding, infinities and NaN
  are outside the model.
* `std::string` is `String`.
* The fixed arrays `FIREWALL_FORKED_NODEHEIGHT[256]` and `FIREWALL_FLOODPATTERNS[256]`
  are lists of their leading slots; every slot of the array past the end of the list holds
  the terminator (`0`, respectively the empty string). `CountStringArray` and
  `CountIntArray` give the number of leading entries of the list. For an array whose 256
  slots are all in use this is 256: the scan of the source ends behind slot 255 there, and
  every count of 256 or more takes the same branches.
* Console output and `LogPrintf` lines are not part of the model.
* A parameter of a control-surface command is the string that `get_str().c_str()` yields.
* Every integer or floating division of the source is a checked operation that fails
  with `FirewallError.divisionByZero` on a zero divisor.
-/

namespace Firewall

/-! ## Machine arithmetic -/

/-- Failure of a run of the engine. -/
inductive FirewallError where
  | divisionByZero
  deriving DecidableEq, Repr

/-- Conversion of a mathematical integer to `int` (32-bit two's complement). -/
def toInt32 (x : Int) : Int := (x + 2147483648) % 4294967296 - 2147483648

/-- Conversion of an `int` to `std::size_t` / `uint64_t` (reduction modulo 2^64). -/
def toSizeT (x : Int) : Nat := (x % 18446744073709551616).toNat

/-- Unsigned integer division `a / b`, failing on a zero divisor. -/
def udiv (a b : Nat) : Except FirewallError Nat :=
  if b = 0 then Except.error FirewallError.divisionByZero else Except.ok (a / b)

/-- Floating division `a / b` (exact), failing on a zero divisor. -/
def fdiv (a b : Rat) : Except FirewallError Rat :=
  if b = 0 then Except.error FirewallError.divisionByZero else Except.ok (a / b)

/-! ## Sentinel-terminated arrays -/

/-- Function `CountStringArray`: number of slots before the first empty string. -/
def CountStringArray : List String → Nat
  | [] => 0
  | s :: rest => if s ≠ "" then CountStringArray rest + 1 else 0

/-- Function `CountIntArray`: number of slots before the first entry that is not `> 0`. -/
def CountIntArray : List Int → Nat
  | [] => 0
  | h :: rest => if h > 0 then CountIntArray rest + 1 else 0

/-! ## Settings -/

/-- Ban reasons passed to the connection manager by the firewall. -/
inductive BanReason where
  | BanReasonBandwidthAbuse
  | BanReasonInvalidWallet
  | BanReasonForkedWallet
  | BanReasonFloodingWallet
  deriving DecidableEq, Repr

/-- The `FIREWALL_*` globals of `firewall.cpp`. -/
structure Settings where
  FIREWALL_ENABLED : Bool
  FIREWALL_CLEAR_BANS : Bool
  FIREWALL_CLEARBANS_MINNODES : Int
  FIREWALL_TRAFFIC_TOLERANCE : Rat
  FIREWALL_TRAFFIC_ZONE : Rat
  FIREWALL_LIVE_DEBUG : Bool
  FIREWALL_LIVEDEBUG_EXAM : Bool
  FIREWALL_LIVEDEBUG_BANS : Bool
  FIREWALL_LIVEDEBUG_DISCONNECT : Bool
  FIREWALL_LIVEDEBUG_BANDWIDTHABUSE : Bool
  FIREWALL_LIVEDEBUG_NOFALSEPOSITIVE : Bool
  FIREWALL_LIVEDEBUG_INVALIDWALLET : Bool
  FIREWALL_LIVEDEBUG_FORKEDWALLET : Bool
  FIREWALL_LIVEDEBUG_FLOODINGWALLET : Bool
  FIREWALL_DETECT_BANDWIDTHABUSE : Bool
  FIREWALL_BAN_BANDWIDTHABUSE : Bool
  FIREWALL_NOFALSEPOSITIVE_BANDWIDTHABUSE : Bool
  FIREWALL_DETECT_INVALIDWALLET : Bool
  FIREWALL_BAN_INVALIDWALLET : Bool
  FIREWALL_DETECT_FORKEDWALLET : Bool
  FIREWALL_BAN_FORKEDWALLET : Bool
  FIREWALL_DETECT_FLOODINGWALLET : Bool
  FIREWALL_BAN_FLOODINGWALLET : Bool
  FIREWALL_AVERAGE_TOLERANCE : Int
  FIREWALL_AVERAGE_RANGE : Int
  FIREWALL_BANTIME_BANDWIDTHABUSE : Int
  FIREWALL_BANDWIDTHABUSE_MAXCHECK : Int
  FIREWALL_BANDWIDTHABUSE_MINATTACK : Rat
  FIREWALL_BANDWIDTHABUSE_MAXATTACK : Rat
  FIREWALL_MINIMUM_PROTOCOL : Int
  FIREWALL_BANTIME_INVALIDWALLET : Int
  FIREWALL_INVALIDWALLET_MAXCHECK : Int
  FIREWALL_BANTIME_FORKEDWALLET : Int
  FIREWALL_FORKED_NODEHEIGHT : List Int
  FIREWALL_BANTIME_FLOODINGWALLET : Int
  FIREWALL_FLOODINGWALLET_MINBYTES : Int
  FIREWALL_FLOODINGWALLET_MAXBYTES : Int
  FIREWALL_FLOODPATTERNS : List String
  FIREWALL_FLOODINGWALLET_MINTRAFFICAVERAGE : Rat
  FIREWALL_FLOODINGWALLET_MAXTRAFFICAVERAGE : Rat
  FIREWALL_FLOODINGWALLET_MINCHECK : Int
  FIREWALL_FLOODINGWALLET_MAXCHECK : Int

/-- The compiled-in initialisers of the `FIREWALL_*` globals. The constant
`MIN_PEER_PROTO_VERSION` comes from a header outside the sources and is a parameter. -/
def defaultSettings (MIN_PEER_PROTO_VERSION : Int) : Settings where
  FIREWALL_ENABLED := true
  FIREWALL_CLEAR_BANS := false
  FIREWALL_CLEARBANS_MINNODES := 1
  FIREWALL_TRAFFIC_TOLERANCE := 1 / 10000
  FIREWALL_TRAFFIC_ZONE := 4
  FIREWALL_LIVE_DEBUG := false
  FIREWALL_LIVEDEBUG_EXAM := true
  FIREWALL_LIVEDEBUG_BANS := true
  FIREWALL_LIVEDEBUG_DISCONNECT := true
  FIREWALL_LIVEDEBUG_BANDWIDTHABUSE := true
  FIREWALL_LIVEDEBUG_NOFALSEPOSITIVE := true
  FIREWALL_LIVEDEBUG_INVALIDWALLET := true
  FIREWALL_LIVEDEBUG_FORKEDWALLET := true
  FIREWALL_LIVEDEBUG_FLOODINGWALLET := true
  FIREWALL_DETECT_BANDWIDTHABUSE := true
  FIREWALL_BAN_BANDWIDTHABUSE := true
  FIREWALL_NOFALSEPOSITIVE_BANDWIDTHABUSE := true
  FIREWALL_DETECT_INVALIDWALLET := true
  FIREWALL_BAN_INVALIDWALLET := true
  FIREWALL_DETECT_FORKEDWALLET := true
  FIREWALL_BAN_FORKEDWALLET := true
  FIREWALL_DETECT_FLOODINGWALLET := true
  FIREWALL_BAN_FLOODINGWALLET := true
  FIREWALL_AVERAGE_TOLERANCE := 2
  FIREWALL_AVERAGE_RANGE := 100
  FIREWALL_BANTIME_BANDWIDTHABUSE := 0
  FIREWALL_BANDWIDTHABUSE_MAXCHECK := 10
  FIREWALL_BANDWIDTHABUSE_MINATTACK := 171 / 10
  FIREWALL_BANDWIDTHABUSE_MAXATTACK := 172 / 10
  FIREWALL_MINIMUM_PROTOCOL := MIN_PEER_PROTO_VERSION
  FIREWALL_BANTIME_INVALIDWALLET := 2600000
  FIREWALL_INVALIDWALLET_MAXCHECK := 60
  FIREWALL_BANTIME_FORKEDWALLET := 2600000
  FIREWALL_FORKED_NODEHEIGHT := []
  FIREWALL_BANTIME_FLOODINGWALLET := 60 * 60
  FIREWALL_FLOODINGWALLET_MINBYTES := 1000000
  FIREWALL_FLOODINGWALLET_MAXBYTES := 1000000
  FIREWALL_FLOODPATTERNS := ["56810121416192123", "57910121517202223", "57910121416202223"]
  FIREWALL_FLOODINGWALLET_MINTRAFFICAVERAGE := 2000
  FIREWALL_FLOODINGWALLET_MAXTRAFFICAVERAGE := 2000
  FIREWALL_FLOODINGWALLET_MINCHECK := 30
  FIREWALL_FLOODINGWALLET_MAXCHECK := 90

/-- The "Global Firewall Variables" of `firewall.cpp` (the baseline and the first-run latch). -/
structure Globals where
  Firewall_FirstRun : Bool
  Firewall_AverageHeight : Int
  Firewall_AverageHeight_Min : Int
  Firewall_AverageHeight_Max : Int
  Firewall_AverageTraffic : Rat
  Firewall_AverageTraffic_Min : Rat
  Firewall_AverageTraffic_Max : Rat
  Firewall_AverageSend : Int
  Firewall_AverageRecv : Int

/-- The initialisers of the global firewall variables. -/
def initialGlobals : Globals where
  Firewall_FirstRun := false
  Firewall_AverageHeight := 0
  Firewall_AverageHeight_Min := 0
  Firewall_AverageHeight_Max := 0
  Firewall_AverageTraffic := 0
  Firewall_AverageTraffic_Min := 0
  Firewall_AverageTraffic_Max := 0
  Firewall_AverageSend := 0
  Firewall_AverageRecv := 0

/-! ## Peers, the connection manager and the environment -/

/-- The fields of `CNode` that the firewall reads or writes. The class itself is declared
in `net.h`, outside the sources. -/
structure CNode where
  addr : String
  nTimeConnected : Int
  nSendBytes : Nat
  nRecvBytes : Nat
  nStartingHeight : Int
  nSyncHeight : Int
  nRecvVersion : Int
  nTrafficRatio : Rat
  nTrafficAverage : Rat
  nTrafficTimestamp : Int
  fWhitelisted : Bool
  fDisconnect : Bool

/-- One ban recorded by the connection manager: the arguments of `CConnman::Ban`. -/
structure BanEntry where
  addr : String
  reason : Option BanReason
  bantimeoffset : Int
  sinceUnixEpoch : Bool
  deriving DecidableEq, Repr

/-- What a call observes from outside the firewall: the clock (`GetTime()`), the number of
connections (`g_connman->GetNodeCount(CConnman::CONNECTIONS_ALL)`) and whether
`TRY_LOCK(pnode->cs_vSend, lockSend)` obtains the lock. -/
structure Env where
  now : Int
  nodeCount : Nat
  lockSend : Bool

/-- Modelled from the spec: the ban store of the connection manager, which lives outside
the sources. It is the list of the bans requested, most recent first. -/
abbrev BanStore := List BanEntry

/-- Modelled from the spec: `CConnman::Ban(addr, reason, bantimeoffset, sinceUnixEpoch)`,
which adds the address to the ban store with the given reason and duration. -/
def CConnman.Ban (store : BanStore) (addr : String) (reason : Option BanReason)
    (bantimeoffset : Int) (sinceUnixEpoch : Bool) : BanStore :=
  { addr := addr, reason := reason, bantimeoffset := bantimeoffset,
    sinceUnixEpoch := sinceUnixEpoch } :: store

/-- Modelled from the spec: `CConnman::ClearBanned()`, which clears the entire ban store. -/
def CConnman.ClearBanned (_store : BanStore) : BanStore := []

/-- The process-wide state: settings, global variables and the ban store. -/
structure World where
  S : Settings
  G : Globals
  banned : BanStore

/-- Calls made by the engine, in the order they happen. -/
inductive Event where
  | loadSettings
  | clearBanned
  | checkAttack (detected : Bool) (attackType : String)
  | ban (addr : String) (reason : Option BanReason) (time : Int)
  | disconnect (addr : String) (locked : Bool)
  deriving DecidableEq, Repr

/-- Function `ForceDisconnectNode`: sets `fDisconnect` when the send lock is obtained and reports
whether it did. -/
def ForceDisconnectNode (env : Env) (pnode : CNode) : CNode × Bool :=
  if env.lockSend = true then
    ({ pnode with fDisconnect := true }, true)
  else
    (pnode, false)

/-- Function `AddToBanList`: asks the connection manager to ban the peer's address, relative
to now (`sinceUnixEpoch = false`). -/
def AddToBanList (W : World) (pnode : CNode) (BAN_REASON : Option BanReason) (BAN_TIME : Int) :
    World × Bool :=
  ({ W with banned := CConnman.Ban W.banned pnode.addr BAN_REASON BAN_TIME false }, true)

/-! ## The classifier: `CheckAttack` -/

/-- The locals of `CheckAttack` that the filters hand on to each other. `BAN_REASON` is
declared without an initialiser: `none` is the value it has before a filter assigns it. -/
structure AttackState where
  DETECTED_ATTACK : Bool
  ATTACK_TYPE : String
  BAN_ATTACK : Bool
  BAN_TIME : Int
  BAN_REASON : Option BanReason
  deriving DecidableEq, Repr

/-- The locals as `CheckAttack` initialises them. -/
def AttackState.init : AttackState where
  DETECTED_ATTACK := false
  ATTACK_TYPE := ""
  BAN_ATTACK := false
  BAN_TIME := 0
  BAN_REASON := none

/-- The assignment pair `DETECTED_ATTACK = true; ATTACK_TYPE = tag;`. -/
def AttackState.detect (a : AttackState) (tag : String) : AttackState :=
  { a with DETECTED_ATTACK := true, ATTACK_TYPE := tag }

/-- The assignment pair `ATTACK_TYPE = ""; DETECTED_ATTACK = false;`. -/
def AttackState.clear (a : AttackState) : AttackState :=
  { a with ATTACK_TYPE := "", DETECTED_ATTACK := false }

/-- The "Attack Mitigation" block shared by the four filters: when the detection flag is set
and the filter's ban toggle is on, schedule a ban with the filter's duration and reason. -/
def AttackState.mitigate (a : AttackState) (banToggle : Bool) (banTime : Int)
    (reason : BanReason) : AttackState :=
  if a.DETECTED_ATTACK = true then
    if banToggle = true then
      { a with BAN_ATTACK := true, BAN_TIME := banTime, BAN_REASON := some reason }
    else a
  else a

/-- The resolved height as `CheckAttack` computes it. -/
def CheckAttack.NodeHeight (pnode : CNode) : Int :=
  let NodeHeight := if pnode.nSyncHeight = 0 then pnode.nStartingHeight else pnode.nSyncHeight
  if pnode.nSyncHeight < pnode.nStartingHeight then pnode.nStartingHeight else NodeHeight

/-- The connection age as `CheckAttack` computes it: `int nTimeConnected = GetTime() -
pnode->nTimeConnected`. -/
def CheckAttack.nTimeConnected (env : Env) (pnode : CNode) : Int :=
  toInt32 (env.now - pnode.nTimeConnected)

/-- Filter 1 (Bandwidth Abuse), detection and mitigation. -/
def FilterBandwidthAbuse (S : Settings) (G : Globals) (pnode : CNode)
    (nTimeConnected NodeHeight : Int) (a : AttackState) : AttackState :=
  if S.FIREWALL_DETECT_BANDWIDTHABUSE = true then
    let a :=
      if nTimeConnected > S.FIREWALL_BANDWIDTHABUSE_MAXCHECK then
        let a :=
          if NodeHeight > G.Firewall_AverageHeight_Min then
            let a := if pnode.nTrafficAverage < G.Firewall_AverageTraffic_Min
              then a.detect "2-LowBW-HighHeight" else a
            if pnode.nTrafficAverage > G.Firewall_AverageTraffic_Max
              then a.detect "2-HighBW-HighHeight" else a
          else a
        if NodeHeight < G.Firewall_AverageHeight_Min then
          let a := if pnode.nTrafficAverage < G.Firewall_AverageTraffic_Min
            then a.detect "3-LowBW-LowHeight" else a
          if pnode.nTrafficAverage > G.Firewall_AverageTraffic_Max
            then a.detect "3-HighBW-LowHeight" else a
        else a
      else a
    a.mitigate S.FIREWALL_BAN_BANDWIDTHABUSE S.FIREWALL_BANTIME_BANDWIDTHABUSE
      BanReason.BanReasonBandwidthAbuse
  else a

/-- The first three tag tests of the "No False Positive" stage, which clear the detection
without a further condition. -/
def NoFalsePositive.syncTags (a : AttackState) : AttackState :=
  let a := if a.ATTACK_TYPE = "2-LowBW-HighHeight" then a.clear else a
  let a := if a.ATTACK_TYPE = "2-HighBW-HighHeight" then a.clear else a
  if a.ATTACK_TYPE = "3-LowBW-LowHeight" then a.clear else a

/-- The last tag test of the "No False Positive" stage. The raw ratio
`pnode->nSendBytes / pnode->nRecvBytes` is a division of two unsigned integers, converted to
`double` afterwards. -/
def NoFalsePositive.highBWLowHeight (S : Settings) (G : Globals) (pnode : CNode)
    (a : AttackState) : Except FirewallError AttackState :=
  if a.ATTACK_TYPE = "3-HighBW-LowHeight" then do
    let q ← udiv pnode.nSendBytes pnode.nRecvBytes
    let tnTraffic : Rat := (q : Rat)
    let a :=
      if pnode.nTrafficAverage < G.Firewall_AverageTraffic_Max then
        if tnTraffic < S.FIREWALL_BANDWIDTHABUSE_MINATTACK
            ∨ tnTraffic > S.FIREWALL_BANDWIDTHABUSE_MAXATTACK then a.clear else a
      else a
    pure (if pnode.nSendBytes > pnode.nRecvBytes then a.clear else a)
  else pure a

/-- The "No False Positive - Bandwidth Abuse" stage. -/
def NoFalsePositive (S : Settings) (G : Globals) (pnode : CNode) (a : AttackState) :
    Except FirewallError AttackState :=
  if S.FIREWALL_NOFALSEPOSITIVE_BANDWIDTHABUSE = true then
    if a.DETECTED_ATTACK = true then
      NoFalsePositive.highBWLowHeight S G pnode (NoFalsePositive.syncTags a)
    else pure a
  else pure a

/-- Filter 2 (Invalid Wallet), detection and mitigation. -/
def FilterInvalidWallet (S : Settings) (pnode : CNode) (nTimeConnected : Int)
    (a : AttackState) : AttackState :=
  if S.FIREWALL_DETECT_INVALIDWALLET = true then
    let a :=
      if nTimeConnected > S.FIREWALL_INVALIDWALLET_MAXCHECK then
        if pnode.nStartingHeight = -1 then a.detect "1-StartHeight-Invalid" else a
      else a
    let a :=
      if nTimeConnected > S.FIREWALL_INVALIDWALLET_MAXCHECK then
        if pnode.nStartingHeight < 0 then a.detect "1-StartHeight-Invalid" else a
      else a
    let a :=
      if nTimeConnected > S.FIREWALL_INVALIDWALLET_MAXCHECK then
        if pnode.nRecvVersion = 0 then a.detect "1-Protocol-Invalid" else a
      else a
    let a :=
      if nTimeConnected > S.FIREWALL_INVALIDWALLET_MAXCHECK then
        if pnode.nRecvVersion < 1 then a.detect "1-Protocol-Invalid" else a
      else a
    a.mitigate S.FIREWALL_BAN_INVALIDWALLET S.FIREWALL_BANTIME_INVALIDWALLET
      BanReason.BanReasonInvalidWallet
  else a

/-- One iteration of the loop of Filter 3 over a slot of `FIREWALL_FORKED_NODEHEIGHT`. -/
def forkedStep (pnode : CNode) (a : AttackState) (height : Int) : AttackState :=
  let a := if pnode.nStartingHeight = height then a.detect "Forked Wallet" else a
  if pnode.nSyncHeight = height then a.detect "Forked Wallet" else a

/-- Filter 3 (Forked Wallet), detection and mitigation. The loop runs over the slots
`0 .. TmpNodeHeightCount - 1` with `TmpNodeHeightCount = CountIntArray(...) - 2`. -/
def FilterForkedWallet (S : Settings) (pnode : CNode) (a : AttackState) : AttackState :=
  if S.FIREWALL_DETECT_FORKEDWALLET = true then
    let TmpNodeHeightCount : Int := (CountIntArray S.FIREWALL_FORKED_NODEHEIGHT : Int) - 2
    let a :=
      if TmpNodeHeightCount > 0 then
        (S.FIREWALL_FORKED_NODEHEIGHT.take TmpNodeHeightCount.toNat).foldl (forkedStep pnode) a
      else a
    a.mitigate S.FIREWALL_BAN_FORKEDWALLET S.FIREWALL_BANTIME_FORKEDWALLET
      BanReason.BanReasonForkedWallet
  else a

/-- The 25 warning probes of Filter 4 in source order, each with the code it appends. -/
def floodProbes (S : Settings) (G : Globals) (pnode : CNode)
    (nTimeConnected NodeHeight : Int) (a : AttackState) : List (Bool × String) :=
  let FLOODING_MAXBYTES : Nat := toSizeT S.FIREWALL_FLOODINGWALLET_MAXBYTES
  let FLOODING_MINBYTES : Nat := toSizeT S.FIREWALL_FLOODINGWALLET_MINBYTES
  [ (decide (NodeHeight < G.Firewall_AverageHeight_Min
      ∧ pnode.nTrafficAverage > G.Firewall_AverageTraffic_Max), "1"),
    (decide (pnode.nSendBytes < FLOODING_MINBYTES), "2"),
    (decide (pnode.nSendBytes < FLOODING_MINBYTES), "3"),
    (decide (pnode.nSendBytes < FLOODING_MAXBYTES), "4"),
    (decide (pnode.nSendBytes > FLOODING_MAXBYTES), "5"),
    (decide (pnode.nRecvBytes > FLOODING_MINBYTES / 2), "6"),
    (decide (pnode.nRecvBytes < FLOODING_MINBYTES / 2), "7"),
    (decide (pnode.nRecvBytes > FLOODING_MAXBYTES / 2), "8"),
    (decide (pnode.nRecvBytes < FLOODING_MAXBYTES / 2), "9"),
    (decide (pnode.nSendBytes > FLOODING_MINBYTES / 2), "10"),
    (decide (pnode.nSendBytes < FLOODING_MINBYTES / 2), "11"),
    (decide (pnode.nSendBytes > FLOODING_MINBYTES / 2), "12"),
    (decide (pnode.nSendBytes < FLOODING_MINBYTES / 2), "13"),
    (decide (pnode.nTrafficAverage > S.FIREWALL_FLOODINGWALLET_MINTRAFFICAVERAGE), "14"),
    (decide (pnode.nTrafficAverage < S.FIREWALL_FLOODINGWALLET_MINTRAFFICAVERAGE), "15"),
    (decide (pnode.nTrafficAverage > S.FIREWALL_FLOODINGWALLET_MAXTRAFFICAVERAGE), "16"),
    (decide (pnode.nTrafficAverage < S.FIREWALL_FLOODINGWALLET_MAXTRAFFICAVERAGE), "17"),
    (decide (pnode.nStartingHeight = pnode.nSyncHeight), "18"),
    (decide (nTimeConnected > toInt32 (S.FIREWALL_FLOODINGWALLET_MINCHECK * 60)), "19"),
    (decide (nTimeConnected < toInt32 (S.FIREWALL_FLOODINGWALLET_MINCHECK * 60)), "20"),
    (decide (nTimeConnected > toInt32 (S.FIREWALL_FLOODINGWALLET_MAXCHECK * 60)), "21"),
    (decide (nTimeConnected < toInt32 (S.FIREWALL_FLOODINGWALLET_MAXCHECK * 60)), "22"),
    (decide (NodeHeight > G.Firewall_AverageHeight
      ∧ NodeHeight < G.Firewall_AverageHeight_Max), "23"),
    (decide ((pnode.nSyncHeight : Rat) < G.Firewall_AverageTraffic_Max
      ∧ pnode.nSyncHeight > G.Firewall_AverageHeight_Min), "24"),
    (decide (a.DETECTED_ATTACK = true), "25") ]

/-- One statement `if (probe) WARNINGS = WARNINGS + code;`. -/
def warnStep (WARNINGS : String) (probe : Bool × String) : String :=
  if probe.1 = true then WARNINGS ++ probe.2 else WARNINGS

/-- The warning string left by a sequence of probes, starting from the empty string. -/
def buildWarnings (probes : List (Bool × String)) : String :=
  probes.foldl warnStep ""

/-- One iteration of the pattern loop of Filter 4. -/
def floodStep (WARNINGS : String) (a : AttackState) (pattern : String) : AttackState :=
  if WARNINGS = pattern then a.detect "Flooding Wallet" else a

/-- Filter 4 (Flooding Wallet), detection and mitigation. -/
def FilterFloodingWallet (S : Settings) (G : Globals) (pnode : CNode)
    (nTimeConnected NodeHeight : Int) (a : AttackState) : AttackState :=
  if S.FIREWALL_DETECT_FLOODINGWALLET = true then
    let WARNINGS := buildWarnings (floodProbes S G pnode nTimeConnected NodeHeight a)
    let TmpFloodPatternsCount := CountStringArray S.FIREWALL_FLOODPATTERNS
    let a :=
      if TmpFloodPatternsCount > 0 then
        (S.FIREWALL_FLOODPATTERNS.take TmpFloodPatternsCount).foldl (floodStep WARNINGS) a
      else a
    a.mitigate S.FIREWALL_BAN_FLOODINGWALLET S.FIREWALL_BANTIME_FLOODINGWALLET
      BanReason.BanReasonFloodingWallet
  else a

/-- The locals of `CheckAttack` when Filter 4 starts: after Filter 1, the no-false-positive
stage, Filter 2 and Filter 3. -/
def CheckAttack.beforeFlooding (env : Env) (W : World) (pnode : CNode) :
    Except FirewallError AttackState := do
  let nTimeConnected := CheckAttack.nTimeConnected env pnode
  let NodeHeight := CheckAttack.NodeHeight pnode
  let a := FilterBandwidthAbuse W.S W.G pnode nTimeConnected NodeHeight AttackState.init
  let a ← NoFalsePositive W.S W.G pnode a
  let a := FilterInvalidWallet W.S pnode nTimeConnected a
  pure (FilterForkedWallet W.S pnode a)

/-- The outcomes of the 25 probes for a peer, in probe order. -/
def CheckAttack.probeOutcomes (env : Env) (W : World) (pnode : CNode) (a : AttackState) :
    List Bool :=
  (floodProbes W.S W.G pnode (CheckAttack.nTimeConnected env pnode)
    (CheckAttack.NodeHeight pnode) a).map Prod.fst

/-- The string `WARNINGS` that Filter 4 builds for a peer. -/
def CheckAttack.WARNINGS (env : Env) (W : World) (pnode : CNode) (a : AttackState) : String :=
  buildWarnings (floodProbes W.S W.G pnode (CheckAttack.nTimeConnected env pnode)
    (CheckAttack.NodeHeight pnode) a)

/-- The locals of `CheckAttack` after the filter pipeline, just before the trigger. -/
def CheckAttack.filters (env : Env) (W : World) (pnode : CNode) :
    Except FirewallError AttackState := do
  let a ← CheckAttack.beforeFlooding env W pnode
  pure (FilterFloodingWallet W.S W.G pnode (CheckAttack.nTimeConnected env pnode)
    (CheckAttack.NodeHeight pnode) a)

/-- What a run of `CheckAttack` leaves behind. -/
structure CheckOutcome where
  result : Bool
  verdict : AttackState
  W : World
  pnode : CNode
  events : List Event

/-- Function `CheckAttack`: the filter pipeline followed by the trigger, which bans when a ban was
scheduled and then forces a disconnect. -/
def CheckAttack (env : Env) (W : World) (pnode : CNode) :
    Except FirewallError CheckOutcome := do
  let a ← CheckAttack.filters env W pnode
  if a.DETECTED_ATTACK = true then
    let banned :=
      if a.BAN_ATTACK = true then
        ((AddToBanList W pnode a.BAN_REASON a.BAN_TIME).1,
          [Event.ban pnode.addr a.BAN_REASON a.BAN_TIME])
      else (W, [])
    let disconnected := ForceDisconnectNode env pnode
    pure { result := true, verdict := a, W := banned.1, pnode := disconnected.1,
           events := banned.2 ++ [Event.disconnect pnode.addr disconnected.2] }
  else
    pure { result := false, verdict := a, W := W, pnode := pnode, events := [] }

/-! ## Startup configuration: `LoadFirewallSettings` -/

/-- The argument store `gArgs` (class `ArgsManager`, declared outside the sources), taken as
a parameter: one lookup per kind of default that `LoadFirewallSettings` passes. How a
`double` default is looked up is left to `GetArgDouble`. -/
structure ArgsManager where
  GetBoolArg : String → Bool → Bool
  GetArgInt : String → Int → Int
  GetArgDouble : String → Rat → Rat
  GetArgStr : String → String → String

/-- The assignment `ArrayName[index] = value` on an array given by its leading slots: slots
between the end of the list and `index` hold the terminator. -/
def setSlot (ArrayName : List String) (index : Nat) (value : String) : List String :=
  if index < ArrayName.length then ArrayName.set index value
  else ArrayName ++ List.replicate (index - ArrayName.length) "" ++ [value]

/-- Function `LoadFirewallSettings`: every setting is replaced by the value the argument store gives
for it, with the current value as default. The settings the function does not mention
(`FIREWALL_CLEARBANS_MINNODES`, `FIREWALL_AVERAGE_TOLERANCE`, `FIREWALL_AVERAGE_RANGE`,
`FIREWALL_FORKED_NODEHEIGHT`) keep their value. -/
def LoadFirewallSettings (gArgs : ArgsManager) (S : Settings) : Settings :=
  { S with
    FIREWALL_ENABLED := gArgs.GetBoolArg "-firewallenabled" S.FIREWALL_ENABLED
    FIREWALL_CLEAR_BANS := gArgs.GetBoolArg "-firewallclearbanlist" S.FIREWALL_CLEAR_BANS
    FIREWALL_LIVE_DEBUG := gArgs.GetBoolArg "-firewalldebug" S.FIREWALL_LIVE_DEBUG
    FIREWALL_LIVEDEBUG_EXAM := gArgs.GetBoolArg "-firewalldebugexam" S.FIREWALL_LIVEDEBUG_EXAM
    FIREWALL_LIVEDEBUG_BANS := gArgs.GetBoolArg "-firewalldebugbans" S.FIREWALL_LIVEDEBUG_BANS
    FIREWALL_LIVEDEBUG_DISCONNECT :=
      gArgs.GetBoolArg "-firewalldebugdisconnect" S.FIREWALL_LIVEDEBUG_DISCONNECT
    FIREWALL_LIVEDEBUG_BANDWIDTHABUSE :=
      gArgs.GetBoolArg "-firewalldebugbandwidthabuse" S.FIREWALL_LIVEDEBUG_BANDWIDTHABUSE
    FIREWALL_LIVEDEBUG_NOFALSEPOSITIVE :=
      gArgs.GetBoolArg "-firewalldebugnofalsepositivebandwidthabuse"
        S.FIREWALL_LIVEDEBUG_NOFALSEPOSITIVE
    FIREWALL_LIVEDEBUG_INVALIDWALLET :=
      gArgs.GetBoolArg "-firewalldebuginvalidwallet" S.FIREWALL_LIVEDEBUG_INVALIDWALLET
    FIREWALL_LIVEDEBUG_FORKEDWALLET :=
      gArgs.GetBoolArg "-firewalldebugforkedwallet" S.FIREWALL_LIVEDEBUG_FORKEDWALLET
    FIREWALL_LIVEDEBUG_FLOODINGWALLET :=
      gArgs.GetBoolArg "-firewalldebugfloodingwallet" S.FIREWALL_LIVEDEBUG_FLOODINGWALLET
    FIREWALL_DETECT_BANDWIDTHABUSE :=
      gArgs.GetBoolArg "-firewalldetectbandwidthabuse" S.FIREWALL_DETECT_BANDWIDTHABUSE
    FIREWALL_BAN_BANDWIDTHABUSE :=
      gArgs.GetBoolArg "-firewallbanbandwidthabuse" S.FIREWALL_BAN_BANDWIDTHABUSE
    FIREWALL_NOFALSEPOSITIVE_BANDWIDTHABUSE :=
      gArgs.GetBoolArg "-firewallnofalsepositivebandwidthabuse"
        S.FIREWALL_NOFALSEPOSITIVE_BANDWIDTHABUSE
    FIREWALL_DETECT_INVALIDWALLET :=
      gArgs.GetBoolArg "-firewalldetectinvalidwallet" S.FIREWALL_DETECT_INVALIDWALLET
    FIREWALL_BAN_INVALIDWALLET :=
      gArgs.GetBoolArg "-firewallbaninvalidwallet" S.FIREWALL_BAN_INVALIDWALLET
    FIREWALL_DETECT_FORKEDWALLET :=
      gArgs.GetBoolArg "-firewalldetectforkedwallet" S.FIREWALL_DETECT_FORKEDWALLET
    FIREWALL_BAN_FORKEDWALLET :=
      gArgs.GetBoolArg "-firewallbanforkedwallet" S.FIREWALL_BAN_FORKEDWALLET
    FIREWALL_DETECT_FLOODINGWALLET :=
      gArgs.GetBoolArg "-firewalldetectfloodingwallet" S.FIREWALL_DETECT_FLOODINGWALLET
    FIREWALL_BAN_FLOODINGWALLET :=
      gArgs.GetBoolArg "-firewallbanfloodingwallet" S.FIREWALL_BAN_FLOODINGWALLET
    FIREWALL_TRAFFIC_TOLERANCE :=
      gArgs.GetArgDouble "-firewalltraffictolerance" S.FIREWALL_TRAFFIC_TOLERANCE
    FIREWALL_TRAFFIC_ZONE := gArgs.GetArgDouble "-firewalltrafficzone" S.FIREWALL_TRAFFIC_ZONE
    FIREWALL_BANTIME_BANDWIDTHABUSE :=
      toInt32 (gArgs.GetArgInt "-firewallbantimebandwidthabuse" S.FIREWALL_BANTIME_BANDWIDTHABUSE)
    FIREWALL_BANDWIDTHABUSE_MAXCHECK :=
      toInt32 (gArgs.GetArgInt "-firewallbandwidthabusemaxcheck"
        S.FIREWALL_BANDWIDTHABUSE_MAXCHECK)
    FIREWALL_BANDWIDTHABUSE_MINATTACK :=
      gArgs.GetArgDouble "-firewallbandwidthabuseminattack" S.FIREWALL_BANDWIDTHABUSE_MINATTACK
    FIREWALL_BANDWIDTHABUSE_MAXATTACK :=
      gArgs.GetArgDouble "-firewallbandwidthabusemaxattack" S.FIREWALL_BANDWIDTHABUSE_MAXATTACK
    FIREWALL_MINIMUM_PROTOCOL :=
      toInt32 (gArgs.GetArgInt "-firewallinvalidwalletminprotocol" S.FIREWALL_MINIMUM_PROTOCOL)
    FIREWALL_BANTIME_INVALIDWALLET :=
      toInt32 (gArgs.GetArgInt "-firewallbantimeinvalidwallet" S.FIREWALL_BANTIME_INVALIDWALLET)
    FIREWALL_INVALIDWALLET_MAXCHECK :=
      toInt32 (gArgs.GetArgInt "-firewallinvalidwalletmaxcheck" S.FIREWALL_INVALIDWALLET_MAXCHECK)
    FIREWALL_BANTIME_FORKEDWALLET :=
      toInt32 (gArgs.GetArgInt "-firewallbantimeforkedwallet" S.FIREWALL_BANTIME_FORKEDWALLET)
    FIREWALL_BANTIME_FLOODINGWALLET :=
      toInt32 (gArgs.GetArgInt "-firewallbantimefloodingwallet" S.FIREWALL_BANTIME_FLOODINGWALLET)
    FIREWALL_FLOODINGWALLET_MINBYTES :=
      toInt32 (gArgs.GetArgInt "-firewallfloodingwalletminbytes"
        S.FIREWALL_FLOODINGWALLET_MINBYTES)
    FIREWALL_FLOODINGWALLET_MAXBYTES :=
      toInt32 (gArgs.GetArgInt "-firewallfloodingwalletmaxbytes"
        S.FIREWALL_FLOODINGWALLET_MAXBYTES)
    FIREWALL_FLOODPATTERNS :=
      if gArgs.GetArgStr "-firewallfloodingwalletattackpattern" "-" ≠ "-" then
        setSlot S.FIREWALL_FLOODPATTERNS (CountStringArray S.FIREWALL_FLOODPATTERNS)
          (gArgs.GetArgStr "-firewallfloodingwalletattackpattern" "")
      else S.FIREWALL_FLOODPATTERNS
    FIREWALL_FLOODINGWALLET_MINTRAFFICAVERAGE :=
      gArgs.GetArgDouble "-firewallfloodingwalletmintrafficavg"
        S.FIREWALL_FLOODINGWALLET_MINTRAFFICAVERAGE
    FIREWALL_FLOODINGWALLET_MAXTRAFFICAVERAGE :=
      gArgs.GetArgDouble "-firewallfloodingwalletmaxtrafficavg"
        S.FIREWALL_FLOODINGWALLET_MAXTRAFFICAVERAGE
    FIREWALL_FLOODINGWALLET_MINCHECK :=
      toInt32 (gArgs.GetArgInt "-firewallfloodingwalletmincheck"
        S.FIREWALL_FLOODINGWALLET_MINCHECK)
    FIREWALL_FLOODINGWALLET_MAXCHECK :=
      toInt32 (gArgs.GetArgInt "-firewallfloodingwalletmaxcheck"
        S.FIREWALL_FLOODINGWALLET_MAXCHECK) }

/-! ## The examiner: `Examination` -/

/-- The resolved height as `Examination` computes it. -/
def Examination.NodeHeight (pnode : CNode) : Int :=
  if pnode.nSyncHeight = 0 then pnode.nStartingHeight
  else if pnode.nSyncHeight < pnode.nStartingHeight then pnode.nStartingHeight
  else pnode.nSyncHeight

/-- The block "Update current average if increased" of `Examination`. -/
def updateHeight (S : Settings) (G : Globals) (NodeHeight : Int) : Globals :=
  if NodeHeight > G.Firewall_AverageHeight then
    let h := toInt32 (G.Firewall_AverageHeight + NodeHeight)
    let h := Int.tdiv h 2
    let h := toInt32 (h - S.FIREWALL_AVERAGE_TOLERANCE)
    { G with
      Firewall_AverageHeight := h
      Firewall_AverageHeight_Min := toInt32 (h - S.FIREWALL_AVERAGE_RANGE)
      Firewall_AverageHeight_Max := toInt32 (h + S.FIREWALL_AVERAGE_RANGE) }
  else G

/-- The block guarded by `UpdateNodeStats == true` of `Examination`: the traffic baseline and
the per-connection send / receive shares. -/
def updateTraffic (env : Env) (S : Settings) (G : Globals) (pnode : CNode) :
    Except FirewallError Globals := do
  let t := G.Firewall_AverageTraffic + pnode.nTrafficAverage
  let t := t / 2
  let t := t - S.FIREWALL_TRAFFIC_TOLERANCE
  let G := { G with
    Firewall_AverageTraffic := t
    Firewall_AverageTraffic_Min := t - S.FIREWALL_TRAFFIC_ZONE
    Firewall_AverageTraffic_Max := t + S.FIREWALL_TRAFFIC_ZONE }
  let Connections : Int := toInt32 env.nodeCount
  if Connections > 0 then
    let sendShare ← udiv pnode.nSendBytes (toSizeT Connections)
    let recvShare ← udiv pnode.nRecvBytes (toSizeT Connections)
    pure { G with
      Firewall_AverageSend := toInt32 (G.Firewall_AverageSend + sendShare)
      Firewall_AverageRecv := toInt32 (G.Firewall_AverageRecv + recvShare) }
  else pure G

/-- What a run of `Examination` leaves behind. -/
structure ExamOutcome where
  W : World
  pnode : CNode
  events : List Event

/-- The flag `UpdateNodeStats` of `Examination`: the sample qualifies when the peer has no
sample timestamp yet or more than five seconds have passed since it. -/
def Examination.UpdateNodeStats (env : Env) (pnode : CNode) : Bool :=
  decide (pnode.nTrafficTimestamp = 0) || decide (env.now - pnode.nTrafficTimestamp > 5)

/-- The assignments of `Examination` to the peer's telemetry: the traffic ratio, then the
traffic average and the sample timestamp. -/
def Examination.refresh (env : Env) (pnode : CNode) (ratio : Rat) : CNode :=
  let pnode := { pnode with nTrafficRatio := ratio }
  { pnode with
    nTrafficAverage := pnode.nTrafficAverage + pnode.nTrafficRatio / 2
    nTrafficTimestamp := env.now }

/-- The statement `if (UpdateNodeStats == true) { ... }` of `Examination`. -/
def Examination.foldTraffic (env : Env) (S : Settings) (G : Globals) (pnode : CNode)
    (UpdateNodeStats : Bool) : Except FirewallError Globals :=
  if UpdateNodeStats = true then updateTraffic env S G pnode else pure G

/-- The body of `if (pnode->nRecvBytes > 0)` in `Examination`, entered with the globals `G`
left by the height update: the traffic ratio, the flag `UpdateNodeStats` (computed from the
timestamp before it is overwritten), the telemetry refresh, the baseline fold and the call
of `CheckAttack`. -/
def Examination.traffic (env : Env) (W : World) (G : Globals) (pnode : CNode) :
    Except FirewallError ExamOutcome := do
  let ratio ← fdiv (pnode.nSendBytes : Rat) (pnode.nRecvBytes : Rat)
  let G ← Examination.foldTraffic env W.S G (Examination.refresh env pnode ratio)
    (Examination.UpdateNodeStats env pnode)
  let c ← CheckAttack env { W with G := G } (Examination.refresh env pnode ratio)
  pure { W := c.W, pnode := c.pnode,
         events := Event.checkAttack c.result c.verdict.ATTACK_TYPE :: c.events }

/-- Function `Examination`: fold the peer into the height baseline, then, for a peer that has sent
bytes back, refresh its traffic telemetry, fold it into the traffic baseline when the
sample qualifies, and run `CheckAttack`. -/
def Examination (env : Env) (W : World) (pnode : CNode) : Except FirewallError ExamOutcome :=
  let NodeHeight := Examination.NodeHeight pnode
  let G := updateHeight W.S W.G NodeHeight
  if pnode.nRecvBytes > 0 then
    Examination.traffic env W G pnode
  else
    pure { W := { W with G := G }, pnode := pnode, events := [] }

/-! ## The top-level gate: `FireWall` -/

/-- What a call of `FireWall` leaves behind. -/
structure FireWallOutcome where
  result : Bool
  W : World
  pnode : Option CNode
  events : List Event

/-- The lazy load at the head of `FireWall`: on the first run the latch is set and the
settings are loaded. -/
def FireWall.firstRun (gArgs : ArgsManager) (W : World) : World × List Event :=
  if W.G.Firewall_FirstRun = false then
    ({ W with G := { W.G with Firewall_FirstRun := true }, S := LoadFirewallSettings gArgs W.S },
      [Event.loadSettings])
  else (W, [])

/-- The `FIREWALL_CLEAR_BANS` block of `FireWall`. The test on the peer reads
`pnode->nTimeConnected`, the connect timestamp. -/
def FireWall.clearBans (env : Env) (W : World) (pnode : CNode) : World × List Event :=
  if W.S.FIREWALL_CLEAR_BANS = true then
    if pnode.nTimeConnected > 90 then
      if W.S.FIREWALL_CLEARBANS_MINNODES ≤ toInt32 env.nodeCount then
        ({ W with banned := CConnman.ClearBanned W.banned }, [Event.clearBanned])
      else (W, [])
    else (W, [])
  else (W, [])

/-- Function `FireWall`: the entry point called for a peer (`none` is the null pointer). -/
def FireWall (gArgs : ArgsManager) (env : Env) (W : World) (pnode : Option CNode) :
    Except FirewallError FireWallOutcome :=
  match pnode with
  | none => pure { result := false, W := W, pnode := none, events := [] }
  | some pnode => do
    let loaded := FireWall.firstRun gArgs W
    let W := loaded.1
    if W.S.FIREWALL_ENABLED = false then
      pure { result := false, W := W, pnode := some pnode, events := loaded.2 }
    else if pnode.fWhitelisted = true then
      pure { result := false, W := W, pnode := some pnode, events := loaded.2 }
    else
      let cleared := FireWall.clearBans env W pnode
      let e ← Examination env cleared.1 pnode
      pure { result := false, W := e.W, pnode := some e.pnode,
             events := loaded.2 ++ cleared.2 ++ e.events }

/-! ## Probe codes and outcome vectors -/

/-- The codes appended by the 25 probes of Filter 4, in probe order. -/
def probeCodes : List String :=
  ["1", "2", "3", "4", "5", "6", "7", "8", "9", "10", "11", "12", "13", "14", "15", "16", "17",
   "18", "19", "20", "21", "22", "23", "24", "25"]

/-- The warning string that a vector of probe outcomes produces. -/
def warningOf (outcomes : List Bool) : String :=
  buildWarnings (outcomes.zip probeCodes)

/-- Number of characters that a sequence of probes appends. -/
def codeLen (probes : List (Bool × String)) : Nat :=
  (probes.map (fun q => if q.1 = true then q.2.length else 0)).sum

/-! ## The warning string in the words of the specification -/

/-- The warning string as the specification words it: the decimal codes of exactly those
probes among 1..25 whose outcome is true, in ascending numeric order, concatenated without
separators. -/
def specWarnings (outcomes : List Bool) : String :=
  String.join
    (((List.range' 1 25).filter (fun k => outcomes.getD (k - 1) false)).map
      (fun k => toString k))

/-- The outcome vector in which exactly the probes with the given numbers are true. -/
def outcomesOf (fired : List Nat) : List Bool :=
  (List.range' 1 25).map (fun k => decide (k ∈ fired))

/-! ## The detections of the filters after the no-false-positive stage -/

/-- The detection condition of Filter 2 (Invalid Wallet): the filter is enabled, the
connection is older than its threshold, and one of its four tests holds. -/
abbrev invalidWalletCondition (S : Settings) (pnode : CNode) (nTimeConnected : Int) : Prop :=
  S.FIREWALL_DETECT_INVALIDWALLET = true
  ∧ nTimeConnected > S.FIREWALL_INVALIDWALLET_MAXCHECK
  ∧ (pnode.nStartingHeight = -1 ∨ pnode.nStartingHeight < 0
      ∨ pnode.nRecvVersion = 0 ∨ pnode.nRecvVersion < 1)

/-- Filter 3 (Forked Wallet) finds a match: the filter is enabled and one of the slots its
loop visits equals the starting height or the synced height of the peer. -/
abbrev forkedWalletMatch (S : Settings) (pnode : CNode) : Prop :=
  S.FIREWALL_DETECT_FORKEDWALLET = true
  ∧ ∃ height ∈ S.FIREWALL_FORKED_NODEHEIGHT.take
        ((CountIntArray S.FIREWALL_FORKED_NODEHEIGHT : Int) - 2).toNat,
      pnode.nStartingHeight = height ∨ pnode.nSyncHeight = height

/-- Filter 4 (Flooding Wallet) finds a match: the filter is enabled and one of the slots its
loop visits equals the warning string. -/
abbrev floodingWalletMatch (S : Settings) (WARNINGS : String) : Prop :=
  S.FIREWALL_DETECT_FLOODINGWALLET = true
  ∧ WARNINGS ∈ S.FIREWALL_FLOODPATTERNS.take (CountStringArray S.FIREWALL_FLOODPATTERNS)

/-! ## What the classifier reads -/

/-- The telemetry of a peer that the filters of `CheckAttack` read: the connection age,
the bytes sent and received, the starting and synced heights, the protocol version and the
traffic average. -/
def CheckAttack.telemetry (env : Env) (pnode : CNode) :
    Int × Nat × Nat × Int × Int × Int × Rat :=
  (CheckAttack.nTimeConnected env pnode, pnode.nSendBytes, pnode.nRecvBytes,
    pnode.nStartingHeight, pnode.nSyncHeight, pnode.nRecvVersion, pnode.nTrafficAverage)

/-- The global firewall variables that the filters of `CheckAttack` read: the average height
with its minimum and maximum, and the minimum and maximum of the average traffic. -/
def CheckAttack.baseline (G : Globals) : Int × Int × Int × Rat × Rat :=
  (G.Firewall_AverageHeight, G.Firewall_AverageHeight_Min, G.Firewall_AverageHeight_Max,
    G.Firewall_AverageTraffic_Min, G.Firewall_AverageTraffic_Max)

/-! ## The control surface: adding a flood pattern -/

/-- Failure of a control-surface call: the `std::runtime_error` thrown with the help text. -/
inductive RpcError where
  | usage
  deriving DecidableEq, Repr

/-- The part of `JSONRPCRequest` that the firewall commands read; the parameters are taken
as strings. -/
structure JSONRPCRequest where
  fHelp : Bool
  params : List String

/-- The assignment `MSG = CountStringArray(...)` of an `int` to a `std::string`, which
stores the single character with that code. -/
def charMessage (count : Nat) : String :=
  String.singleton (Char.ofNat (count % 256))

/-- Function `firewallfloodingwalletattackpatternadd` of `rpc/net.cpp`: the settings after
the call and the message `MSG` put in the reply. -/
def firewallfloodingwalletattackpatternadd (S : Settings) (request : JSONRPCRequest) :
    Except RpcError (Settings × String) :=
  if request.fHelp = true ∨ request.params.length = 0 then Except.error RpcError.usage
  else if request.params.length = 1 then
    if CountStringArray S.FIREWALL_FLOODPATTERNS < 256 then
      pure
        ({ S with
            FIREWALL_FLOODPATTERNS :=
              setSlot S.FIREWALL_FLOODPATTERNS (CountStringArray S.FIREWALL_FLOODPATTERNS)
                (request.params.getD 0 "") },
          charMessage (CountStringArray
            (setSlot S.FIREWALL_FLOODPATTERNS (CountStringArray S.FIREWALL_FLOODPATTERNS)
              (request.params.getD 0 ""))))
    else pure (S, "Over 256 Max!")
  else pure (S, "")

/-! ## The baseline and Filter 1 in the words of the specification -/

/-- The 32-bit range of `int`. -/
abbrev inInt32 (x : Int) : Prop := -2147483648 ≤ x ∧ x < 2147483648

/-- The resolved height as the specification words it: the synced height when it is nonzero
and at least the starting height, the starting height otherwise. -/
def specResolvedHeight (startingHeight syncedHeight : Int) : Int :=
  if syncedHeight ≠ 0 ∧ syncedHeight ≥ startingHeight then syncedHeight else startingHeight

/-- The height update as the specification words it, on the triple (average, minimum,
maximum): when the peer height exceeds the average, the new average is the integer half of
the sum minus the tolerance, and minimum and maximum are the new average minus and plus the
range; otherwise nothing changes. The integer division is the truncating one of C++. -/
def specUpdateHeight (tolerance range : Int) (heights : Int × Int × Int) (peerHeight : Int) :
    Int × Int × Int :=
  if peerHeight > heights.1 then
    (Int.tdiv (heights.1 + peerHeight) 2 - tolerance,
      Int.tdiv (heights.1 + peerHeight) 2 - tolerance - range,
      Int.tdiv (heights.1 + peerHeight) 2 - tolerance + range)
  else heights

/-- The traffic fold as the specification words it, on the triple (average, minimum,
maximum): the new average is half the sum of the average and the peer's traffic average,
minus the tolerance, and minimum and maximum are the new average minus and plus the zone. -/
def specUpdateTraffic (tolerance zone : Rat) (averageTraffic peerAverage : Rat) :
    Rat × Rat × Rat :=
  ((averageTraffic + peerAverage) / 2 - tolerance,
    (averageTraffic + peerAverage) / 2 - tolerance - zone,
    (averageTraffic + peerAverage) / 2 - tolerance + zone)

/-- The tag of Filter 1 as the specification words it: `2-` and `HighHeight` above the
minimum height, `3-` and `LowHeight` below; `HighBW` above the maximum traffic, `LowBW`
otherwise. -/
def specBandwidthTag (NodeHeight heightMin : Int) (trafficAverage trafficMax : Rat) : String :=
  (if NodeHeight > heightMin then "2-" else "3-")
    ++ (if trafficAverage > trafficMax then "HighBW" else "LowBW")
    ++ (if NodeHeight > heightMin then "-HighHeight" else "-LowHeight")

/-- The local `tnTraffic` of the no-false-positive stage: `pnode->nSendBytes /
pnode->nRecvBytes`, a division of two unsigned integers whose result is converted to
`double`. -/
def NoFalsePositive.tnTraffic (pnode : CNode) : Except FirewallError Rat :=
  udiv pnode.nSendBytes pnode.nRecvBytes >>= fun q => pure (q : Rat)

/-! ## The control surface: the master switch -/

/-- Function `firewallenabled` of `rpc/net.cpp`: the settings after the call and the string
`strCommand` put in the reply. -/
def firewallenabled (S : Settings) (request : JSONRPCRequest) :
    Except RpcError (Settings × String) :=
  if request.fHelp = true ∨ request.params.length = 0 then Except.error RpcError.usage
  else
    let strCommand := if request.params.length = 1 then request.params.getD 0 "" else "true"
    if strCommand = "true" then pure ({ S with FIREWALL_ENABLED := true }, strCommand)
    else pure ({ S with FIREWALL_ENABLED := false }, strCommand)

/-! ## The control surface: removing a flood pattern -/

/-- The body of the loop of `firewallfloodingwalletattackpatternremove` at index `i`, on the
pair of the array `FIREWALL_FLOODPATTERNS` and the message `MSG`: a slot equal to `WARNING`
is copied to `MSG` and then blanked. -/
def removeStep (WARNING : String) (st : List String × String) (i : Nat) :
    List String × String :=
  if WARNING = st.1.getD i "" then (setSlot st.1 i "", st.1.getD i "") else st

/-- Function `firewallfloodingwalletattackpatternremove` of `rpc/net.cpp`: the settings after
the call and the message `MSG` put in the reply. The count `TmpFloodPatternsCount`, the bound
of the loop, is taken once, before the loop. -/
def firewallfloodingwalletattackpatternremove (S : Settings) (request : JSONRPCRequest) :
    Except RpcError (Settings × String) :=
  if request.fHelp = true ∨ request.params.length = 0 then Except.error RpcError.usage
  else if request.params.length = 1 then
    pure ({ S with FIREWALL_FLOODPATTERNS :=
              ((List.range (CountStringArray S.FIREWALL_FLOODPATTERNS)).foldl
                (removeStep (request.params.getD 0 ""))
                (S.FIREWALL_FLOODPATTERNS, "Not Found")).1 },
          ((List.range (CountStringArray S.FIREWALL_FLOODPATTERNS)).foldl
            (removeStep (request.params.getD 0 ""))
            (S.FIREWALL_FLOODPATTERNS, "Not Found")).2)
  else pure (S, "")

/-- The removal as the specification words it: every slot before the first blank slot whose
content equals the pattern becomes the empty string, every other slot keeps its content and
its position. -/
def specRemove (pattern : String) (slots : List String) : List String :=
  (slots.take (CountStringArray slots)).map (fun s => if s = pattern then "" else s)
    ++ slots.drop (CountStringArray slots)

/-! ## Sequences of examinations -/

/-- A sequence of calls of `Examination`, each with the environment of its call; the state
left by one call is the state the next call finds. -/
def examineAll (W : World) : List (Env × CNode) → Except FirewallError World
  | [] => pure W
  | call :: rest => Examination call.1 W call.2 >>= fun e => examineAll e.W rest

/-- No integer overflow in the height updates along a sequence of resolved heights: each
update that is triggered keeps the sum `Firewall_AverageHeight + NodeHeight` and the
difference with the tolerance inside the range of `int`. -/
def heightsInRange (S : Settings) (G : Globals) : List Int → Bool
  | [] => true
  | NodeHeight :: rest =>
    decide (NodeHeight > G.Firewall_AverageHeight →
      inInt32 (G.Firewall_AverageHeight + NodeHeight)
      ∧ inInt32 (Int.tdiv (G.Firewall_AverageHeight + NodeHeight) 2
          - S.FIREWALL_AVERAGE_TOLERANCE))
    && heightsInRange S (updateHeight S G NodeHeight) rest

/-! ## Sample inputs -/

/-- An argument store without overrides: every lookup returns the default passed to it. -/
def sampleArgs : ArgsManager where
  GetBoolArg := fun _ d => d
  GetArgInt := fun _ d => d
  GetArgDouble := fun _ d => d
  GetArgStr := fun _ d => d

/-- The process state at start-up, with protocol floor 70015. -/
def sampleWorld : World where
  S := defaultSettings 70015
  G := initialGlobals
  banned := []

/-- The start-up state with the master switch turned off. -/
def disabledWorld : World where
  S := { defaultSettings 70015 with FIREWALL_ENABLED := false }
  G := initialGlobals
  banned := []

/-- A clock reading 1070 s, eight connections, send lock free. -/
def sampleEnv : Env where
  now := 1070
  nodeCount := 8
  lockSend := true

/-- A peer that has received nothing yet and advertises height 1. -/
def silentPeer : CNode where
  addr := "10.0.0.9"
  nTimeConnected := 1000
  nSendBytes := 4000
  nRecvBytes := 0
  nStartingHeight := 1
  nSyncHeight := 0
  nRecvVersion := 70015
  nTrafficRatio := 0
  nTrafficAverage := 0
  nTrafficTimestamp := 0
  fWhitelisted := false
  fDisconnect := false

/-- Scenario 1: a clock reading 1070 s for a peer connected at 1000 s (age 70 s). -/
def invalidPeer : CNode where
  addr := "10.0.0.1"
  nTimeConnected := 1000
  nSendBytes := 5000
  nRecvBytes := 7000
  nStartingHeight := -1
  nSyncHeight := 0
  nRecvVersion := 70015
  nTrafficRatio := 0
  nTrafficAverage := 0
  nTrafficTimestamp := 0
  fWhitelisted := false
  fDisconnect := false

/-- A state with an established baseline: average height 1000 (900 to 1100) and average
traffic 1 (-3 to 5), default settings. -/
def settledWorld : World where
  S := defaultSettings 70015
  G := { initialGlobals with
    Firewall_FirstRun := true
    Firewall_AverageHeight := 1000
    Firewall_AverageHeight_Min := 900
    Firewall_AverageHeight_Max := 1100
    Firewall_AverageTraffic := 1
    Firewall_AverageTraffic_Min := -3
    Firewall_AverageTraffic_Max := 5 }
  banned := []

/-- Scenario 2: 500,000 bytes sent, 1,000,000,000 received, resolved height 20 (below the
baseline minimum 900), traffic average 6 (above the baseline maximum 5), age 70 s. -/
def downloadingPeer : CNode where
  addr := "10.0.0.2"
  nTimeConnected := 1000
  nSendBytes := 500000
  nRecvBytes := 1000000000
  nStartingHeight := 10
  nSyncHeight := 20
  nRecvVersion := 70015
  nTrafficRatio := 0
  nTrafficAverage := 6
  nTrafficTimestamp := 0
  fWhitelisted := false
  fDisconnect := false

/-- Scenario 3: the start-up state with the fork-height list {500000, 500001}. -/
def forkListWorld : World where
  S := { defaultSettings 70015 with FIREWALL_FORKED_NODEHEIGHT := [500000, 500001] }
  G := initialGlobals
  banned := []

/-- Scenario 3: a peer synced to height 500000, connected for 5 s. -/
def forkedPeer : CNode where
  addr := "10.0.0.3"
  nTimeConnected := 1065
  nSendBytes := 5000
  nRecvBytes := 7000
  nStartingHeight := 499000
  nSyncHeight := 500000
  nRecvVersion := 70015
  nTrafficRatio := 0
  nTrafficAverage := 0
  nTrafficTimestamp := 0
  fWhitelisted := false
  fDisconnect := false

/-- Scenario 4: a peer that has sent 2,000,000 bytes and received 100,000, at height 1050
inside the baseline band, with traffic average 1, connected for 70 s. -/
def floodingPeer : CNode where
  addr := "10.0.0.4"
  nTimeConnected := 1000
  nSendBytes := 2000000
  nRecvBytes := 100000
  nStartingHeight := 1040
  nSyncHeight := 1050
  nRecvVersion := 70015
  nTrafficRatio := 0
  nTrafficAverage := 1
  nTrafficTimestamp := 0
  fWhitelisted := false
  fDisconnect := false

/-- The scenario-4 peer with `nStartingHeight = nSyncHeight`: probe 18 flips, no other probe
does. -/
def steadyPeer : CNode :=
  { floodingPeer with nStartingHeight := 1050 }

/-- The settled state with a flood-pattern list of one pattern. -/
def onePatternWorld : World :=
  { settledWorld with
    S := { settledWorld.S with FIREWALL_FLOODPATTERNS := ["57910121517202223"] } }

/-- The settled state with a fork-height list of four entries. -/
def longForkListWorld : World :=
  { settledWorld with
    S := { settledWorld.S with
      FIREWALL_FORKED_NODEHEIGHT := [500000, 500001, 500002, 500003] } }

/-- The start-up state with the invalid-wallet ban toggle turned off. -/
def noInvalidBanWorld : World where
  S := { defaultSettings 70015 with FIREWALL_BAN_INVALIDWALLET := false }
  G := initialGlobals
  banned := []

/-- A running state with the clear-all-bans toggle on and one address in the ban store. -/
def clearBansWorld : World where
  S := { defaultSettings 70015 with FIREWALL_CLEAR_BANS := true }
  G := { initialGlobals with Firewall_FirstRun := true }
  banned := [BanEntry.mk "10.0.0.7" (some BanReason.BanReasonFloodingWallet) 3600 false]

/-- The scenario-1 peer with a traffic sample stamped at 1068 s, two seconds before the
clock reading 1070 s of `sampleEnv`. -/
def lingeringPeer : CNode :=
  { invalidPeer with addr := "10.0.0.5", nTrafficTimestamp := 1068 }

/-- Default settings with a flood-pattern list that holds 256 entries. -/
def fullPatternSettings : Settings :=
  { defaultSettings 70015 with FIREWALL_FLOODPATTERNS := List.replicate 256 "25" }

/-- A request to add the pattern "2619". -/
def addRequest : JSONRPCRequest where
  fHelp := false
  params := ["2619"]

/-- A later clock reading, 2070 s, with three connections and the send lock taken. -/
def laterEnv : Env where
  now := 2070
  nodeCount := 3
  lockSend := false

/-- A peer with the telemetry of the scenario-2 peer, another address, connected at 2000 s
and with a refreshed sample. -/
def laterPeer : CNode :=
  { downloadingPeer with
    addr := "10.0.0.6", nTimeConnected := 2000, nTrafficRatio := 1 / 2000,
    nTrafficTimestamp := 2068 }

/-- The settled state with one address in the ban store and other per-connection shares. -/
def laterWorld : World :=
  { settledWorld with
    G := { settledWorld.G with Firewall_AverageSend := 700, Firewall_AverageRecv := 900 }
    banned := [BanEntry.mk "10.0.0.7" (some BanReason.BanReasonFloodingWallet) 3600 false] }

/-- The scenario-1 peer with a traffic sample stamped at 1065 s, exactly five seconds before
the clock reading 1070 s of `sampleEnv`. -/
def fiveSecondPeer : CNode :=
  { invalidPeer with addr := "10.0.0.8", nTrafficTimestamp := 1065 }

/-- The scenario-4 peer connected at 970 s, so connected for 100 s at the clock reading
1070 s of `sampleEnv`. -/
def hundredSecondPeer : CNode :=
  { floodingPeer with nTimeConnected := 970 }

/-- Default settings with the attack-ratio band set to 0.0001 .. 0.001. -/
def lowBandSettings : Settings :=
  { defaultSettings 70015 with
    FIREWALL_BANDWIDTHABUSE_MINATTACK := 1 / 10000
    FIREWALL_BANDWIDTHABUSE_MAXATTACK := 1 / 1000 }

/-- The scenario-2 peer with traffic average 2, below the baseline maximum 5 of the settled
state. -/
def calmPeer : CNode :=
  { downloadingPeer with nTrafficAverage := 2 }

/-- A peer that has received nothing yet and advertises the largest height an `int` holds. -/
def maxHeightPeer : CNode :=
  { silentPeer with addr := "10.0.0.10", nStartingHeight := 2147483647 }

/-- A request to remove the first of the compiled-in flood patterns. -/
def removeRequest : JSONRPCRequest where
  fHelp := false
  params := ["56810121416192123"]

/-- The settled state after the first compiled-in flood pattern was removed: slot 0 of the
flood-pattern list is blank. -/
def removedWorld : World :=
  { settledWorld with
    S := { settledWorld.S with
      FIREWALL_FLOODPATTERNS := ["", "57910121517202223", "57910121416202223"] } }

/-- Three examinations in a row: the silent peer (resolved height 1), the scenario-3 peer
and the silent peer again. -/
def threeCalls : List (Env × CNode) :=
  [(sampleEnv, silentPeer), (sampleEnv, forkedPeer), (laterEnv, silentPeer)]

/-! ## Totality: the guards in front of the divisions -/

theorem udiv_ok (a b : Nat) (hb : b ≠ 0) : udiv a b = Except.ok (a / b) := by
  simp [udiv, hb]

theorem fdiv_ok (a b : Rat) (hb : b ≠ 0) : fdiv a b = Except.ok (a / b) := by
  simp [fdiv, hb]

theorem bind_ok {α β : Type} (a : α) (f : α → Except FirewallError β) :
    (Except.ok a >>= f) = f a := rfl

theorem toInt32_lt (x : Int) : toInt32 x < 2147483648 := by
  unfold toInt32
  omega

theorem toInt32_ge (x : Int) : -2147483648 ≤ toInt32 x := by
  unfold toInt32
  omega

theorem toInt32_of_range (x : Int) (hlo : -2147483648 ≤ x) (hhi : x < 2147483648) :
    toInt32 x = x := by
  unfold toInt32
  omega

theorem toSizeT_ne_zero (c : Int) (hpos : c > 0) (hlt : c < 18446744073709551616) :
    toSizeT c ≠ 0 := by
  unfold toSizeT
  rw [Int.emod_eq_of_lt (le_of_lt hpos) hlt]
  omega

theorem highBWLowHeight_ok (S : Settings) (G : Globals) (pnode : CNode) (a : AttackState)
    (hrecv : 0 < pnode.nRecvBytes) :
    ∃ b, NoFalsePositive.highBWLowHeight S G pnode a = Except.ok b := by
  have hne : pnode.nRecvBytes ≠ 0 := Nat.pos_iff_ne_zero.mp hrecv
  unfold NoFalsePositive.highBWLowHeight
  rw [udiv_ok _ _ hne]
  split
  · exact ⟨_, rfl⟩
  · exact ⟨_, rfl⟩

theorem NoFalsePositive_ok (S : Settings) (G : Globals) (pnode : CNode) (a : AttackState)
    (hrecv : 0 < pnode.nRecvBytes) : ∃ b, NoFalsePositive S G pnode a = Except.ok b := by
  unfold NoFalsePositive
  split
  · split
    · exact highBWLowHeight_ok S G pnode _ hrecv
    · exact ⟨_, rfl⟩
  · exact ⟨_, rfl⟩

theorem beforeFlooding_ok (env : Env) (W : World) (pnode : CNode)
    (hrecv : 0 < pnode.nRecvBytes) :
    ∃ a, CheckAttack.beforeFlooding env W pnode = Except.ok a := by
  unfold CheckAttack.beforeFlooding
  obtain ⟨b, hb⟩ := NoFalsePositive_ok W.S W.G pnode
    (FilterBandwidthAbuse W.S W.G pnode (CheckAttack.nTimeConnected env pnode)
      (CheckAttack.NodeHeight pnode) AttackState.init) hrecv
  simp only [hb]
  exact ⟨_, rfl⟩

theorem filters_ok (env : Env) (W : World) (pnode : CNode)
    (hrecv : 0 < pnode.nRecvBytes) : ∃ a, CheckAttack.filters env W pnode = Except.ok a := by
  obtain ⟨a, ha⟩ := beforeFlooding_ok env W pnode hrecv
  unfold CheckAttack.filters
  rw [ha]
  exact ⟨_, rfl⟩

theorem CheckAttack_ok (env : Env) (W : World) (pnode : CNode)
    (hrecv : 0 < pnode.nRecvBytes) : ∃ c, CheckAttack env W pnode = Except.ok c := by
  obtain ⟨a, ha⟩ := filters_ok env W pnode hrecv
  unfold CheckAttack
  rw [ha]
  by_cases hd : a.DETECTED_ATTACK = true
  · simp [bind, Except.bind, pure, Except.pure, hd]
  · simp [bind, Except.bind, pure, Except.pure, hd]

theorem updateTraffic_ok (env : Env) (S : Settings) (G : Globals) (pnode : CNode) :
    ∃ G', updateTraffic env S G pnode = Except.ok G' := by
  unfold updateTraffic
  by_cases hc : toInt32 (env.nodeCount : Int) > 0
  · have hne : toSizeT (toInt32 (env.nodeCount : Int)) ≠ 0 :=
      toSizeT_ne_zero _ hc (lt_trans (toInt32_lt _) (by norm_num))
    simp only [hc, if_true, udiv_ok _ _ hne]
    exact ⟨_, rfl⟩
  · simp only [hc, if_false]
    exact ⟨_, rfl⟩

theorem foldTraffic_ok (env : Env) (S : Settings) (G : Globals) (pnode : CNode) (u : Bool) :
    ∃ G', Examination.foldTraffic env S G pnode u = Except.ok G' := by
  unfold Examination.foldTraffic
  split
  · exact updateTraffic_ok _ _ _ _
  · exact ⟨_, rfl⟩

theorem traffic_ok (env : Env) (W : World) (G : Globals) (pnode : CNode)
    (hrecv : 0 < pnode.nRecvBytes) : ∃ e, Examination.traffic env W G pnode = Except.ok e := by
  have hne : (pnode.nRecvBytes : Rat) ≠ 0 := by
    exact_mod_cast Nat.pos_iff_ne_zero.mp hrecv
  unfold Examination.traffic
  rw [fdiv_ok _ _ hne, bind_ok]
  obtain ⟨G', hG'⟩ := foldTraffic_ok env W.S G
    (Examination.refresh env pnode ((pnode.nSendBytes : Rat) / (pnode.nRecvBytes : Rat)))
    (Examination.UpdateNodeStats env pnode)
  rw [hG', bind_ok]
  obtain ⟨c, hc⟩ := CheckAttack_ok env { W with G := G' }
    (Examination.refresh env pnode ((pnode.nSendBytes : Rat) / (pnode.nRecvBytes : Rat))) hrecv
  rw [hc, bind_ok]
  exact ⟨_, rfl⟩

theorem Examination_ok (env : Env) (W : World) (pnode : CNode) :
    ∃ e, Examination env W pnode = Except.ok e := by
  unfold Examination
  by_cases hrecv : pnode.nRecvBytes > 0
  · simp only [hrecv, if_true]
    exact traffic_ok env W _ pnode hrecv
  · simp only [hrecv, if_false]
    exact ⟨_, rfl⟩

theorem FireWall_ok (gArgs : ArgsManager) (env : Env) (W : World) (pnode : Option CNode) :
    ∃ out, FireWall gArgs env W pnode = Except.ok out ∧ out.result = false := by
  cases pnode with
  | none => exact ⟨_, rfl, rfl⟩
  | some p =>
    unfold FireWall
    by_cases hen : (FireWall.firstRun gArgs W).1.S.FIREWALL_ENABLED = false
    · simp only [hen, if_true]
      exact ⟨_, rfl, rfl⟩
    · by_cases hwl : p.fWhitelisted = true
      · simp only [hen, hwl, if_true, if_false]
        exact ⟨_, rfl, rfl⟩
      · simp only [hen, hwl, if_false]
        obtain ⟨e, he⟩ := Examination_ok env
          (FireWall.clearBans env (FireWall.firstRun gArgs W).1 p).1 p
        rw [he, bind_ok]
        exact ⟨_, rfl, rfl⟩

/-! ## The top-level gate -/

/-- C1: `FireWall` returns false ("safe") for every peer and every state: it always
returns, and the value returned is false whether the peer is null, the firewall disabled,
the peer whitelisted or the peer examined (whatever the classifier did in that pass). -/
theorem C1_FireWall_always_safe (gArgs : ArgsManager) (env : Env) (W : World)
    (pnode : Option CNode) :
    ∃ out, FireWall gArgs env W pnode = Except.ok out ∧ out.result = false :=
  FireWall_ok gArgs env W pnode

/-- The first-run load leaves the baseline and the ban store alone. -/
theorem firstRun_frame (gArgs : ArgsManager) (W : World) :
    (FireWall.firstRun gArgs W).1.G.Firewall_AverageHeight = W.G.Firewall_AverageHeight
    ∧ (FireWall.firstRun gArgs W).1.G.Firewall_AverageHeight_Min = W.G.Firewall_AverageHeight_Min
    ∧ (FireWall.firstRun gArgs W).1.G.Firewall_AverageHeight_Max = W.G.Firewall_AverageHeight_Max
    ∧ (FireWall.firstRun gArgs W).1.G.Firewall_AverageTraffic = W.G.Firewall_AverageTraffic
    ∧ (FireWall.firstRun gArgs W).1.G.Firewall_AverageTraffic_Min
        = W.G.Firewall_AverageTraffic_Min
    ∧ (FireWall.firstRun gArgs W).1.G.Firewall_AverageTraffic_Max
        = W.G.Firewall_AverageTraffic_Max
    ∧ (FireWall.firstRun gArgs W).1.G.Firewall_AverageSend = W.G.Firewall_AverageSend
    ∧ (FireWall.firstRun gArgs W).1.G.Firewall_AverageRecv = W.G.Firewall_AverageRecv
    ∧ (FireWall.firstRun gArgs W).1.banned = W.banned := by
  unfold FireWall.firstRun
  split
  · exact ⟨rfl, rfl, rfl, rfl, rfl, rfl, rfl, rfl, rfl⟩
  · exact ⟨rfl, rfl, rfl, rfl, rfl, rfl, rfl, rfl, rfl⟩

/-- C2: if the enable flag (as `FireWall` tests it, after the settings load of a first
run) is false, or the peer is whitelisted, then `FireWall` returns and leaves the
baseline (average height, average traffic, their min / max, average send / recv), the peer
(so its traffic ratio, traffic average, sample timestamp and disconnect flag) and the ban
store unchanged, and it makes no call to the classifier, the ban list or the disconnect. -/
theorem C2_FireWall_disabled_or_whitelisted_noop (gArgs : ArgsManager) (env : Env)
    (W : World) (p : CNode)
    (h : (FireWall.firstRun gArgs W).1.S.FIREWALL_ENABLED = false ∨ p.fWhitelisted = true) :
    ∃ out, FireWall gArgs env W (some p) = Except.ok out
      ∧ out.W.G.Firewall_AverageHeight = W.G.Firewall_AverageHeight
      ∧ out.W.G.Firewall_AverageHeight_Min = W.G.Firewall_AverageHeight_Min
      ∧ out.W.G.Firewall_AverageHeight_Max = W.G.Firewall_AverageHeight_Max
      ∧ out.W.G.Firewall_AverageTraffic = W.G.Firewall_AverageTraffic
      ∧ out.W.G.Firewall_AverageTraffic_Min = W.G.Firewall_AverageTraffic_Min
      ∧ out.W.G.Firewall_AverageTraffic_Max = W.G.Firewall_AverageTraffic_Max
      ∧ out.W.G.Firewall_AverageSend = W.G.Firewall_AverageSend
      ∧ out.W.G.Firewall_AverageRecv = W.G.Firewall_AverageRecv
      ∧ out.pnode = some p
      ∧ out.W.banned = W.banned
      ∧ out.events = (FireWall.firstRun gArgs W).2 := by
  obtain ⟨h1, h2, h3, h4, h5, h6, h7, h8, hb⟩ := firstRun_frame gArgs W
  have hout : FireWall gArgs env W (some p) = Except.ok
      { result := false, W := (FireWall.firstRun gArgs W).1, pnode := some p,
        events := (FireWall.firstRun gArgs W).2 } := by
    unfold FireWall
    by_cases hen : (FireWall.firstRun gArgs W).1.S.FIREWALL_ENABLED = false
    · simp only [hen, if_true]
      rfl
    · have hwl : p.fWhitelisted = true := h.resolve_left hen
      simp only [hen, hwl, if_true, if_false]
      rfl
  exact ⟨_, hout, h1, h2, h3, h4, h5, h6, h7, h8, rfl, hb, rfl⟩

/-- C2 at a concrete input: the start-up state with the master switch off. -/
theorem C2_witness :
    ∃ out, FireWall sampleArgs sampleEnv disabledWorld (some silentPeer) = Except.ok out
      ∧ out.W.G.Firewall_AverageHeight = disabledWorld.G.Firewall_AverageHeight
      ∧ out.W.G.Firewall_AverageHeight_Min = disabledWorld.G.Firewall_AverageHeight_Min
      ∧ out.W.G.Firewall_AverageHeight_Max = disabledWorld.G.Firewall_AverageHeight_Max
      ∧ out.W.G.Firewall_AverageTraffic = disabledWorld.G.Firewall_AverageTraffic
      ∧ out.W.G.Firewall_AverageTraffic_Min = disabledWorld.G.Firewall_AverageTraffic_Min
      ∧ out.W.G.Firewall_AverageTraffic_Max = disabledWorld.G.Firewall_AverageTraffic_Max
      ∧ out.W.G.Firewall_AverageSend = disabledWorld.G.Firewall_AverageSend
      ∧ out.W.G.Firewall_AverageRecv = disabledWorld.G.Firewall_AverageRecv
      ∧ out.pnode = some silentPeer
      ∧ out.W.banned = disabledWorld.banned
      ∧ out.events = (FireWall.firstRun sampleArgs disabledWorld).2 :=
  C2_FireWall_disabled_or_whitelisted_noop sampleArgs sampleEnv disabledWorld silentPeer
    (Or.inl rfl)

/-! ## The examiner -/

/-- C3: for a peer with `nRecvBytes = 0`, one `Examination` returns and leaves the traffic
baseline (average, min, max) and the peer (so its traffic ratio, traffic average and sample
timestamp, and its disconnect flag) unchanged; `CheckAttack` is not called and neither a ban
nor a disconnect is requested (the pass makes no call at all). -/
theorem C3_Examination_zero_received (env : Env) (W : World) (p : CNode)
    (h : p.nRecvBytes = 0) :
    ∃ e, Examination env W p = Except.ok e
      ∧ e.W.G.Firewall_AverageTraffic = W.G.Firewall_AverageTraffic
      ∧ e.W.G.Firewall_AverageTraffic_Min = W.G.Firewall_AverageTraffic_Min
      ∧ e.W.G.Firewall_AverageTraffic_Max = W.G.Firewall_AverageTraffic_Max
      ∧ e.pnode = p
      ∧ e.events = []
      ∧ e.W.banned = W.banned := by
  have hG : ∀ h', (updateHeight W.S W.G h').Firewall_AverageTraffic = W.G.Firewall_AverageTraffic
      ∧ (updateHeight W.S W.G h').Firewall_AverageTraffic_Min = W.G.Firewall_AverageTraffic_Min
      ∧ (updateHeight W.S W.G h').Firewall_AverageTraffic_Max
          = W.G.Firewall_AverageTraffic_Max := by
    intro h'
    unfold updateHeight
    split
    · exact ⟨rfl, rfl, rfl⟩
    · exact ⟨rfl, rfl, rfl⟩
  obtain ⟨g1, g2, g3⟩ := hG (Examination.NodeHeight p)
  have hout : Examination env W p = Except.ok
      { W := { W with G := updateHeight W.S W.G (Examination.NodeHeight p) }, pnode := p,
        events := [] } := by
    unfold Examination
    simp only [h, gt_iff_lt, lt_irrefl, if_false]
    rfl
  exact ⟨_, hout, g1, g2, g3, rfl, rfl, rfl⟩

/-- C3 at a concrete input: a peer that has received nothing, in the start-up state. -/
theorem C3_witness :
    ∃ e, Examination sampleEnv sampleWorld silentPeer = Except.ok e
      ∧ e.W.G.Firewall_AverageTraffic = sampleWorld.G.Firewall_AverageTraffic
      ∧ e.W.G.Firewall_AverageTraffic_Min = sampleWorld.G.Firewall_AverageTraffic_Min
      ∧ e.W.G.Firewall_AverageTraffic_Max = sampleWorld.G.Firewall_AverageTraffic_Max
      ∧ e.pnode = silentPeer
      ∧ e.events = []
      ∧ e.W.banned = sampleWorld.banned :=
  C3_Examination_zero_received sampleEnv sampleWorld silentPeer rfl

/-- The division of Filter B has no guard of its own: called directly on a peer with
`nRecvBytes = 0` that Filter A tags `3-HighBW-LowHeight`, `CheckAttack` divides by zero. -/
theorem CheckAttack_division_unguarded :
    CheckAttack sampleEnv settledWorld { downloadingPeer with nRecvBytes := 0 }
      = Except.error FirewallError.divisionByZero := rfl

/-- C4: no division by zero is reachable from `FireWall`. Every division of the model fails
on a zero divisor, and yet `FireWall` and `Examination` return on every input: the
traffic-ratio division sits behind `nRecvBytes > 0`, `CheckAttack` (whose Filter B divides by
`nRecvBytes`) returns whenever the peer has `nRecvBytes > 0`, which is the only way
`Examination` calls it, and the per-connection share division sits behind
`Connections > 0`. -/
theorem C4_no_division_by_zero :
    (∀ (gArgs : ArgsManager) (env : Env) (W : World) (pnode : Option CNode),
        ∃ out, FireWall gArgs env W pnode = Except.ok out)
    ∧ (∀ (env : Env) (W : World) (p : CNode), ∃ e, Examination env W p = Except.ok e)
    ∧ (∀ (env : Env) (W : World) (p : CNode),
        p.nRecvBytes = 0 ∨ ∃ c, CheckAttack env W p = Except.ok c)
    ∧ (∀ (env : Env) (S : Settings) (G : Globals) (p : CNode),
        ∃ G', updateTraffic env S G p = Except.ok G') := by
  refine ⟨?_, Examination_ok, ?_, updateTraffic_ok⟩
  · intro gArgs env W pnode
    obtain ⟨out, hout, _⟩ := FireWall_ok gArgs env W pnode
    exact ⟨out, hout⟩
  · intro env W p
    rcases Nat.eq_zero_or_pos p.nRecvBytes with h0 | hpos
    · exact Or.inl h0
    · exact Or.inr (CheckAttack_ok env W p hpos)

/-- The truncating division by two of C++ in terms of the flooring division. -/
theorem tdiv_two_spec (x : Int) :
    (0 ≤ x ∧ Int.tdiv x 2 = x / 2) ∨ (x < 0 ∧ Int.tdiv x 2 = -((-x) / 2)) := by
  rcases le_or_lt 0 x with h | h
  · exact Or.inl ⟨h, Int.tdiv_eq_ediv h (by decide)⟩
  · refine Or.inr ⟨h, ?_⟩
    have h1 : Int.tdiv (-(-x)) 2 = -(Int.tdiv (-x) 2) := Int.neg_tdiv (-x) 2
    rw [neg_neg] at h1
    rw [h1, Int.tdiv_eq_ediv (by omega) (by decide)]

/-! ## The height baseline -/

/-- C5 as stated fails: in the start-up state with the default tolerance 2, examining a peer
of height 1 moves `Firewall_AverageHeight` from 0 down to -2. -/
theorem C5_counterexample :
    ∃ e, Examination sampleEnv sampleWorld silentPeer = Except.ok e
      ∧ sampleWorld.G.Firewall_AverageHeight = 0
      ∧ e.W.G.Firewall_AverageHeight = -2 :=
  ⟨_, rfl, rfl, by decide⟩

/-- C5 amended: for a tolerance `t ≥ 0`, and as long as the `int` arithmetic of the update
does not overflow, one height update never lowers `Firewall_AverageHeight` by more than `t`;
and it does not lower it at all when the examined height is at most the current average
(no update) or at least the current average plus `2 * t`. -/
theorem C5_height_update_lower_bound (S : Settings) (G : Globals) (NodeHeight : Int)
    (htol : 0 ≤ S.FIREWALL_AVERAGE_TOLERANCE)
    (hsum : -2147483648 ≤ G.Firewall_AverageHeight + NodeHeight
      ∧ G.Firewall_AverageHeight + NodeHeight < 2147483648)
    (hsub : -2147483648
        ≤ Int.tdiv (G.Firewall_AverageHeight + NodeHeight) 2 - S.FIREWALL_AVERAGE_TOLERANCE) :
    G.Firewall_AverageHeight - S.FIREWALL_AVERAGE_TOLERANCE
        ≤ (updateHeight S G NodeHeight).Firewall_AverageHeight
    ∧ (NodeHeight ≤ G.Firewall_AverageHeight
          ∨ G.Firewall_AverageHeight + 2 * S.FIREWALL_AVERAGE_TOLERANCE ≤ NodeHeight →
        G.Firewall_AverageHeight ≤ (updateHeight S G NodeHeight).Firewall_AverageHeight) := by
  unfold updateHeight
  by_cases hgt : NodeHeight > G.Firewall_AverageHeight
  · simp only [hgt, if_true]
    rw [toInt32_of_range _ hsum.1 hsum.2]
    have hspec := tdiv_two_spec (G.Firewall_AverageHeight + NodeHeight)
    rw [toInt32_of_range _ hsub (by omega)]
    constructor
    · omega
    · intro h
      omega
  · simp only [hgt, if_false]
    constructor
    · omega
    · intro _
      exact le_refl _

/-- C5 amended at a concrete input: average 1000, tolerance 2, examined height 1004, which
is the average plus twice the tolerance: the average stays at 1000. -/
theorem C5_witness :
    (0 : Int) ≤ (defaultSettings 70015).FIREWALL_AVERAGE_TOLERANCE
    ∧ ({ initialGlobals with Firewall_AverageHeight := 1000 } : Globals).Firewall_AverageHeight
          - (defaultSettings 70015).FIREWALL_AVERAGE_TOLERANCE
        ≤ (updateHeight (defaultSettings 70015)
            { initialGlobals with Firewall_AverageHeight := 1000 } 1004).Firewall_AverageHeight
    ∧ ({ initialGlobals with Firewall_AverageHeight := 1000 } : Globals).Firewall_AverageHeight
        ≤ (updateHeight (defaultSettings 70015)
            { initialGlobals with Firewall_AverageHeight := 1000 } 1004).Firewall_AverageHeight :=
  have h := C5_height_update_lower_bound (defaultSettings 70015)
    { initialGlobals with Firewall_AverageHeight := 1000 } 1004
    (by decide) (by decide) (by decide)
  ⟨by decide, h.1, h.2 (Or.inr (by decide))⟩

/-! ## Detections are never cleared after the no-false-positive stage -/

theorem mitigate_detected (a : AttackState) (t : Bool) (n : Int) (r : BanReason) :
    (a.mitigate t n r).DETECTED_ATTACK = a.DETECTED_ATTACK := by
  unfold AttackState.mitigate
  split
  · split <;> rfl
  · rfl

theorem mitigate_type (a : AttackState) (t : Bool) (n : Int) (r : BanReason) :
    (a.mitigate t n r).ATTACK_TYPE = a.ATTACK_TYPE := by
  unfold AttackState.mitigate
  split
  · split <;> rfl
  · rfl

theorem FilterInvalidWallet_keeps (S : Settings) (p : CNode) (t : Int) (a : AttackState)
    (h : a.DETECTED_ATTACK = true) : (FilterInvalidWallet S p t a).DETECTED_ATTACK = true := by
  unfold FilterInvalidWallet
  split
  · rw [mitigate_detected]
    split_ifs <;> first | exact h | rfl
  · exact h

theorem forkedStep_keeps (p : CNode) (a : AttackState) (x : Int)
    (h : a.DETECTED_ATTACK = true) : (forkedStep p a x).DETECTED_ATTACK = true := by
  unfold forkedStep
  split_ifs <;> first | exact h | rfl

theorem forkedLoop_keeps (p : CNode) (l : List Int) (a : AttackState)
    (h : a.DETECTED_ATTACK = true) : (l.foldl (forkedStep p) a).DETECTED_ATTACK = true := by
  induction l generalizing a with
  | nil => exact h
  | cons x rest ih => exact ih _ (forkedStep_keeps p a x h)

theorem FilterForkedWallet_keeps (S : Settings) (p : CNode) (a : AttackState)
    (h : a.DETECTED_ATTACK = true) : (FilterForkedWallet S p a).DETECTED_ATTACK = true := by
  unfold FilterForkedWallet
  split
  · rw [mitigate_detected]
    split
    · exact forkedLoop_keeps p _ a h
    · exact h
  · exact h

theorem floodStep_keeps (w : String) (a : AttackState) (x : String)
    (h : a.DETECTED_ATTACK = true) : (floodStep w a x).DETECTED_ATTACK = true := by
  unfold floodStep
  split_ifs <;> first | exact h | rfl

theorem floodLoop_keeps (w : String) (l : List String) (a : AttackState)
    (h : a.DETECTED_ATTACK = true) : (l.foldl (floodStep w) a).DETECTED_ATTACK = true := by
  induction l generalizing a with
  | nil => exact h
  | cons x rest ih => exact ih _ (floodStep_keeps w a x h)

theorem FilterFloodingWallet_keeps (S : Settings) (G : Globals) (p : CNode) (t n : Int)
    (a : AttackState) (h : a.DETECTED_ATTACK = true) :
    (FilterFloodingWallet S G p t n a).DETECTED_ATTACK = true := by
  unfold FilterFloodingWallet
  split
  · rw [mitigate_detected]
    split
    · exact floodLoop_keeps _ _ a h
    · exact h
  · exact h

/-- The value `CheckAttack` returns is the detection flag left by the filters, and the trigger
bans exactly when a ban was scheduled. -/
theorem CheckAttack_of_filters (env : Env) (W : World) (p : CNode) (a : AttackState)
    (h : CheckAttack.filters env W p = Except.ok a) :
    ∃ c, CheckAttack env W p = Except.ok c ∧ c.result = a.DETECTED_ATTACK ∧ c.verdict = a
      ∧ (a.DETECTED_ATTACK = false → c.events = [] ∧ c.W = W ∧ c.pnode = p)
      ∧ (a.DETECTED_ATTACK = true → a.BAN_ATTACK = true →
          c.events = [Event.ban p.addr a.BAN_REASON a.BAN_TIME,
            Event.disconnect p.addr env.lockSend]
          ∧ c.W.banned = BanEntry.mk p.addr a.BAN_REASON a.BAN_TIME false :: W.banned)
      ∧ (a.DETECTED_ATTACK = true → a.BAN_ATTACK = false →
          c.events = [Event.disconnect p.addr env.lockSend] ∧ c.W = W) := by
  unfold CheckAttack
  rw [h, bind_ok]
  cases hd : a.DETECTED_ATTACK with
  | false =>
    refine ⟨_, rfl, ?_, ?_, ?_, ?_, ?_⟩ <;> simp
  | true =>
    cases hb : a.BAN_ATTACK with
    | false =>
      refine ⟨_, rfl, ?_, ?_, ?_, ?_, ?_⟩
      all_goals simp [ForceDisconnectNode, AddToBanList, CConnman.Ban]
      all_goals (cases env.lockSend <;> simp)
    | true =>
      refine ⟨_, rfl, ?_, ?_, ?_, ?_, ?_⟩
      all_goals simp [ForceDisconnectNode, AddToBanList, CConnman.Ban]
      all_goals (cases env.lockSend <;> simp)


/-! ## Scenario 1: invalid wallet -/

/-- C6 at the failing input: default settings, a peer with `nStartingHeight = -1`, age 70 s
and protocol version 70015. `CheckAttack` returns detected with the tag
`1-StartHeight-Invalid`, and Filter 2 schedules the invalid-wallet ban (2600000 s); but the
mitigation blocks of Filter 3 and Filter 4 test the same detection flag and overwrite the
schedule, so the ban that is requested carries the flooding-wallet reason and 3600 s. The
disconnect follows the ban. -/
theorem C6_invalid_wallet_ban_overwritten :
    CheckAttack.nTimeConnected sampleEnv invalidPeer = 70
    ∧ (FilterInvalidWallet sampleWorld.S invalidPeer 70 AttackState.init).BAN_REASON
        = some BanReason.BanReasonInvalidWallet
    ∧ (FilterInvalidWallet sampleWorld.S invalidPeer 70 AttackState.init).BAN_TIME = 2600000
    ∧ ∃ c, CheckAttack sampleEnv sampleWorld invalidPeer = Except.ok c
        ∧ c.result = true
        ∧ c.verdict.ATTACK_TYPE = "1-StartHeight-Invalid"
        ∧ c.events = [Event.ban "10.0.0.1" (some BanReason.BanReasonFloodingWallet) 3600,
            Event.disconnect "10.0.0.1" true] := by
  refine ⟨by decide, by decide, by decide, _, rfl, ?_, ?_, ?_⟩ <;> decide

/-! ## Scenario 2: high bandwidth at a low height -/

theorem FilterBandwidthAbuse_highBW_lowHeight (S : Settings) (G : Globals) (p : CNode)
    (t n : Int) (hdet : S.FIREWALL_DETECT_BANDWIDTHABUSE = true)
    (hage : t > S.FIREWALL_BANDWIDTHABUSE_MAXCHECK)
    (hlow : n < G.Firewall_AverageHeight_Min)
    (hhigh : p.nTrafficAverage > G.Firewall_AverageTraffic_Max) :
    (FilterBandwidthAbuse S G p t n AttackState.init).DETECTED_ATTACK = true
    ∧ (FilterBandwidthAbuse S G p t n AttackState.init).ATTACK_TYPE = "3-HighBW-LowHeight" := by
  have hng : ¬ n > G.Firewall_AverageHeight_Min := not_lt.mpr (le_of_lt hlow)
  unfold FilterBandwidthAbuse
  simp only [hdet, hage, hlow, hhigh, hng, if_true, if_false, mitigate_detected, mitigate_type]
  exact ⟨rfl, rfl⟩

theorem syncTags_highBW (a : AttackState) (hty : a.ATTACK_TYPE = "3-HighBW-LowHeight") :
    NoFalsePositive.syncTags a = a := by
  unfold NoFalsePositive.syncTags
  simp [hty]

theorem NoFalsePositive_highBW_kept (S : Settings) (G : Globals) (p : CNode) (a : AttackState)
    (hty : a.ATTACK_TYPE = "3-HighBW-LowHeight")
    (hhigh : p.nTrafficAverage > G.Firewall_AverageTraffic_Max)
    (hrecv : 0 < p.nRecvBytes) (hle : p.nSendBytes ≤ p.nRecvBytes) :
    NoFalsePositive S G p a = Except.ok a := by
  have hne : p.nRecvBytes ≠ 0 := Nat.pos_iff_ne_zero.mp hrecv
  have hnl : ¬ p.nTrafficAverage < G.Firewall_AverageTraffic_Max := not_lt.mpr (le_of_lt hhigh)
  have hns : ¬ p.nSendBytes > p.nRecvBytes := not_lt.mpr hle
  unfold NoFalsePositive
  split
  · split
    · rw [syncTags_highBW a hty]
      unfold NoFalsePositive.highBWLowHeight
      rw [udiv_ok _ _ hne]
      simp only [hty, hnl, hns, if_true, if_false]
      rfl
    · rfl
  · rfl

/-- C7 as stated fails: the scenario-2 peer (500,000 bytes sent, 1,000,000,000 received,
height 20 below the baseline minimum 900, traffic average 6 above the baseline maximum 5,
age 70 s above the threshold 10 s, detection and suppression enabled) ends with the verdict
detected, and the final tag is still `3-HighBW-LowHeight`, so no later filter flagged it. -/
theorem C7_counterexample :
    settledWorld.S.FIREWALL_DETECT_BANDWIDTHABUSE = true
    ∧ settledWorld.S.FIREWALL_NOFALSEPOSITIVE_BANDWIDTHABUSE = true
    ∧ downloadingPeer.nSendBytes = 500000
    ∧ downloadingPeer.nRecvBytes = 1000000000
    ∧ CheckAttack.NodeHeight downloadingPeer < settledWorld.G.Firewall_AverageHeight_Min
    ∧ downloadingPeer.nTrafficAverage > settledWorld.G.Firewall_AverageTraffic_Max
    ∧ CheckAttack.nTimeConnected sampleEnv downloadingPeer
        > settledWorld.S.FIREWALL_BANDWIDTHABUSE_MAXCHECK
    ∧ ∃ c, CheckAttack sampleEnv settledWorld downloadingPeer = Except.ok c
        ∧ c.result = true
        ∧ c.verdict.ATTACK_TYPE = "3-HighBW-LowHeight" := by
  refine ⟨rfl, rfl, rfl, rfl, by decide, by decide, by decide, _, rfl, ?_, ?_⟩ <;> decide

/-- C7 amended: for a peer with 500,000 bytes sent and 1,000,000,000 received, resolved
height below the baseline minimum height, traffic average above the baseline maximum traffic
and connection age above the bandwidth-check threshold, with bandwidth detection enabled,
Filter A tags `3-HighBW-LowHeight` and Filter B leaves the detection in place (its ratio-band
test sits behind `nTrafficAverage < Firewall_AverageTraffic_Max`, and `nSendBytes > nRecvBytes`
is false), so the final verdict of the classifier is detected. -/
theorem C7_highBW_lowHeight_stays_detected (env : Env) (W : World) (p : CNode)
    (hdet : W.S.FIREWALL_DETECT_BANDWIDTHABUSE = true)
    (hsend : p.nSendBytes = 500000) (hrecv : p.nRecvBytes = 1000000000)
    (hlow : CheckAttack.NodeHeight p < W.G.Firewall_AverageHeight_Min)
    (hhigh : p.nTrafficAverage > W.G.Firewall_AverageTraffic_Max)
    (hage : CheckAttack.nTimeConnected env p > W.S.FIREWALL_BANDWIDTHABUSE_MAXCHECK) :
    (FilterBandwidthAbuse W.S W.G p (CheckAttack.nTimeConnected env p)
        (CheckAttack.NodeHeight p) AttackState.init).ATTACK_TYPE = "3-HighBW-LowHeight"
    ∧ NoFalsePositive W.S W.G p
        (FilterBandwidthAbuse W.S W.G p (CheckAttack.nTimeConnected env p)
          (CheckAttack.NodeHeight p) AttackState.init)
      = Except.ok (FilterBandwidthAbuse W.S W.G p (CheckAttack.nTimeConnected env p)
          (CheckAttack.NodeHeight p) AttackState.init)
    ∧ ∃ c, CheckAttack env W p = Except.ok c ∧ c.result = true := by
  obtain ⟨hd, hty⟩ := FilterBandwidthAbuse_highBW_lowHeight W.S W.G p _ _ hdet hage hlow hhigh
  have hnfp := NoFalsePositive_highBW_kept W.S W.G p _ hty hhigh
    (by rw [hrecv]; decide) (by rw [hsend, hrecv]; decide)
  have hbefore : CheckAttack.beforeFlooding env W p = Except.ok
      (FilterForkedWallet W.S p (FilterInvalidWallet W.S p (CheckAttack.nTimeConnected env p)
        (FilterBandwidthAbuse W.S W.G p (CheckAttack.nTimeConnected env p)
          (CheckAttack.NodeHeight p) AttackState.init))) := by
    unfold CheckAttack.beforeFlooding
    simp only [hnfp]
    rfl
  have hfilters : CheckAttack.filters env W p = Except.ok
      (FilterFloodingWallet W.S W.G p (CheckAttack.nTimeConnected env p)
        (CheckAttack.NodeHeight p)
        (FilterForkedWallet W.S p (FilterInvalidWallet W.S p (CheckAttack.nTimeConnected env p)
          (FilterBandwidthAbuse W.S W.G p (CheckAttack.nTimeConnected env p)
            (CheckAttack.NodeHeight p) AttackState.init)))) := by
    unfold CheckAttack.filters
    rw [hbefore]
    rfl
  obtain ⟨c, hc, hres, _⟩ := CheckAttack_of_filters env W p _ hfilters
  refine ⟨hty, hnfp, c, hc, ?_⟩
  rw [hres]
  exact FilterFloodingWallet_keeps _ _ _ _ _ _
    (FilterForkedWallet_keeps _ _ _ (FilterInvalidWallet_keeps _ _ _ _ hd))

/-- C7 amended at the scenario-2 peer. -/
theorem C7_witness :
    (FilterBandwidthAbuse settledWorld.S settledWorld.G downloadingPeer
        (CheckAttack.nTimeConnected sampleEnv downloadingPeer)
        (CheckAttack.NodeHeight downloadingPeer) AttackState.init).ATTACK_TYPE
      = "3-HighBW-LowHeight"
    ∧ ∃ c, CheckAttack sampleEnv settledWorld downloadingPeer = Except.ok c ∧ c.result = true :=
  have h := C7_highBW_lowHeight_stays_detected sampleEnv settledWorld downloadingPeer
    rfl rfl rfl (by decide) (by decide) (by decide)
  ⟨h.1, h.2.2⟩

/-! ## Scenario 3: forked wallet -/

/-- C8 at the failing input: fork-height list {500000, 500001}, peer synced to 500000, forked
wallet detection enabled. The list counts two entries, the loop bound is
`CountIntArray(...) - 2 = 0`, no slot is compared, Filter 3 leaves the flag unset and
`CheckAttack` returns not detected without any ban or disconnect. -/
theorem C8_fork_list_of_two_never_matches :
    forkListWorld.S.FIREWALL_DETECT_FORKEDWALLET = true
    ∧ forkedPeer.nSyncHeight ∈ forkListWorld.S.FIREWALL_FORKED_NODEHEIGHT
    ∧ CountIntArray forkListWorld.S.FIREWALL_FORKED_NODEHEIGHT = 2
    ∧ (FilterForkedWallet forkListWorld.S forkedPeer AttackState.init).DETECTED_ATTACK = false
    ∧ ∃ c, CheckAttack sampleEnv forkListWorld forkedPeer = Except.ok c
        ∧ c.result = false ∧ c.events = [] := by
  refine ⟨rfl, by decide, by decide, by decide, _, rfl, ?_, ?_⟩ <;> decide


/-! ## Scenario 4: flooding wallet -/

theorem CountStringArray_of_no_blank (l : List String) (h : ∀ s ∈ l, s ≠ "") :
    CountStringArray l = l.length := by
  induction l with
  | nil => rfl
  | cons x rest ih =>
    have hx : x ≠ "" := h x (List.mem_cons_self x rest)
    have hrest : ∀ s ∈ rest, s ≠ "" := fun s hs => h s (List.mem_cons_of_mem x hs)
    simp [CountStringArray, hx, ih hrest]

theorem floodLoop_keeps_flooding (w : String) (l : List String) (a : AttackState)
    (h : a.DETECTED_ATTACK = true ∧ a.ATTACK_TYPE = "Flooding Wallet") :
    (l.foldl (floodStep w) a).DETECTED_ATTACK = true
    ∧ (l.foldl (floodStep w) a).ATTACK_TYPE = "Flooding Wallet" := by
  induction l generalizing a with
  | nil => exact h
  | cons x rest ih =>
    apply ih
    unfold floodStep
    split
    · exact ⟨rfl, rfl⟩
    · exact h

theorem floodLoop_match (w : String) (l : List String) (a : AttackState) (h : w ∈ l) :
    (l.foldl (floodStep w) a).DETECTED_ATTACK = true
    ∧ (l.foldl (floodStep w) a).ATTACK_TYPE = "Flooding Wallet" := by
  induction l generalizing a with
  | nil => exact absurd h (List.not_mem_nil w)
  | cons x rest ih =>
    rcases List.mem_cons.mp h with hx | hrest
    · exact floodLoop_keeps_flooding w rest (floodStep w a x)
        (by unfold floodStep; rw [if_pos hx]; exact ⟨rfl, rfl⟩)
    · exact ih _ hrest

theorem mitigate_ban (a : AttackState) (n : Int) (r : BanReason)
    (h : a.DETECTED_ATTACK = true) :
    (a.mitigate true n r).BAN_ATTACK = true ∧ (a.mitigate true n r).BAN_TIME = n
    ∧ (a.mitigate true n r).BAN_REASON = some r := by
  unfold AttackState.mitigate
  rw [if_pos h, if_pos rfl]
  exact ⟨rfl, rfl, rfl⟩

theorem FilterFloodingWallet_match (S : Settings) (G : Globals) (p : CNode) (t n : Int)
    (a : AttackState) (hdet : S.FIREWALL_DETECT_FLOODINGWALLET = true)
    (hblank : ∀ s ∈ S.FIREWALL_FLOODPATTERNS, s ≠ "")
    (hmatch : buildWarnings (floodProbes S G p t n a) ∈ S.FIREWALL_FLOODPATTERNS) :
    (FilterFloodingWallet S G p t n a).DETECTED_ATTACK = true
    ∧ (FilterFloodingWallet S G p t n a).ATTACK_TYPE = "Flooding Wallet"
    ∧ (S.FIREWALL_BAN_FLOODINGWALLET = true →
        (FilterFloodingWallet S G p t n a).BAN_ATTACK = true
        ∧ (FilterFloodingWallet S G p t n a).BAN_TIME = S.FIREWALL_BANTIME_FLOODINGWALLET
        ∧ (FilterFloodingWallet S G p t n a).BAN_REASON
            = some BanReason.BanReasonFloodingWallet) := by
  have hcount := CountStringArray_of_no_blank S.FIREWALL_FLOODPATTERNS hblank
  have hpos : S.FIREWALL_FLOODPATTERNS.length > 0 := List.length_pos_of_mem hmatch
  obtain ⟨hd, hty⟩ := floodLoop_match _ S.FIREWALL_FLOODPATTERNS a hmatch
  unfold FilterFloodingWallet
  simp only [hdet, hcount, hpos, if_true, List.take_length, mitigate_detected, mitigate_type]
  refine ⟨hd, hty, ?_⟩
  intro hban
  rw [hban]
  exact mitigate_ban _ _ _ hd

/-- C9: with flooding detection enabled and a flood-pattern list without blank slots, if the
warning string of the peer (built from the locals left by the filters before Filter 4) is
equal to a pattern of the list, then `CheckAttack` returns detected with the final attack
type "Flooding Wallet"; and if the flooding ban toggle is on, the ban it requests has the
flooding-wallet reason and the flooding-wallet ban time, and the disconnect follows. -/
theorem C9_flood_pattern_match (env : Env) (W : World) (p : CNode) (a : AttackState)
    (hdet : W.S.FIREWALL_DETECT_FLOODINGWALLET = true)
    (hblank : ∀ s ∈ W.S.FIREWALL_FLOODPATTERNS, s ≠ "")
    (ha : CheckAttack.beforeFlooding env W p = Except.ok a)
    (hmatch : CheckAttack.WARNINGS env W p a ∈ W.S.FIREWALL_FLOODPATTERNS) :
    ∃ c, CheckAttack env W p = Except.ok c
      ∧ c.result = true
      ∧ c.verdict.ATTACK_TYPE = "Flooding Wallet"
      ∧ (W.S.FIREWALL_BAN_FLOODINGWALLET = true →
          c.events = [Event.ban p.addr (some BanReason.BanReasonFloodingWallet)
              W.S.FIREWALL_BANTIME_FLOODINGWALLET,
            Event.disconnect p.addr env.lockSend]
          ∧ c.W.banned = BanEntry.mk p.addr (some BanReason.BanReasonFloodingWallet)
              W.S.FIREWALL_BANTIME_FLOODINGWALLET false :: W.banned) := by
  obtain ⟨hd, hty, hban⟩ := FilterFloodingWallet_match W.S W.G p
    (CheckAttack.nTimeConnected env p) (CheckAttack.NodeHeight p) a hdet hblank hmatch
  have hfilters : CheckAttack.filters env W p = Except.ok
      (FilterFloodingWallet W.S W.G p (CheckAttack.nTimeConnected env p)
        (CheckAttack.NodeHeight p) a) := by
    unfold CheckAttack.filters
    rw [ha]
    rfl
  obtain ⟨c, hc, hres, hv, _, hbanned, _⟩ := CheckAttack_of_filters env W p _ hfilters
  refine ⟨c, hc, ?_, ?_, ?_⟩
  · rw [hres, hd]
  · rw [hv, hty]
  · intro htoggle
    obtain ⟨hb1, hb2, hb3⟩ := hban htoggle
    have h := hbanned hd hb1
    rw [hb2, hb3] at h
    exact h

/-- C9 at the scenario-4 peer, whose warning string is the second default pattern. -/
theorem C9_witness :
    CheckAttack.WARNINGS sampleEnv settledWorld floodingPeer AttackState.init
        = "57910121517202223"
    ∧ ∃ c, CheckAttack sampleEnv settledWorld floodingPeer = Except.ok c
      ∧ c.result = true
      ∧ c.verdict.ATTACK_TYPE = "Flooding Wallet"
      ∧ (settledWorld.S.FIREWALL_BAN_FLOODINGWALLET = true →
          c.events = [Event.ban floodingPeer.addr (some BanReason.BanReasonFloodingWallet)
              settledWorld.S.FIREWALL_BANTIME_FLOODINGWALLET,
            Event.disconnect floodingPeer.addr sampleEnv.lockSend]
          ∧ c.W.banned = BanEntry.mk floodingPeer.addr (some BanReason.BanReasonFloodingWallet)
              settledWorld.S.FIREWALL_BANTIME_FLOODINGWALLET false :: settledWorld.banned) :=
  ⟨by decide,
   C9_flood_pattern_match sampleEnv settledWorld floodingPeer AttackState.init rfl
    (by decide) rfl (by decide)⟩


/-! ## One flipped probe changes the warning string -/

theorem warnLoop_length (probes : List (Bool × String)) (w : String) :
    (probes.foldl warnStep w).length = w.length + codeLen probes := by
  induction probes generalizing w with
  | nil => simp [codeLen]
  | cons q rest ih =>
    rw [List.foldl_cons, ih]
    obtain ⟨x, c⟩ := q
    cases x
    · simp [warnStep, codeLen]
    · simp [warnStep, codeLen, String.length_append]
      omega

theorem buildWarnings_length (probes : List (Bool × String)) :
    (buildWarnings probes).length = codeLen probes := by
  unfold buildWarnings
  rw [warnLoop_length]
  simp

theorem codeLen_cons (x : Bool) (c : String) (rest : List (Bool × String)) :
    codeLen ((x, c) :: rest) = (if x = true then c.length else 0) + codeLen rest := by
  simp [codeLen]

theorem eq_of_getD_eq (n : Nat) :
    ∀ (xs ys : List Bool), xs.length = n → ys.length = n →
      (∀ j, j < n → ys.getD j false = xs.getD j false) → ys = xs := by
  induction n with
  | zero =>
    intro xs ys hx hy _
    rw [List.length_eq_zero.mp hx, List.length_eq_zero.mp hy]
  | succ n ih =>
    intro xs ys hx hy h
    cases xs with
    | nil => simp at hx
    | cons x xs =>
      cases ys with
      | nil => simp at hy
      | cons y ys =>
        have h0 : y = x := by simpa using h 0 (Nat.succ_pos n)
        have ht : ys = xs := by
          apply ih xs ys (by simpa using hx) (by simpa using hy)
          intro j hj
          simpa using h (j + 1) (Nat.succ_lt_succ hj)
        rw [h0, ht]

/-- Two outcome vectors that differ in exactly one probe append different numbers of
characters, provided that no code is empty. -/
theorem codeLen_flip (codes : List String) (hpos : ∀ c ∈ codes, 0 < c.length) :
    ∀ (b b' : List Bool) (i : Nat), b.length = codes.length → b'.length = codes.length →
      i < codes.length →
      (∀ j, j < codes.length → (b'.getD j false = b.getD j false ↔ j ≠ i)) →
      codeLen (b'.zip codes) ≠ codeLen (b.zip codes) := by
  induction codes with
  | nil => intro b b' i _ _ hi; simp at hi
  | cons c cs ih =>
    intro b b' i hb hb' hi hflip
    cases b with
    | nil => simp at hb
    | cons x xs =>
      cases b' with
      | nil => simp at hb'
      | cons y ys =>
        have hxs : xs.length = cs.length := by simpa using hb
        have hys : ys.length = cs.length := by simpa using hb'
        have hc : 0 < c.length := hpos c (List.mem_cons_self c cs)
        simp only [List.zip_cons_cons, codeLen_cons]
        cases i with
        | zero =>
          have hne : y ≠ x := by
            have := hflip 0 (Nat.succ_pos _)
            simpa using this
          have ht : ys = xs := by
            apply eq_of_getD_eq cs.length xs ys hxs hys
            intro j hj
            have := hflip (j + 1) (Nat.succ_lt_succ hj)
            simpa using this
          rw [ht]
          cases x <;> cases y <;> simp at hne ⊢ <;> omega
        | succ k =>
          have h0 : y = x := by
            have := hflip 0 (Nat.succ_pos _)
            simpa using this
          have htail := ih (fun c' hc' => hpos c' (List.mem_cons_of_mem c hc')) xs ys k hxs hys
            (by simpa using hi)
            (by
              intro j hj
              have := hflip (j + 1) (Nat.succ_lt_succ hj)
              simpa using this)
          rw [h0]
          omega

theorem probeCodes_pos : ∀ c ∈ probeCodes, 0 < c.length := by
  decide

/-- The warning strings of two outcome vectors that differ in exactly one probe differ. -/
theorem warningOf_flip (b b' : List Bool) (i : Nat) (hb : b.length = 25) (hb' : b'.length = 25)
    (hi : i < 25)
    (hflip : ∀ j, j < 25 → (b'.getD j false = b.getD j false ↔ j ≠ i)) :
    warningOf b' ≠ warningOf b := by
  intro heq
  have hlen : (warningOf b').length = (warningOf b).length := by rw [heq]
  unfold warningOf at hlen
  rw [buildWarnings_length, buildWarnings_length] at hlen
  exact codeLen_flip probeCodes probeCodes_pos b b' i hb hb' hi hflip hlen

theorem floodProbes_eq_zip (S : Settings) (G : Globals) (p : CNode) (t n : Int)
    (a : AttackState) :
    floodProbes S G p t n a = ((floodProbes S G p t n a).map Prod.fst).zip probeCodes := rfl

theorem WARNINGS_eq_warningOf (env : Env) (W : World) (p : CNode) (a : AttackState) :
    CheckAttack.WARNINGS env W p a = warningOf (CheckAttack.probeOutcomes env W p a) := by
  unfold CheckAttack.WARNINGS warningOf CheckAttack.probeOutcomes
  rw [← floodProbes_eq_zip]

theorem probeOutcomes_length (env : Env) (W : World) (p : CNode) (a : AttackState) :
    (CheckAttack.probeOutcomes env W p a).length = 25 := rfl


theorem FilterFloodingWallet_no_match (S : Settings) (G : Globals) (p : CNode) (t n : Int)
    (a : AttackState) (pat : String) (hlist : S.FIREWALL_FLOODPATTERNS = [pat])
    (hne : buildWarnings (floodProbes S G p t n a) ≠ pat) :
    (FilterFloodingWallet S G p t n a).DETECTED_ATTACK = a.DETECTED_ATTACK := by
  unfold FilterFloodingWallet
  split
  · rw [mitigate_detected, hlist]
    by_cases hblank : pat = ""
    · simp [CountStringArray, hblank]
    · simp [CountStringArray, hblank, floodStep, hne]
  · rfl

/-- C10: let the flood-pattern list hold exactly one pattern `pat`, produced as warning
string by the outcome vector `b` of the 25 probes. For every peer whose probe outcomes differ
from `b` in exactly one probe (index `i`), the warning string differs from `pat`, Filter 4
does not flag the peer, and when no earlier filter has detected anything the final verdict
of `CheckAttack` is not detected. -/
theorem C10_single_probe_flip (env : Env) (W : World) (p : CNode) (a : AttackState)
    (b : List Bool) (pat : String) (i : Nat)
    (hlist : W.S.FIREWALL_FLOODPATTERNS = [pat])
    (hb : b.length = 25) (hpat : warningOf b = pat)
    (ha : CheckAttack.beforeFlooding env W p = Except.ok a)
    (hno : a.DETECTED_ATTACK = false)
    (hi : i < 25)
    (hflip : ∀ j, j < 25 →
      ((CheckAttack.probeOutcomes env W p a).getD j false = b.getD j false ↔ j ≠ i)) :
    CheckAttack.WARNINGS env W p a ≠ pat
    ∧ (FilterFloodingWallet W.S W.G p (CheckAttack.nTimeConnected env p)
        (CheckAttack.NodeHeight p) a).DETECTED_ATTACK = false
    ∧ ∃ c, CheckAttack env W p = Except.ok c ∧ c.result = false ∧ c.events = [] := by
  have hw : CheckAttack.WARNINGS env W p a ≠ pat := by
    rw [WARNINGS_eq_warningOf, ← hpat]
    exact warningOf_flip b _ i hb (probeOutcomes_length env W p a) hi hflip
  have hE := FilterFloodingWallet_no_match W.S W.G p (CheckAttack.nTimeConnected env p)
    (CheckAttack.NodeHeight p) a pat hlist hw
  rw [hno] at hE
  have hfilters : CheckAttack.filters env W p = Except.ok
      (FilterFloodingWallet W.S W.G p (CheckAttack.nTimeConnected env p)
        (CheckAttack.NodeHeight p) a) := by
    unfold CheckAttack.filters
    rw [ha]
    rfl
  obtain ⟨c, hc, hres, _, hquiet, _⟩ := CheckAttack_of_filters env W p _ hfilters
  exact ⟨hw, hE, c, hc, by rw [hres, hE], (hquiet hE).1⟩

/-- C10 at a concrete input: the single pattern is the warning string of the scenario-4
peer; the peer with `nStartingHeight = nSyncHeight` differs from it in probe 18 alone
(index 17), its warning string has the extra code 18 and it is not detected. -/
theorem C10_witness :
    warningOf (CheckAttack.probeOutcomes sampleEnv onePatternWorld floodingPeer AttackState.init)
        = "57910121517202223"
    ∧ CheckAttack.WARNINGS sampleEnv onePatternWorld steadyPeer AttackState.init
        = "5791012151718202223"
    ∧ CheckAttack.WARNINGS sampleEnv onePatternWorld steadyPeer AttackState.init
        ≠ "57910121517202223"
    ∧ ∃ c, CheckAttack sampleEnv onePatternWorld steadyPeer = Except.ok c
        ∧ c.result = false ∧ c.events = [] :=
  have h := C10_single_probe_flip sampleEnv onePatternWorld steadyPeer AttackState.init
    (CheckAttack.probeOutcomes sampleEnv onePatternWorld floodingPeer AttackState.init)
    "57910121517202223" 17 rfl rfl (by decide) rfl rfl (by decide) (by decide)
  ⟨by decide, by decide, h.1, h.2.2⟩


/-! ## The warning string is the ascending concatenation of the fired codes -/

theorem warnLoop_eq_appendLoop (probes : List (Bool × String)) (w : String) :
    probes.foldl warnStep w
      = ((probes.filter (fun q => q.1)).map (fun q => q.2)).foldl (fun r s => r ++ s) w := by
  induction probes generalizing w with
  | nil => rfl
  | cons q rest ih =>
    obtain ⟨x, c⟩ := q
    cases x
    · simpa [warnStep] using ih w
    · simpa [warnStep] using ih (w ++ c)

theorem buildWarnings_eq_join (probes : List (Bool × String)) :
    buildWarnings probes = String.join ((probes.filter (fun q => q.1)).map (fun q => q.2)) := by
  unfold buildWarnings String.join
  exact warnLoop_eq_appendLoop probes ""

theorem fired_codes_eq (codes : List String) :
    ∀ (b : List Bool) (s : Nat), b.length = codes.length →
      ((b.zip codes).filter (fun q => q.1)).map (fun q => q.2)
        = ((List.range' s codes.length).filter (fun k => b.getD (k - s) false)).map
            (fun k => codes.getD (k - s) "") := by
  induction codes with
  | nil => intro b s _; simp
  | cons c cs ih =>
    intro b s hb
    cases b with
    | nil => simp at hb
    | cons x xs =>
      have hxs : xs.length = cs.length := by simpa using hb
      have htail := ih xs (s + 1) hxs
      have hf : (List.range' (s + 1) cs.length).filter (fun k => (x :: xs).getD (k - s) false)
          = (List.range' (s + 1) cs.length).filter (fun k => xs.getD (k - (s + 1)) false) := by
        apply List.filter_congr
        intro k hk
        have hks : s + 1 ≤ k := (List.mem_range'_1.mp hk).1
        have : k - s = (k - (s + 1)) + 1 := by omega
        rw [this, List.getD_cons_succ]
      have hm : ∀ l : List Nat, (∀ k ∈ l, s + 1 ≤ k) →
          l.map (fun k => (c :: cs).getD (k - s) "") = l.map (fun k => cs.getD (k - (s + 1)) "") := by
        intro l hl
        apply List.map_congr_left
        intro k hk
        have hks : s + 1 ≤ k := hl k hk
        have : k - s = (k - (s + 1)) + 1 := by omega
        rw [this, List.getD_cons_succ]
      have hmem : ∀ k ∈ (List.range' (s + 1) cs.length).filter
          (fun k => xs.getD (k - (s + 1)) false), s + 1 ≤ k := by
        intro k hk
        exact (List.mem_range'_1.mp (List.mem_of_mem_filter hk)).1
      simp only [List.zip_cons_cons, List.length_cons, List.range'_succ, List.filter_cons,
        Nat.sub_self, List.getD_cons_zero]
      cases x
      · simp only [Bool.false_eq_true, if_false]
        rw [hf, hm _ hmem, htail]
      · simp only [if_true, List.map_cons, Nat.sub_self, List.getD_cons_zero]
        rw [hf, hm _ hmem, htail]


theorem probeCodes_decimal :
    ∀ k ∈ List.range' 1 25, probeCodes.getD (k - 1) "" = toString k := by
  decide

theorem warningOf_eq_specWarnings (b : List Bool) (hb : b.length = 25) :
    warningOf b = specWarnings b := by
  unfold warningOf specWarnings
  rw [buildWarnings_eq_join, fired_codes_eq probeCodes b 1 hb]
  congr 1
  apply List.map_congr_left
  intro k hk
  exact probeCodes_decimal k (List.mem_of_mem_filter hk)

/-- C11: for every telemetry and every threshold setting, the string `WARNINGS` that Filter 4
builds is the concatenation, without separators, of the decimal codes of exactly those probes
among 1..25 whose condition is true, in ascending numeric order; probes 2, 6 and 19 alone
give "2619". -/
theorem C11_warning_string_ascending_codes (env : Env) (W : World) (p : CNode)
    (a : AttackState) :
    CheckAttack.WARNINGS env W p a = specWarnings (CheckAttack.probeOutcomes env W p a)
    ∧ warningOf (outcomesOf [2, 6, 19]) = "2619"
    ∧ specWarnings (outcomesOf [2, 6, 19]) = "2619" := by
  refine ⟨?_, by decide, by decide⟩
  rw [WARNINGS_eq_warningOf]
  exact warningOf_eq_specWarnings _ (probeOutcomes_length env W p a)


/-! ## The verdict as a disjunction of detections -/

theorem FilterInvalidWallet_detected_iff (S : Settings) (p : CNode) (t : Int)
    (a : AttackState) :
    (FilterInvalidWallet S p t a).DETECTED_ATTACK = true
      ↔ a.DETECTED_ATTACK = true ∨ invalidWalletCondition S p t := by
  unfold FilterInvalidWallet invalidWalletCondition
  by_cases hdet : S.FIREWALL_DETECT_INVALIDWALLET = true
  · simp only [hdet, if_true, mitigate_detected, true_and]
    by_cases hage : t > S.FIREWALL_INVALIDWALLET_MAXCHECK
    · simp only [hage, if_true, true_and]
      split_ifs <;> simp_all [AttackState.detect]
    · simp only [hage, if_false, false_and, or_false]
  · rw [if_neg hdet]
    simp [hdet]

theorem forkedLoop_detected_iff (p : CNode) (l : List Int) (a : AttackState) :
    (l.foldl (forkedStep p) a).DETECTED_ATTACK = true
      ↔ a.DETECTED_ATTACK = true
        ∨ ∃ height ∈ l, p.nStartingHeight = height ∨ p.nSyncHeight = height := by
  induction l generalizing a with
  | nil => simp
  | cons x rest ih =>
    rw [List.foldl_cons, ih]
    have hstep : (forkedStep p a x).DETECTED_ATTACK = true
        ↔ a.DETECTED_ATTACK = true ∨ (p.nStartingHeight = x ∨ p.nSyncHeight = x) := by
      unfold forkedStep
      split_ifs <;> simp_all [AttackState.detect]
    rw [hstep]
    simp only [List.mem_cons, exists_eq_or_imp, or_assoc]

theorem FilterForkedWallet_detected_iff (S : Settings) (p : CNode) (a : AttackState) :
    (FilterForkedWallet S p a).DETECTED_ATTACK = true
      ↔ a.DETECTED_ATTACK = true ∨ forkedWalletMatch S p := by
  unfold FilterForkedWallet forkedWalletMatch
  by_cases hdet : S.FIREWALL_DETECT_FORKEDWALLET = true
  · simp only [hdet, if_true, mitigate_detected, true_and]
    by_cases hpos : (CountIntArray S.FIREWALL_FORKED_NODEHEIGHT : Int) - 2 > 0
    · simp only [hpos, if_true]
      exact forkedLoop_detected_iff p _ a
    · simp only [hpos, if_false]
      have h0 : ((CountIntArray S.FIREWALL_FORKED_NODEHEIGHT : Int) - 2).toNat = 0 := by omega
      simp [h0]
  · rw [if_neg hdet]
    simp [hdet]

theorem floodLoop_detected_iff (w : String) (l : List String) (a : AttackState) :
    (l.foldl (floodStep w) a).DETECTED_ATTACK = true ↔ a.DETECTED_ATTACK = true ∨ w ∈ l := by
  induction l generalizing a with
  | nil => simp
  | cons x rest ih =>
    rw [List.foldl_cons, ih]
    have hstep : (floodStep w a x).DETECTED_ATTACK = true
        ↔ a.DETECTED_ATTACK = true ∨ w = x := by
      unfold floodStep
      split_ifs <;> simp_all [AttackState.detect]
    rw [hstep]
    simp only [List.mem_cons, or_assoc]

theorem FilterFloodingWallet_detected_iff (S : Settings) (G : Globals) (p : CNode) (t n : Int)
    (a : AttackState) :
    (FilterFloodingWallet S G p t n a).DETECTED_ATTACK = true
      ↔ a.DETECTED_ATTACK = true
        ∨ floodingWalletMatch S (buildWarnings (floodProbes S G p t n a)) := by
  unfold FilterFloodingWallet floodingWalletMatch
  by_cases hdet : S.FIREWALL_DETECT_FLOODINGWALLET = true
  · simp only [hdet, if_true, mitigate_detected, true_and]
    by_cases hpos : CountStringArray S.FIREWALL_FLOODPATTERNS > 0
    · simp only [hpos, if_true]
      exact floodLoop_detected_iff _ _ a
    · simp only [hpos, if_false]
      have h0 : CountStringArray S.FIREWALL_FLOODPATTERNS = 0 := by omega
      simp [h0]
  · rw [if_neg hdet]
    simp [hdet]


theorem filters_of_noFalsePositive (env : Env) (W : World) (p : CNode) (a : AttackState)
    (hAB : NoFalsePositive W.S W.G p
      (FilterBandwidthAbuse W.S W.G p (CheckAttack.nTimeConnected env p)
        (CheckAttack.NodeHeight p) AttackState.init) = Except.ok a) :
    CheckAttack.filters env W p = Except.ok
      (FilterFloodingWallet W.S W.G p (CheckAttack.nTimeConnected env p)
        (CheckAttack.NodeHeight p)
        (FilterForkedWallet W.S p
          (FilterInvalidWallet W.S p (CheckAttack.nTimeConnected env p) a))) := by
  unfold CheckAttack.filters CheckAttack.beforeFlooding
  simp only [hAB]
  rfl

/-- C12: the value `CheckAttack` returns is the disjunction of the detections that are not
suppressed: with `a` the locals left by Filter 1 and the no-false-positive stage, it is true
exactly when the flag of `a` is set, or the condition of Filter 2 holds, or Filter 3 finds a
match, or Filter 4 finds a match; and Filters 2, 3 and 4 never clear a flag that is set when
they start. -/
theorem C12_verdict_is_disjunction (env : Env) (W : World) (p : CNode) (a : AttackState)
    (hAB : NoFalsePositive W.S W.G p
      (FilterBandwidthAbuse W.S W.G p (CheckAttack.nTimeConnected env p)
        (CheckAttack.NodeHeight p) AttackState.init) = Except.ok a) :
    (∃ c, CheckAttack env W p = Except.ok c
      ∧ (c.result = true ↔
          a.DETECTED_ATTACK = true
          ∨ invalidWalletCondition W.S p (CheckAttack.nTimeConnected env p)
          ∨ forkedWalletMatch W.S p
          ∨ floodingWalletMatch W.S (CheckAttack.WARNINGS env W p
              (FilterForkedWallet W.S p
                (FilterInvalidWallet W.S p (CheckAttack.nTimeConnected env p) a)))))
    ∧ (∀ b : AttackState, b.DETECTED_ATTACK = true →
        (FilterInvalidWallet W.S p (CheckAttack.nTimeConnected env p) b).DETECTED_ATTACK = true
        ∧ (FilterForkedWallet W.S p b).DETECTED_ATTACK = true
        ∧ (FilterFloodingWallet W.S W.G p (CheckAttack.nTimeConnected env p)
            (CheckAttack.NodeHeight p) b).DETECTED_ATTACK = true) := by
  constructor
  · obtain ⟨c, hc, hres, _⟩ :=
      CheckAttack_of_filters env W p _ (filters_of_noFalsePositive env W p a hAB)
    refine ⟨c, hc, ?_⟩
    rw [hres, FilterFloodingWallet_detected_iff, FilterForkedWallet_detected_iff,
      FilterInvalidWallet_detected_iff]
    unfold CheckAttack.WARNINGS
    simp only [or_assoc]
  · intro b hb
    exact ⟨FilterInvalidWallet_keeps _ _ _ _ hb, FilterForkedWallet_keeps _ _ _ hb,
      FilterFloodingWallet_keeps _ _ _ _ _ _ hb⟩

/-- C12 at the scenario-1 peer: Filters 1 and the no-false-positive stage leave the flag
unset, the condition of Filter 2 holds, and `CheckAttack` returns true. -/
theorem C12_witness :
    invalidWalletCondition sampleWorld.S invalidPeer
        (CheckAttack.nTimeConnected sampleEnv invalidPeer)
    ∧ ∃ c, CheckAttack sampleEnv sampleWorld invalidPeer = Except.ok c ∧ c.result = true := by
  have hcond : invalidWalletCondition sampleWorld.S invalidPeer
      (CheckAttack.nTimeConnected sampleEnv invalidPeer) := by decide
  obtain ⟨c, hc, hiff⟩ :=
    (C12_verdict_is_disjunction sampleEnv sampleWorld invalidPeer AttackState.init rfl).1
  exact ⟨hcond, c, hc, hiff.mpr (Or.inr (Or.inl hcond))⟩


/-! ## Which ban is requested -/

/-- C13 at two failing inputs, default settings. The scenario-2 peer ends with the tag
`3-HighBW-LowHeight` set by Filter 1, which schedules the bandwidth-abuse ban (duration 0),
and a peer synced to the fork height 500000 ends with the tag "Forked Wallet" set by
Filter 3, which schedules the forked-wallet ban (2600000 s); in both runs the ban that is
requested carries the flooding-wallet reason and 3600 s, because the mitigation block of
Filter 4 tests the shared detection flag. -/
theorem C13_ban_reason_of_last_ban_toggle :
    (FilterBandwidthAbuse settledWorld.S settledWorld.G downloadingPeer
        (CheckAttack.nTimeConnected sampleEnv downloadingPeer)
        (CheckAttack.NodeHeight downloadingPeer) AttackState.init).BAN_REASON
      = some BanReason.BanReasonBandwidthAbuse
    ∧ (∃ c, CheckAttack sampleEnv settledWorld downloadingPeer = Except.ok c
        ∧ c.result = true
        ∧ c.verdict.ATTACK_TYPE = "3-HighBW-LowHeight"
        ∧ c.events = [Event.ban "10.0.0.2" (some BanReason.BanReasonFloodingWallet) 3600,
            Event.disconnect "10.0.0.2" true])
    ∧ (FilterForkedWallet longForkListWorld.S forkedPeer AttackState.init).BAN_REASON
      = some BanReason.BanReasonForkedWallet
    ∧ (FilterForkedWallet longForkListWorld.S forkedPeer AttackState.init).BAN_TIME = 2600000
    ∧ (∃ c, CheckAttack sampleEnv longForkListWorld forkedPeer = Except.ok c
        ∧ c.result = true
        ∧ c.verdict.ATTACK_TYPE = "Forked Wallet"
        ∧ c.events = [Event.ban "10.0.0.3" (some BanReason.BanReasonFloodingWallet) 3600,
            Event.disconnect "10.0.0.3" true]) := by
  refine ⟨by decide, ⟨_, rfl, ?_, ?_, ?_⟩, by decide, by decide, ⟨_, rfl, ?_, ?_, ?_⟩⟩ <;>
    decide

/-- C14 at the failing input: default settings with the invalid-wallet ban toggle off, the
scenario-1 peer. Filter 2 is the only filter whose detection condition holds, and it
schedules no ban; yet a ban is requested, with the flooding-wallet reason and 3600 s, because
the mitigation blocks of Filter 3 and Filter 4 test the shared detection flag with their own
toggles on. -/
theorem C14_ban_requested_with_toggle_off :
    noInvalidBanWorld.S.FIREWALL_BAN_INVALIDWALLET = false
    ∧ NoFalsePositive noInvalidBanWorld.S noInvalidBanWorld.G invalidPeer
        (FilterBandwidthAbuse noInvalidBanWorld.S noInvalidBanWorld.G invalidPeer
          (CheckAttack.nTimeConnected sampleEnv invalidPeer)
          (CheckAttack.NodeHeight invalidPeer) AttackState.init)
      = Except.ok AttackState.init
    ∧ invalidWalletCondition noInvalidBanWorld.S invalidPeer
        (CheckAttack.nTimeConnected sampleEnv invalidPeer)
    ∧ (FilterInvalidWallet noInvalidBanWorld.S invalidPeer
        (CheckAttack.nTimeConnected sampleEnv invalidPeer) AttackState.init).BAN_ATTACK = false
    ∧ ¬ forkedWalletMatch noInvalidBanWorld.S invalidPeer
    ∧ ¬ floodingWalletMatch noInvalidBanWorld.S
        (CheckAttack.WARNINGS sampleEnv noInvalidBanWorld invalidPeer
          (FilterForkedWallet noInvalidBanWorld.S invalidPeer
            (FilterInvalidWallet noInvalidBanWorld.S invalidPeer
              (CheckAttack.nTimeConnected sampleEnv invalidPeer) AttackState.init)))
    ∧ ∃ c, CheckAttack sampleEnv noInvalidBanWorld invalidPeer = Except.ok c
        ∧ c.result = true
        ∧ c.verdict.ATTACK_TYPE = "1-StartHeight-Invalid"
        ∧ c.events = [Event.ban "10.0.0.1" (some BanReason.BanReasonFloodingWallet) 3600,
            Event.disconnect "10.0.0.1" true] := by
  refine ⟨rfl, rfl, by decide, by decide, by decide, by decide, _, rfl, ?_, ?_, ?_⟩ <;> decide


/-! ## The trigger -/

/-- The outcome of `CheckAttack` in terms of the locals left by the filters. -/
theorem CheckAttack_outcome (env : Env) (W : World) (p : CNode) (a : AttackState)
    (hf : CheckAttack.filters env W p = Except.ok a) :
    ∃ c, CheckAttack env W p = Except.ok c
      ∧ c.result = a.DETECTED_ATTACK
      ∧ c.verdict = a
      ∧ c.W.S = W.S ∧ c.W.G = W.G
      ∧ c.W.banned = (if a.DETECTED_ATTACK = true ∧ a.BAN_ATTACK = true
          then CConnman.Ban W.banned p.addr a.BAN_REASON a.BAN_TIME false else W.banned)
      ∧ c.pnode = (if a.DETECTED_ATTACK = true ∧ env.lockSend = true
          then { p with fDisconnect := true } else p)
      ∧ c.events = (if a.DETECTED_ATTACK = true
          then (if a.BAN_ATTACK = true then [Event.ban p.addr a.BAN_REASON a.BAN_TIME] else [])
            ++ [Event.disconnect p.addr env.lockSend]
          else []) := by
  unfold CheckAttack
  rw [hf, bind_ok]
  cases hd : a.DETECTED_ATTACK <;> cases hb : a.BAN_ATTACK <;> cases hl : env.lockSend <;>
    exact ⟨_, rfl, by simp [ForceDisconnectNode, AddToBanList, hl]⟩

/-- C15: mitigation follows the verdict. With `a` the locals left by the filters,
`CheckAttack` returns the detection flag; the ban store gains the peer's address (with the
scheduled reason and duration) exactly when the flag is set and a ban was scheduled, and is
unchanged otherwise; on every positive verdict a disconnect is attempted after the ban, and
the peer's disconnect flag is set exactly when the send lock is obtained; on a negative
verdict the ban store and the peer are untouched and no call is made. -/
theorem C15_mitigation_follows_verdict (env : Env) (W : World) (p : CNode) (a : AttackState)
    (hf : CheckAttack.filters env W p = Except.ok a) :
    ∃ c, CheckAttack env W p = Except.ok c
      ∧ c.result = a.DETECTED_ATTACK
      ∧ c.W.banned = (if a.DETECTED_ATTACK = true ∧ a.BAN_ATTACK = true
          then CConnman.Ban W.banned p.addr a.BAN_REASON a.BAN_TIME false else W.banned)
      ∧ c.pnode = (if a.DETECTED_ATTACK = true ∧ env.lockSend = true
          then { p with fDisconnect := true } else p)
      ∧ c.events = (if a.DETECTED_ATTACK = true
          then (if a.BAN_ATTACK = true then [Event.ban p.addr a.BAN_REASON a.BAN_TIME] else [])
            ++ [Event.disconnect p.addr env.lockSend]
          else []) := by
  obtain ⟨c, hc, hres, _, _, _, hban, hp, hev⟩ := CheckAttack_outcome env W p a hf
  exact ⟨c, hc, hres, hban, hp, hev⟩

/-- C15 at the scenario-4 peer: the verdict is positive with a scheduled ban, the address is
added to the ban store, the disconnect follows and sets the flag (the lock is free). -/
theorem C15_witness :
    ∃ c, CheckAttack sampleEnv settledWorld floodingPeer = Except.ok c
      ∧ c.result = true
      ∧ c.W.banned
          = [BanEntry.mk "10.0.0.4" (some BanReason.BanReasonFloodingWallet) 3600 false]
      ∧ c.pnode = { floodingPeer with fDisconnect := true }
      ∧ c.events = [Event.ban "10.0.0.4" (some BanReason.BanReasonFloodingWallet) 3600,
          Event.disconnect "10.0.0.4" true] :=
  C15_mitigation_follows_verdict sampleEnv settledWorld floodingPeer
    { DETECTED_ATTACK := true, ATTACK_TYPE := "Flooding Wallet", BAN_ATTACK := true,
      BAN_TIME := 3600, BAN_REASON := some BanReason.BanReasonFloodingWallet } rfl

/-! ## The clear-all-bans valve -/

/-- C16 at the failing input: clear-all-bans on, eight connections (minimum 1), a peer
connected at 1000 s examined at 1070 s, so connected for 70 s. `FireWall` compares the
connect timestamp `pnode->nTimeConnected` itself with 90, not the age that `CheckAttack`
computes as `GetTime() - pnode->nTimeConnected`, and clears the ban store. -/
theorem C16_clear_tests_connect_timestamp :
    clearBansWorld.S.FIREWALL_ENABLED = true
    ∧ silentPeer.fWhitelisted = false
    ∧ clearBansWorld.S.FIREWALL_CLEAR_BANS = true
    ∧ CheckAttack.nTimeConnected sampleEnv silentPeer = 70
    ∧ clearBansWorld.banned
        = [BanEntry.mk "10.0.0.7" (some BanReason.BanReasonFloodingWallet) 3600 false]
    ∧ ∃ out, FireWall sampleArgs sampleEnv clearBansWorld (some silentPeer) = Except.ok out
        ∧ out.W.banned = []
        ∧ out.events = [Event.clearBanned] := by
  refine ⟨rfl, rfl, rfl, by decide, rfl, _, rfl, ?_, ?_⟩ <;> decide


/-! ## The examination of a peer that has received bytes -/

/-- With `nRecvBytes > 0`, `Examination` refreshes the telemetry, folds the baseline and
calls `CheckAttack` on the refreshed peer, whatever the flag `UpdateNodeStats` is. -/
theorem Examination_of_received (env : Env) (W : World) (p : CNode)
    (hrecv : 0 < p.nRecvBytes) :
    ∃ G' c,
      Examination.foldTraffic env W.S (updateHeight W.S W.G (Examination.NodeHeight p))
          (Examination.refresh env p ((p.nSendBytes : Rat) / (p.nRecvBytes : Rat)))
          (Examination.UpdateNodeStats env p) = Except.ok G'
      ∧ CheckAttack env { W with G := G' }
          (Examination.refresh env p ((p.nSendBytes : Rat) / (p.nRecvBytes : Rat)))
          = Except.ok c
      ∧ Examination env W p = Except.ok
          { W := c.W, pnode := c.pnode,
            events := Event.checkAttack c.result c.verdict.ATTACK_TYPE :: c.events } := by
  have hne : (p.nRecvBytes : Rat) ≠ 0 := by
    exact_mod_cast Nat.pos_iff_ne_zero.mp hrecv
  obtain ⟨G', hG'⟩ := foldTraffic_ok env W.S (updateHeight W.S W.G (Examination.NodeHeight p))
    (Examination.refresh env p ((p.nSendBytes : Rat) / (p.nRecvBytes : Rat)))
    (Examination.UpdateNodeStats env p)
  obtain ⟨c, hc⟩ := CheckAttack_ok env { W with G := G' }
    (Examination.refresh env p ((p.nSendBytes : Rat) / (p.nRecvBytes : Rat))) hrecv
  refine ⟨G', c, hG', hc, ?_⟩
  unfold Examination
  simp only [gt_iff_lt, hrecv, if_true]
  unfold Examination.traffic
  rw [fdiv_ok _ _ hne, bind_ok, hG', bind_ok, hc, bind_ok]
  rfl

/-- The peer that `CheckAttack` hands back has the telemetry it was given. -/
theorem CheckAttack_telemetry (env : Env) (W : World) (p : CNode) (c : CheckOutcome)
    (hc : CheckAttack env W p = Except.ok c) :
    c.pnode.nTrafficRatio = p.nTrafficRatio ∧ c.pnode.nTrafficAverage = p.nTrafficAverage
    ∧ c.pnode.nTrafficTimestamp = p.nTrafficTimestamp := by
  cases hf : CheckAttack.filters env W p with
  | error err =>
    unfold CheckAttack at hc
    rw [hf] at hc
    cases hc
  | ok a =>
    obtain ⟨c', hc', _, _, _, _, _, hp, _⟩ := CheckAttack_outcome env W p a hf
    rw [hc] at hc'
    cases hc'
    rw [hp]
    split <;> exact ⟨rfl, rfl, rfl⟩

/-- With `nRecvBytes > 0`, every pass assigns the traffic ratio, the traffic average and the
sample timestamp of the peer. -/
theorem Examination_telemetry (env : Env) (W : World) (p : CNode)
    (hrecv : 0 < p.nRecvBytes) :
    ∃ e, Examination env W p = Except.ok e
      ∧ e.pnode.nTrafficRatio = (p.nSendBytes : Rat) / (p.nRecvBytes : Rat)
      ∧ e.pnode.nTrafficAverage
          = p.nTrafficAverage + (p.nSendBytes : Rat) / (p.nRecvBytes : Rat) / 2
      ∧ e.pnode.nTrafficTimestamp = env.now := by
  obtain ⟨G', c, _, hc, he⟩ := Examination_of_received env W p hrecv
  obtain ⟨h1, h2, h3⟩ := CheckAttack_telemetry _ _ _ c hc
  exact ⟨_, he, h1, h2, h3⟩

/-- C17 at the failing input: a peer with 5,000 bytes sent and 7,000 received whose last
sample was stamped at 1068 s, examined at 1070 s. The flag `UpdateNodeStats` is false (the
sample does not qualify), yet the pass moves the traffic average from 0 to 5/14 and the
sample timestamp from 1068 to 1070: the two assignments stand outside the braces of the
five-second test. -/
theorem C17_sampled_inside_the_window :
    0 < lingeringPeer.nRecvBytes
    ∧ lingeringPeer.nTrafficTimestamp = 1068
    ∧ sampleEnv.now - lingeringPeer.nTrafficTimestamp = 2
    ∧ Examination.UpdateNodeStats sampleEnv lingeringPeer = false
    ∧ lingeringPeer.nTrafficAverage = 0
    ∧ ∃ e, Examination sampleEnv sampleWorld lingeringPeer = Except.ok e
        ∧ e.pnode.nTrafficAverage = 5 / 14
        ∧ e.pnode.nTrafficTimestamp = 1070 := by
  refine ⟨by decide, rfl, by decide, by decide, rfl, ?_⟩
  obtain ⟨e, he, _, havg, hts⟩ :=
    Examination_telemetry sampleEnv sampleWorld lingeringPeer (by decide)
  refine ⟨e, he, ?_, hts⟩
  rw [havg]
  norm_num [lingeringPeer, invalidPeer]


/-- A peer with `nRecvBytes > 0` that meets the condition of Filter 2 is detected, and its
disconnect is requested. -/
theorem CheckAttack_detected_of_invalidWallet (env : Env) (W : World) (p : CNode)
    (hrecv : 0 < p.nRecvBytes)
    (hcond : invalidWalletCondition W.S p (CheckAttack.nTimeConnected env p)) :
    ∃ c, CheckAttack env W p = Except.ok c ∧ c.result = true
      ∧ Event.disconnect p.addr env.lockSend ∈ c.events := by
  obtain ⟨a, ha⟩ := NoFalsePositive_ok W.S W.G p
    (FilterBandwidthAbuse W.S W.G p (CheckAttack.nTimeConnected env p)
      (CheckAttack.NodeHeight p) AttackState.init) hrecv
  have hdet : (FilterFloodingWallet W.S W.G p (CheckAttack.nTimeConnected env p)
      (CheckAttack.NodeHeight p) (FilterForkedWallet W.S p
        (FilterInvalidWallet W.S p (CheckAttack.nTimeConnected env p) a))).DETECTED_ATTACK
      = true :=
    FilterFloodingWallet_keeps _ _ _ _ _ _ (FilterForkedWallet_keeps _ _ _
      ((FilterInvalidWallet_detected_iff _ _ _ _).mpr (Or.inr hcond)))
  obtain ⟨c, hc, hres, _, _, _, _, _, hev⟩ :=
    CheckAttack_outcome env W p _ (filters_of_noFalsePositive env W p a ha)
  refine ⟨c, hc, by rw [hres, hdet], ?_⟩
  rw [hev, if_pos hdet]
  simp

/-- C18 as stated fails: the scenario-1 peer with a sample stamped two seconds ago has
`nRecvBytes > 0` and a sample that does not qualify (it is not the first one and fewer than
five seconds have passed), yet the pass calls `CheckAttack`, which returns detected, and the
disconnect of the peer is requested. -/
theorem C18_counterexample :
    0 < lingeringPeer.nRecvBytes
    ∧ lingeringPeer.nTrafficTimestamp ≠ 0
    ∧ sampleEnv.now - lingeringPeer.nTrafficTimestamp < 5
    ∧ Examination.UpdateNodeStats sampleEnv lingeringPeer = false
    ∧ ∃ e, Examination sampleEnv sampleWorld lingeringPeer = Except.ok e
        ∧ (∃ tag, e.events.head? = some (Event.checkAttack true tag))
        ∧ Event.disconnect "10.0.0.5" true ∈ e.events := by
  refine ⟨by decide, by decide, by decide, by decide, ?_⟩
  obtain ⟨G', c, _, hc, he⟩ :=
    Examination_of_received sampleEnv sampleWorld lingeringPeer (by decide)
  have hcond : invalidWalletCondition sampleWorld.S lingeringPeer
      (CheckAttack.nTimeConnected sampleEnv lingeringPeer) := by decide
  obtain ⟨c', hc', hres, hdis⟩ := CheckAttack_detected_of_invalidWallet sampleEnv
    { sampleWorld with G := G' }
    (Examination.refresh sampleEnv lingeringPeer
      ((lingeringPeer.nSendBytes : Rat) / (lingeringPeer.nRecvBytes : Rat)))
    (by decide) hcond
  rw [hc] at hc'
  cases hc'
  refine ⟨_, he, ⟨c.verdict.ATTACK_TYPE, ?_⟩, ?_⟩
  · simp [hres]
  · exact List.mem_cons_of_mem _ hdis

/-- C18 amended: the classifier runs on every examination with `nRecvBytes > 0`, whether or
not the traffic sample qualifies: `Examination` calls `CheckAttack` on the peer with its
refreshed telemetry, and the bans and the disconnect of that call are those of the pass.
Only the fold of the peer into the traffic baseline is restricted to a qualifying sample. -/
theorem C18_classifier_runs_on_every_received_pass (env : Env) (W : World) (p : CNode)
    (hrecv : 0 < p.nRecvBytes) :
    ∃ G' c e,
      Examination.foldTraffic env W.S (updateHeight W.S W.G (Examination.NodeHeight p))
          (Examination.refresh env p ((p.nSendBytes : Rat) / (p.nRecvBytes : Rat)))
          (Examination.UpdateNodeStats env p) = Except.ok G'
      ∧ (Examination.UpdateNodeStats env p = false →
          G' = updateHeight W.S W.G (Examination.NodeHeight p))
      ∧ CheckAttack env { W with G := G' }
          (Examination.refresh env p ((p.nSendBytes : Rat) / (p.nRecvBytes : Rat)))
          = Except.ok c
      ∧ Examination env W p = Except.ok e
      ∧ e.events = Event.checkAttack c.result c.verdict.ATTACK_TYPE :: c.events
      ∧ e.W = c.W ∧ e.pnode = c.pnode := by
  obtain ⟨G', c, hG', hc, he⟩ := Examination_of_received env W p hrecv
  refine ⟨G', c, _, hG', ?_, hc, he, rfl, rfl, rfl⟩
  intro hu
  rw [hu] at hG'
  unfold Examination.foldTraffic at hG'
  simp only [Bool.false_eq_true, if_false] at hG'
  cases hG'
  rfl

/-- C18 amended at the peer with a sample stamped two seconds ago: `CheckAttack` is
called. -/
theorem C18_witness :
    ∃ G' c e,
      Examination.foldTraffic sampleEnv sampleWorld.S
          (updateHeight sampleWorld.S sampleWorld.G (Examination.NodeHeight lingeringPeer))
          (Examination.refresh sampleEnv lingeringPeer
            ((lingeringPeer.nSendBytes : Rat) / (lingeringPeer.nRecvBytes : Rat)))
          (Examination.UpdateNodeStats sampleEnv lingeringPeer) = Except.ok G'
      ∧ (Examination.UpdateNodeStats sampleEnv lingeringPeer = false →
          G' = updateHeight sampleWorld.S sampleWorld.G (Examination.NodeHeight lingeringPeer))
      ∧ CheckAttack sampleEnv { sampleWorld with G := G' }
          (Examination.refresh sampleEnv lingeringPeer
            ((lingeringPeer.nSendBytes : Rat) / (lingeringPeer.nRecvBytes : Rat)))
          = Except.ok c
      ∧ Examination sampleEnv sampleWorld lingeringPeer = Except.ok e
      ∧ e.events = Event.checkAttack c.result c.verdict.ATTACK_TYPE :: c.events
      ∧ e.W = c.W ∧ e.pnode = c.pnode :=
  C18_classifier_runs_on_every_received_pass sampleEnv sampleWorld lingeringPeer (by decide)


/-! ## Adding to a full flood-pattern list -/

theorem CountStringArray_replicate (n : Nat) (s : String) (hs : s ≠ "") :
    CountStringArray (List.replicate n s) = n := by
  induction n with
  | zero => rfl
  | succ n ih => simp [List.replicate_succ, CountStringArray, hs, ih]

/-- Below 256 entries the add command stores the pattern in the first blank slot and replies
the new count as a single character. -/
theorem add_stores (S : Settings) (p : String)
    (hcount : CountStringArray S.FIREWALL_FLOODPATTERNS < 256) :
    firewallfloodingwalletattackpatternadd S (JSONRPCRequest.mk false [p])
      = Except.ok
          ({ S with
              FIREWALL_FLOODPATTERNS :=
                setSlot S.FIREWALL_FLOODPATTERNS (CountStringArray S.FIREWALL_FLOODPATTERNS)
                  p },
            charMessage (CountStringArray
              (setSlot S.FIREWALL_FLOODPATTERNS (CountStringArray S.FIREWALL_FLOODPATTERNS)
                p))) := by
  unfold firewallfloodingwalletattackpatternadd
  rw [if_neg (by simp), if_pos (by simp), if_pos hcount]
  rfl

/-- C19: adding a pattern to a flood-pattern list that already holds 256 entries is refused.
When all 256 slots hold a non-empty pattern, the call with one parameter returns, the
settings it leaves are the settings it found (so every slot is unchanged), the list still
counts 256 entries, and the reply is "Over 256 Max!". -/
theorem C19_add_to_full_list_refused (S : Settings) (p : String)
    (hlen : S.FIREWALL_FLOODPATTERNS.length = 256)
    (hfull : ∀ s ∈ S.FIREWALL_FLOODPATTERNS, s ≠ "") :
    ∃ out, firewallfloodingwalletattackpatternadd S (JSONRPCRequest.mk false [p])
        = Except.ok out
      ∧ out.1 = S
      ∧ out.1.FIREWALL_FLOODPATTERNS = S.FIREWALL_FLOODPATTERNS
      ∧ CountStringArray out.1.FIREWALL_FLOODPATTERNS = 256
      ∧ out.2 = "Over 256 Max!" := by
  have hcount : CountStringArray S.FIREWALL_FLOODPATTERNS = 256 := by
    rw [CountStringArray_of_no_blank _ hfull, hlen]
  refine ⟨(S, "Over 256 Max!"), ?_, rfl, rfl, hcount, rfl⟩
  unfold firewallfloodingwalletattackpatternadd
  rw [if_neg (by simp), if_pos (by simp), if_neg (by omega)]
  rfl

/-- C19 at a list of 256 entries "25" and the request to add "2619". -/
theorem C19_witness :
    firewallfloodingwalletattackpatternadd fullPatternSettings addRequest
      = Except.ok (fullPatternSettings, "Over 256 Max!") := by
  obtain ⟨out, hout, hS, _, _, hmsg⟩ :=
    C19_add_to_full_list_refused fullPatternSettings "2619" (List.length_replicate 256 "25")
      (fun s hs => by
        rw [List.eq_of_mem_replicate hs]
        decide)
  have hpair : out = (fullPatternSettings, "Over 256 Max!") := Prod.ext hS hmsg
  rw [← hpair]
  exact hout

/-! ## Determinism of the classifier -/

/-- C20 as stated fails: two runs of `CheckAttack` on the same peer, at the same clock
reading and with the same settings, one with the baseline of the settled state and one with
the baseline at its initial zeros, return different verdicts. -/
theorem C20_counterexample :
    settledWorld.S = sampleWorld.S
    ∧ ∃ c c', CheckAttack sampleEnv settledWorld downloadingPeer = Except.ok c
        ∧ CheckAttack sampleEnv sampleWorld downloadingPeer = Except.ok c'
        ∧ c.result = true ∧ c'.result = false := by
  refine ⟨rfl, _, _, rfl, rfl, ?_, ?_⟩ <;> decide

/-- The locals left by the filters depend on the peer, the clock, the settings and the
global variables only through the telemetry, the settings and the baseline. -/
theorem filters_congr (env env' : Env) (W W' : World) (p p' : CNode)
    (hS : W.S = W'.S)
    (ht : CheckAttack.telemetry env p = CheckAttack.telemetry env' p')
    (hG : CheckAttack.baseline W.G = CheckAttack.baseline W'.G) :
    CheckAttack.filters env W p = CheckAttack.filters env' W' p' := by
  simp only [CheckAttack.telemetry, CheckAttack.baseline, Prod.mk.injEq] at ht hG
  obtain ⟨h1, h2, h3, h4, h5, h6, h7⟩ := ht
  obtain ⟨g1, g2, g3, g4, g5⟩ := hG
  unfold CheckAttack.filters CheckAttack.beforeFlooding FilterFloodingWallet FilterForkedWallet
    FilterInvalidWallet NoFalsePositive NoFalsePositive.highBWLowHeight FilterBandwidthAbuse
    floodProbes CheckAttack.NodeHeight forkedStep
  simp only [hS, h1, h2, h3, h4, h5, h6, h7, g1, g2, g3, g4, g5]


/-- The value returned and the locals at the trigger are those left by the filters. -/
theorem CheckAttack_verdict (env : Env) (W : World) (p : CNode) :
    (CheckAttack env W p).map (fun c => (c.result, c.verdict))
      = (CheckAttack.filters env W p).map (fun a => (a.DETECTED_ATTACK, a)) := by
  unfold CheckAttack
  cases hf : CheckAttack.filters env W p with
  | error err => rfl
  | ok a =>
    rw [bind_ok]
    cases hd : a.DETECTED_ATTACK <;> simp [Except.map, pure, Except.pure, hd]

/-- C20 amended: the classifier is deterministic in the peer telemetry, the settings and the
baseline. Any two runs of `CheckAttack` with identical telemetry (connection age, bytes sent
and received, starting and synced height, protocol version, traffic average), identical
settings and identical baseline (average height with its minimum and maximum, minimum and
maximum of the average traffic) leave the same locals, so they return the same value, the
same attack type and the same ban schedule (flag, reason and duration), or fail alike. -/
theorem C20_deterministic_given_baseline (env env' : Env) (W W' : World) (p p' : CNode)
    (hS : W.S = W'.S)
    (ht : CheckAttack.telemetry env p = CheckAttack.telemetry env' p')
    (hG : CheckAttack.baseline W.G = CheckAttack.baseline W'.G) :
    (CheckAttack env W p).map (fun c => (c.result, c.verdict))
      = (CheckAttack env' W' p').map (fun c => (c.result, c.verdict)) := by
  rw [CheckAttack_verdict, CheckAttack_verdict, filters_congr env env' W W' p p' hS ht hG]

/-- C20 amended at two runs that differ in the clock, the lock, the address and the
timestamps of the peer, the ban store and the per-connection shares, and agree on the
telemetry, the settings and the baseline. -/
theorem C20_witness :
    (CheckAttack sampleEnv settledWorld downloadingPeer).map (fun c => (c.result, c.verdict))
      = (CheckAttack laterEnv laterWorld laterPeer).map (fun c => (c.result, c.verdict)) :=
  C20_deterministic_given_baseline sampleEnv laterEnv settledWorld laterWorld
    downloadingPeer laterPeer rfl (by decide) (by decide)


/-! ## The no-false-positive stage applied twice -/

theorem NoFalsePositive_of_undetected (S : Settings) (G : Globals) (p : CNode)
    (a : AttackState) (h : a.DETECTED_ATTACK = false) :
    NoFalsePositive S G p a = Except.ok a := by
  unfold NoFalsePositive
  have hn : ¬ a.DETECTED_ATTACK = true := by rw [h]; decide
  by_cases ht : S.FIREWALL_NOFALSEPOSITIVE_BANDWIDTHABUSE = true
  · rw [if_pos ht, if_neg hn]; rfl
  · rw [if_neg ht]; rfl

theorem syncTags_cases (a : AttackState) :
    NoFalsePositive.syncTags a = a ∨ NoFalsePositive.syncTags a = a.clear := by
  unfold NoFalsePositive.syncTags
  by_cases h1 : a.ATTACK_TYPE = "2-LowBW-HighHeight"
  · right
    simp [h1, AttackState.clear]
  · by_cases h2 : a.ATTACK_TYPE = "2-HighBW-HighHeight"
    · right
      simp [h1, h2, AttackState.clear]
    · by_cases h3 : a.ATTACK_TYPE = "3-LowBW-LowHeight"
      · right
        simp [h1, h2, h3]
      · left
        simp [h1, h2, h3]

theorem highBWLowHeight_cases (S : Settings) (G : Globals) (p : CNode) (a b : AttackState)
    (h : NoFalsePositive.highBWLowHeight S G p a = Except.ok b) :
    b = a ∨ b = a.clear := by
  unfold NoFalsePositive.highBWLowHeight at h
  split at h
  · unfold udiv at h
    split at h
    · cases h
    · rw [bind_ok] at h
      cases h
      split_ifs <;> simp [AttackState.clear]
  · cases h
    exact Or.inl rfl

theorem highBWLowHeight_clear (S : Settings) (G : Globals) (p : CNode) (a : AttackState) :
    NoFalsePositive.highBWLowHeight S G p a.clear = Except.ok a.clear := by
  unfold NoFalsePositive.highBWLowHeight
  rw [if_neg (by simp [AttackState.clear])]
  rfl

/-- The output of the no-false-positive stage is its input or the cleared input. -/
theorem NoFalsePositive_cases (S : Settings) (G : Globals) (p : CNode) (a b : AttackState)
    (h : NoFalsePositive S G p a = Except.ok b) : b = a ∨ b = a.clear := by
  unfold NoFalsePositive at h
  split at h
  · split at h
    · rcases syncTags_cases a with hs | hs
      · rw [hs] at h
        exact highBWLowHeight_cases S G p a b h
      · rw [hs, highBWLowHeight_clear] at h
        cases h
        exact Or.inr rfl
    · cases h
      exact Or.inl rfl
  · cases h
    exact Or.inl rfl

theorem NoFalsePositive_idem (S : Settings) (G : Globals) (p : CNode) (a b : AttackState)
    (h : NoFalsePositive S G p a = Except.ok b) : NoFalsePositive S G p b = Except.ok b := by
  rcases NoFalsePositive_cases S G p a b h with hb | hb
  · rw [hb]
    rw [hb] at h
    exact h
  · rw [hb]
    exact NoFalsePositive_of_undetected S G p _ rfl

/-- C21: the no-false-positive stage is idempotent. For every flag, tag, telemetry and
baseline (of a peer with `nRecvBytes > 0`, which is how `Examination` calls the classifier),
the stage returns, and applied to its own output it returns that output again (same flag,
same tag); and a detection that is already cleared is left unchanged, for every peer. -/
theorem C21_noFalsePositive_idempotent (S : Settings) (G : Globals) (p : CNode)
    (a : AttackState) (hrecv : 0 < p.nRecvBytes) :
    (∃ b, NoFalsePositive S G p a = Except.ok b ∧ NoFalsePositive S G p b = Except.ok b)
    ∧ (∀ (q : CNode) (c : AttackState), c.DETECTED_ATTACK = false →
        NoFalsePositive S G q c = Except.ok c) := by
  constructor
  · obtain ⟨b, hb⟩ := NoFalsePositive_ok S G p a hrecv
    exact ⟨b, hb, NoFalsePositive_idem S G p a b hb⟩
  · intro q c hc
    exact NoFalsePositive_of_undetected S G q c hc

/-- C21 at the scenario-2 peer with the tag `2-HighBW-HighHeight`: the stage clears the
detection, and applied again it leaves the cleared state. -/
theorem C21_witness :
    ∃ b, NoFalsePositive settledWorld.S settledWorld.G downloadingPeer
          (AttackState.init.detect "2-HighBW-HighHeight") = Except.ok b
      ∧ NoFalsePositive settledWorld.S settledWorld.G downloadingPeer b = Except.ok b :=
  (C21_noFalsePositive_idempotent settledWorld.S settledWorld.G downloadingPeer
    (AttackState.init.detect "2-HighBW-HighHeight") (by decide)).1


/-! ## The resolved height -/

/-- C27: for every starting height and synced height, the resolved height computed by
`Examination` and the one computed by `CheckAttack` are equal, and both are the synced height
when it is nonzero and at least the starting height, and the starting height otherwise. -/
theorem C27_resolved_heights_agree (p : CNode) :
    Examination.NodeHeight p = CheckAttack.NodeHeight p
    ∧ CheckAttack.NodeHeight p = specResolvedHeight p.nStartingHeight p.nSyncHeight := by
  unfold Examination.NodeHeight CheckAttack.NodeHeight specResolvedHeight
  dsimp only
  constructor <;> split_ifs <;> omega

/-! ## Filter 1 and the tags it sets -/

theorem FilterBandwidthAbuse_flag_iff (S : Settings) (G : Globals) (p : CNode) (t n : Int)
    (hdet : S.FIREWALL_DETECT_BANDWIDTHABUSE = true) :
    (FilterBandwidthAbuse S G p t n AttackState.init).DETECTED_ATTACK = true
      ↔ t > S.FIREWALL_BANDWIDTHABUSE_MAXCHECK ∧ n ≠ G.Firewall_AverageHeight_Min
        ∧ (p.nTrafficAverage < G.Firewall_AverageTraffic_Min
            ∨ p.nTrafficAverage > G.Firewall_AverageTraffic_Max) := by
  unfold FilterBandwidthAbuse
  rw [if_pos hdet, mitigate_detected]
  by_cases hage : t > S.FIREWALL_BANDWIDTHABUSE_MAXCHECK
  · rw [if_pos hage]
    rcases lt_trichotomy n G.Firewall_AverageHeight_Min with hlt | heq | hgt
    · have hng : ¬ n > G.Firewall_AverageHeight_Min := not_lt.mpr (le_of_lt hlt)
      rw [if_neg hng, if_pos hlt]
      split_ifs <;> simp_all [AttackState.detect, AttackState.init, ne_of_lt]
    · have hng : ¬ n > G.Firewall_AverageHeight_Min := by rw [heq]; exact lt_irrefl _
      have hnl : ¬ n < G.Firewall_AverageHeight_Min := by rw [heq]; exact lt_irrefl _
      rw [if_neg hng, if_neg hnl]
      simp [AttackState.init, heq]
    · have hnl : ¬ n < G.Firewall_AverageHeight_Min := not_lt.mpr (le_of_lt hgt)
      rw [if_pos hgt, if_neg hnl]
      split_ifs <;> simp_all [AttackState.detect, AttackState.init, ne_of_gt]
  · rw [if_neg hage]
    simp [AttackState.init, hage]

theorem FilterBandwidthAbuse_tag (S : Settings) (G : Globals) (p : CNode) (t n : Int)
    (hdet : S.FIREWALL_DETECT_BANDWIDTHABUSE = true) :
    (FilterBandwidthAbuse S G p t n AttackState.init).ATTACK_TYPE
      = if (FilterBandwidthAbuse S G p t n AttackState.init).DETECTED_ATTACK = true
        then specBandwidthTag n G.Firewall_AverageHeight_Min p.nTrafficAverage
          G.Firewall_AverageTraffic_Max
        else "" := by
  unfold FilterBandwidthAbuse specBandwidthTag
  rw [if_pos hdet, mitigate_detected, mitigate_type]
  by_cases hage : t > S.FIREWALL_BANDWIDTHABUSE_MAXCHECK
  · rw [if_pos hage]
    rcases lt_trichotomy n G.Firewall_AverageHeight_Min with hlt | heq | hgt
    · have hng : ¬ n > G.Firewall_AverageHeight_Min := not_lt.mpr (le_of_lt hlt)
      rw [if_neg hng, if_pos hlt]
      simp only [if_neg hng]
      split_ifs <;> simp_all [AttackState.detect, AttackState.init]
    · have hng : ¬ n > G.Firewall_AverageHeight_Min := by rw [heq]; exact lt_irrefl _
      have hnl : ¬ n < G.Firewall_AverageHeight_Min := by rw [heq]; exact lt_irrefl _
      rw [if_neg hng, if_neg hnl]
      simp [AttackState.init]
    · have hnl : ¬ n < G.Firewall_AverageHeight_Min := not_lt.mpr (le_of_lt hgt)
      rw [if_pos hgt, if_neg hnl]
      simp only [if_pos hgt]
      split_ifs <;> simp_all [AttackState.detect, AttackState.init]
  · rw [if_neg hage]
    simp [AttackState.init]


/-- C28: Filter 1, when bandwidth detection is enabled, flags the peer exactly when the
connection age is strictly greater than the bandwidth-check threshold, the resolved height
differs from the minimum height of the baseline, and the traffic average of the peer is
below the minimum or above the maximum traffic of the baseline; the tag it sets is then
`2-...-HighHeight` above the minimum height and `3-...-LowHeight` below, with `HighBW` above
the maximum traffic and `LowBW` otherwise, and no tag is set when nothing is flagged (so
nothing is flagged at an age equal to the threshold or a height equal to the minimum). -/
theorem C28_bandwidth_filter_quadrants (S : Settings) (G : Globals) (p : CNode) (t n : Int)
    (hdet : S.FIREWALL_DETECT_BANDWIDTHABUSE = true) :
    ((FilterBandwidthAbuse S G p t n AttackState.init).DETECTED_ATTACK = true
      ↔ t > S.FIREWALL_BANDWIDTHABUSE_MAXCHECK ∧ n ≠ G.Firewall_AverageHeight_Min
        ∧ (p.nTrafficAverage < G.Firewall_AverageTraffic_Min
            ∨ p.nTrafficAverage > G.Firewall_AverageTraffic_Max))
    ∧ (FilterBandwidthAbuse S G p t n AttackState.init).ATTACK_TYPE
      = (if (FilterBandwidthAbuse S G p t n AttackState.init).DETECTED_ATTACK = true
        then specBandwidthTag n G.Firewall_AverageHeight_Min p.nTrafficAverage
          G.Firewall_AverageTraffic_Max
        else "") :=
  ⟨FilterBandwidthAbuse_flag_iff S G p t n hdet, FilterBandwidthAbuse_tag S G p t n hdet⟩

/-- C28 at the scenario-2 peer: age 70 s above the threshold 10 s, height 20 below the
minimum 900, traffic average 6 above the maximum 5: flagged with `3-HighBW-LowHeight`. -/
theorem C28_witness :
    ((FilterBandwidthAbuse settledWorld.S settledWorld.G downloadingPeer 70 20
        AttackState.init).DETECTED_ATTACK = true
      ↔ (70 : Int) > settledWorld.S.FIREWALL_BANDWIDTHABUSE_MAXCHECK
        ∧ (20 : Int) ≠ settledWorld.G.Firewall_AverageHeight_Min
        ∧ (downloadingPeer.nTrafficAverage < settledWorld.G.Firewall_AverageTraffic_Min
            ∨ downloadingPeer.nTrafficAverage > settledWorld.G.Firewall_AverageTraffic_Max))
    ∧ specBandwidthTag 20 settledWorld.G.Firewall_AverageHeight_Min
        downloadingPeer.nTrafficAverage settledWorld.G.Firewall_AverageTraffic_Max
      = "3-HighBW-LowHeight"
    ∧ (FilterBandwidthAbuse settledWorld.S settledWorld.G downloadingPeer 70 20
        AttackState.init).ATTACK_TYPE = "3-HighBW-LowHeight" :=
  ⟨(C28_bandwidth_filter_quadrants settledWorld.S settledWorld.G downloadingPeer 70 20 rfl).1,
    by decide, by decide⟩

/-! ## What the no-false-positive stage clears -/

theorem FilterBandwidthAbuse_output_cases (S : Settings) (G : Globals) (p : CNode)
    (t n : Int) :
    ((FilterBandwidthAbuse S G p t n AttackState.init).DETECTED_ATTACK = false
      ∧ (FilterBandwidthAbuse S G p t n AttackState.init).ATTACK_TYPE = "")
    ∨ ((FilterBandwidthAbuse S G p t n AttackState.init).DETECTED_ATTACK = true
      ∧ ((FilterBandwidthAbuse S G p t n AttackState.init).ATTACK_TYPE = "2-LowBW-HighHeight"
        ∨ (FilterBandwidthAbuse S G p t n AttackState.init).ATTACK_TYPE = "2-HighBW-HighHeight"
        ∨ (FilterBandwidthAbuse S G p t n AttackState.init).ATTACK_TYPE = "3-LowBW-LowHeight"
        ∨ (FilterBandwidthAbuse S G p t n AttackState.init).ATTACK_TYPE
            = "3-HighBW-LowHeight")) := by
  unfold FilterBandwidthAbuse
  by_cases hdet : S.FIREWALL_DETECT_BANDWIDTHABUSE = true
  · rw [if_pos hdet, mitigate_detected, mitigate_type]
    split_ifs <;> simp [AttackState.detect, AttackState.init]
  · rw [if_neg hdet]
    simp [AttackState.init]

theorem NoFalsePositive_sync_cleared (S : Settings) (G : Globals) (p : CNode)
    (a : AttackState) (hnfp : S.FIREWALL_NOFALSEPOSITIVE_BANDWIDTHABUSE = true)
    (hd : a.DETECTED_ATTACK = true)
    (hty : a.ATTACK_TYPE = "2-LowBW-HighHeight" ∨ a.ATTACK_TYPE = "2-HighBW-HighHeight"
      ∨ a.ATTACK_TYPE = "3-LowBW-LowHeight") :
    NoFalsePositive S G p a = Except.ok a.clear := by
  have hs : NoFalsePositive.syncTags a = a.clear := by
    unfold NoFalsePositive.syncTags
    rcases hty with h | h | h <;> simp [h, AttackState.clear]
  unfold NoFalsePositive
  rw [if_pos hnfp, if_pos hd, hs]
  exact highBWLowHeight_clear S G p a

/-- C29: with false-positive suppression enabled, every detection that Filter 1 tags
`2-LowBW-HighHeight`, `2-HighBW-HighHeight` or `3-LowBW-LowHeight` is cleared by the
no-false-positive stage (flag false, tag empty) for every peer telemetry and baseline; so
whenever the flag is still set after the stage, the tag is `3-HighBW-LowHeight`. -/
theorem C29_sync_tags_cleared (S : Settings) (G : Globals) (p : CNode) (t n : Int)
    (hnfp : S.FIREWALL_NOFALSEPOSITIVE_BANDWIDTHABUSE = true) :
    ((FilterBandwidthAbuse S G p t n AttackState.init).ATTACK_TYPE = "2-LowBW-HighHeight"
        ∨ (FilterBandwidthAbuse S G p t n AttackState.init).ATTACK_TYPE = "2-HighBW-HighHeight"
        ∨ (FilterBandwidthAbuse S G p t n AttackState.init).ATTACK_TYPE = "3-LowBW-LowHeight" →
      ∃ b, NoFalsePositive S G p (FilterBandwidthAbuse S G p t n AttackState.init)
          = Except.ok b
        ∧ b.DETECTED_ATTACK = false ∧ b.ATTACK_TYPE = "")
    ∧ (∀ b, NoFalsePositive S G p (FilterBandwidthAbuse S G p t n AttackState.init)
          = Except.ok b →
        b.DETECTED_ATTACK = true → b.ATTACK_TYPE = "3-HighBW-LowHeight") := by
  rcases FilterBandwidthAbuse_output_cases S G p t n with ⟨hd, hty⟩ | ⟨hd, hty⟩
  · constructor
    · intro h
      rw [hty] at h
      simp at h
    · intro b hb hbd
      rw [NoFalsePositive_of_undetected S G p _ hd] at hb
      cases hb
      rw [hd] at hbd
      cases hbd
  · constructor
    · intro h
      exact ⟨_, NoFalsePositive_sync_cleared S G p _ hnfp hd h, rfl, rfl⟩
    · intro b hb hbd
      rcases hty with h | h | h | h
      · rw [NoFalsePositive_sync_cleared S G p _ hnfp hd (Or.inl h)] at hb
        cases hb
        cases hbd
      · rw [NoFalsePositive_sync_cleared S G p _ hnfp hd (Or.inr (Or.inl h))] at hb
        cases hb
        cases hbd
      · rw [NoFalsePositive_sync_cleared S G p _ hnfp hd (Or.inr (Or.inr h))] at hb
        cases hb
        cases hbd
      · rcases NoFalsePositive_cases S G p _ b hb with hb' | hb'
        · rw [hb']
          exact h
        · rw [hb'] at hbd
          cases hbd


/-- C29 at a peer of height 1050 (above the minimum 900) with traffic average 6 (above the
maximum 5): Filter 1 tags `2-HighBW-HighHeight` and the stage clears the detection. -/
theorem C29_witness :
    (FilterBandwidthAbuse settledWorld.S settledWorld.G downloadingPeer 70 1050
        AttackState.init).ATTACK_TYPE = "2-HighBW-HighHeight"
    ∧ ∃ b, NoFalsePositive settledWorld.S settledWorld.G downloadingPeer
          (FilterBandwidthAbuse settledWorld.S settledWorld.G downloadingPeer 70 1050
            AttackState.init) = Except.ok b
        ∧ b.DETECTED_ATTACK = false ∧ b.ATTACK_TYPE = "" :=
  ⟨by decide,
    (C29_sync_tags_cleared settledWorld.S settledWorld.G downloadingPeer 70 1050 rfl).1
      (Or.inr (Or.inl (by decide)))⟩


/-! ## What an examination does to the settings and the global variables -/

/-- A run of `CheckAttack` changes neither the settings nor the global variables, and the
calls it makes are bans and disconnects. -/
theorem CheckAttack_frame (env : Env) (W : World) (p : CNode) (c : CheckOutcome)
    (hc : CheckAttack env W p = Except.ok c) :
    c.W.S = W.S ∧ c.W.G = W.G ∧ Event.loadSettings ∉ c.events := by
  cases hf : CheckAttack.filters env W p with
  | error err =>
    unfold CheckAttack at hc
    rw [hf] at hc
    cases hc
  | ok a =>
    obtain ⟨c', hc', _, _, hS, hG, _, _, hev⟩ := CheckAttack_outcome env W p a hf
    rw [hc] at hc'
    cases hc'
    refine ⟨hS, hG, ?_⟩
    rw [hev]
    split_ifs <;> simp

theorem updateHeight_frame (S : Settings) (G : Globals) (n : Int) :
    (updateHeight S G n).Firewall_FirstRun = G.Firewall_FirstRun
    ∧ (updateHeight S G n).Firewall_AverageTraffic = G.Firewall_AverageTraffic
    ∧ (updateHeight S G n).Firewall_AverageTraffic_Min = G.Firewall_AverageTraffic_Min
    ∧ (updateHeight S G n).Firewall_AverageTraffic_Max = G.Firewall_AverageTraffic_Max := by
  unfold updateHeight
  split <;> exact ⟨rfl, rfl, rfl, rfl⟩

theorem updateTraffic_fields (env : Env) (S : Settings) (G G' : Globals) (p : CNode)
    (h : updateTraffic env S G p = Except.ok G') :
    G'.Firewall_FirstRun = G.Firewall_FirstRun
    ∧ G'.Firewall_AverageHeight = G.Firewall_AverageHeight
    ∧ G'.Firewall_AverageHeight_Min = G.Firewall_AverageHeight_Min
    ∧ G'.Firewall_AverageHeight_Max = G.Firewall_AverageHeight_Max
    ∧ (G'.Firewall_AverageTraffic, G'.Firewall_AverageTraffic_Min,
        G'.Firewall_AverageTraffic_Max)
      = specUpdateTraffic S.FIREWALL_TRAFFIC_TOLERANCE S.FIREWALL_TRAFFIC_ZONE
          G.Firewall_AverageTraffic p.nTrafficAverage := by
  unfold updateTraffic at h
  by_cases hc : toInt32 (env.nodeCount : Int) > 0
  · have hne : toSizeT (toInt32 (env.nodeCount : Int)) ≠ 0 :=
      toSizeT_ne_zero _ hc (lt_trans (toInt32_lt _) (by norm_num))
    simp only [hc, if_true, udiv_ok _ _ hne, bind_ok] at h
    cases h
    exact ⟨rfl, rfl, rfl, rfl, rfl⟩
  · simp only [hc, if_false] at h
    cases h
    exact ⟨rfl, rfl, rfl, rfl, rfl⟩

theorem foldTraffic_fields (env : Env) (S : Settings) (G G' : Globals) (p : CNode) (u : Bool)
    (h : Examination.foldTraffic env S G p u = Except.ok G') :
    G'.Firewall_FirstRun = G.Firewall_FirstRun
    ∧ G'.Firewall_AverageHeight = G.Firewall_AverageHeight
    ∧ G'.Firewall_AverageHeight_Min = G.Firewall_AverageHeight_Min
    ∧ G'.Firewall_AverageHeight_Max = G.Firewall_AverageHeight_Max
    ∧ (G'.Firewall_AverageTraffic, G'.Firewall_AverageTraffic_Min,
        G'.Firewall_AverageTraffic_Max)
      = (if u = true then specUpdateTraffic S.FIREWALL_TRAFFIC_TOLERANCE
            S.FIREWALL_TRAFFIC_ZONE G.Firewall_AverageTraffic p.nTrafficAverage
          else (G.Firewall_AverageTraffic, G.Firewall_AverageTraffic_Min,
            G.Firewall_AverageTraffic_Max)) := by
  unfold Examination.foldTraffic at h
  cases u with
  | true =>
    rw [if_pos rfl] at h
    rw [if_pos rfl]
    exact updateTraffic_fields env S G G' p h
  | false =>
    rw [if_neg (by decide)] at h
    cases h
    exact ⟨rfl, rfl, rfl, rfl, by simp⟩

/-- What one examination leaves in the settings and the global variables: the settings and
the first-run latch are untouched, the heights are those of the height update, and the
traffic baseline is folded exactly when the peer has received bytes and the sample
qualifies. No settings load is among the calls. -/
theorem Examination_globals (env : Env) (W : World) (p : CNode) :
    ∃ e, Examination env W p = Except.ok e
      ∧ e.W.S = W.S
      ∧ e.W.G.Firewall_FirstRun = W.G.Firewall_FirstRun
      ∧ e.W.G.Firewall_AverageHeight
          = (updateHeight W.S W.G (Examination.NodeHeight p)).Firewall_AverageHeight
      ∧ e.W.G.Firewall_AverageHeight_Min
          = (updateHeight W.S W.G (Examination.NodeHeight p)).Firewall_AverageHeight_Min
      ∧ e.W.G.Firewall_AverageHeight_Max
          = (updateHeight W.S W.G (Examination.NodeHeight p)).Firewall_AverageHeight_Max
      ∧ (e.W.G.Firewall_AverageTraffic, e.W.G.Firewall_AverageTraffic_Min,
          e.W.G.Firewall_AverageTraffic_Max)
        = (if 0 < p.nRecvBytes ∧ Examination.UpdateNodeStats env p = true
            then specUpdateTraffic W.S.FIREWALL_TRAFFIC_TOLERANCE W.S.FIREWALL_TRAFFIC_ZONE
              W.G.Firewall_AverageTraffic
              (p.nTrafficAverage + (p.nSendBytes : Rat) / (p.nRecvBytes : Rat) / 2)
            else (W.G.Firewall_AverageTraffic, W.G.Firewall_AverageTraffic_Min,
              W.G.Firewall_AverageTraffic_Max))
      ∧ Event.loadSettings ∉ e.events := by
  obtain ⟨f1, f2, f3, f4⟩ := updateHeight_frame W.S W.G (Examination.NodeHeight p)
  by_cases hrecv : 0 < p.nRecvBytes
  · obtain ⟨G', c, hG', hc, he⟩ := Examination_of_received env W p hrecv
    obtain ⟨hS, hG, hev⟩ := CheckAttack_frame _ _ _ c hc
    obtain ⟨g0, g1, g2, g3, g4⟩ := foldTraffic_fields _ _ _ _ _ _ hG'
    refine ⟨_, he, hS, ?_, ?_, ?_, ?_, ?_, ?_⟩
    · show c.W.G.Firewall_FirstRun = _
      rw [hG]
      exact g0.trans f1
    · show c.W.G.Firewall_AverageHeight = _
      rw [hG]
      exact g1
    · show c.W.G.Firewall_AverageHeight_Min = _
      rw [hG]
      exact g2
    · show c.W.G.Firewall_AverageHeight_Max = _
      rw [hG]
      exact g3
    · show (c.W.G.Firewall_AverageTraffic, c.W.G.Firewall_AverageTraffic_Min,
        c.W.G.Firewall_AverageTraffic_Max) = _
      rw [hG]
      show (G'.Firewall_AverageTraffic, G'.Firewall_AverageTraffic_Min,
        G'.Firewall_AverageTraffic_Max) = _
      rw [g4, f2, f3, f4]
      by_cases hu : Examination.UpdateNodeStats env p = true
      · rw [if_pos hu, if_pos ⟨hrecv, hu⟩]
        rfl
      · rw [if_neg hu, if_neg (fun h => hu h.2)]
    · show Event.loadSettings ∉ Event.checkAttack _ _ :: c.events
      simp [hev]
  · have hout : Examination env W p = Except.ok
        { W := { W with G := updateHeight W.S W.G (Examination.NodeHeight p) }, pnode := p,
          events := [] } := by
      unfold Examination
      simp only [gt_iff_lt, hrecv, if_false]
      rfl
    refine ⟨_, hout, rfl, f1, rfl, rfl, rfl, ?_, by simp⟩
    rw [if_neg (fun h => hrecv h.1)]
    show ((updateHeight W.S W.G (Examination.NodeHeight p)).Firewall_AverageTraffic,
      (updateHeight W.S W.G (Examination.NodeHeight p)).Firewall_AverageTraffic_Min,
      (updateHeight W.S W.G (Examination.NodeHeight p)).Firewall_AverageTraffic_Max) = _
    rw [f2, f3, f4]


/-! ## The height update and the traffic fold -/

theorem updateHeight_spec (S : Settings) (G : Globals) (n : Int)
    (hrange : n > G.Firewall_AverageHeight →
      inInt32 (G.Firewall_AverageHeight + n)
      ∧ inInt32 (Int.tdiv (G.Firewall_AverageHeight + n) 2 - S.FIREWALL_AVERAGE_TOLERANCE)
      ∧ inInt32 (Int.tdiv (G.Firewall_AverageHeight + n) 2 - S.FIREWALL_AVERAGE_TOLERANCE
          - S.FIREWALL_AVERAGE_RANGE)
      ∧ inInt32 (Int.tdiv (G.Firewall_AverageHeight + n) 2 - S.FIREWALL_AVERAGE_TOLERANCE
          + S.FIREWALL_AVERAGE_RANGE)) :
    ((updateHeight S G n).Firewall_AverageHeight, (updateHeight S G n).Firewall_AverageHeight_Min,
        (updateHeight S G n).Firewall_AverageHeight_Max)
      = specUpdateHeight S.FIREWALL_AVERAGE_TOLERANCE S.FIREWALL_AVERAGE_RANGE
          (G.Firewall_AverageHeight, G.Firewall_AverageHeight_Min, G.Firewall_AverageHeight_Max)
          n := by
  unfold updateHeight specUpdateHeight
  by_cases hgt : n > G.Firewall_AverageHeight
  · obtain ⟨h1, h2, h3, h4⟩ := hrange hgt
    simp only [hgt, if_true]
    rw [toInt32_of_range _ h1.1 h1.2, toInt32_of_range _ h2.1 h2.2,
      toInt32_of_range _ h3.1 h3.2, toInt32_of_range _ h4.1 h4.2]
  · simp only [hgt, if_false]

/-- C25 as stated fails: from the settled state (average 1000, tolerance 2, range 100) a
peer whose resolved height is 2147483647 triggers the update, and the claim gives the
average (1000 + 2147483647)/2 - 2 = 1073742321 with minimum 1073742221 and maximum
1073742421. The sum does not fit an `int`: the examination leaves the average -1073741326,
the minimum -1073741426 and the maximum -1073741226. -/
theorem C25_counterexample :
    Examination.NodeHeight maxHeightPeer = 2147483647
    ∧ Examination.NodeHeight maxHeightPeer > settledWorld.G.Firewall_AverageHeight
    ∧ specUpdateHeight settledWorld.S.FIREWALL_AVERAGE_TOLERANCE
        settledWorld.S.FIREWALL_AVERAGE_RANGE
        (settledWorld.G.Firewall_AverageHeight, settledWorld.G.Firewall_AverageHeight_Min,
          settledWorld.G.Firewall_AverageHeight_Max)
        (Examination.NodeHeight maxHeightPeer)
      = (1073742321, 1073742221, 1073742421)
    ∧ ¬ inInt32 (settledWorld.G.Firewall_AverageHeight + Examination.NodeHeight maxHeightPeer)
    ∧ ∃ e, Examination sampleEnv settledWorld maxHeightPeer = Except.ok e
        ∧ e.W.G.Firewall_AverageHeight = -1073741326
        ∧ e.W.G.Firewall_AverageHeight_Min = -1073741426
        ∧ e.W.G.Firewall_AverageHeight_Max = -1073741226 := by
  refine ⟨by decide, by decide, by decide, by decide, ?_⟩
  obtain ⟨e, he, _, _, h1, h2, h3, _⟩ := Examination_globals sampleEnv settledWorld maxHeightPeer
  refine ⟨e, he, ?_, ?_, ?_⟩
  · rw [h1]
    decide
  · rw [h2]
    decide
  · rw [h3]
    decide

/-- C25, amended: the height update of an examination without integer overflow. If the
resolved height of the peer is greater than the average height and neither the sum of the
two nor the three results leave the range of `int`, the average becomes the integer half of
the sum minus the height tolerance, the minimum the new average minus the range and the
maximum the new average plus the range; if the resolved height is not greater, the three are
unchanged. The rest of the examination does not touch them. -/
theorem C25_height_update (env : Env) (W : World) (p : CNode)
    (hrange : Examination.NodeHeight p > W.G.Firewall_AverageHeight →
      inInt32 (W.G.Firewall_AverageHeight + Examination.NodeHeight p)
      ∧ inInt32 (Int.tdiv (W.G.Firewall_AverageHeight + Examination.NodeHeight p) 2
          - W.S.FIREWALL_AVERAGE_TOLERANCE)
      ∧ inInt32 (Int.tdiv (W.G.Firewall_AverageHeight + Examination.NodeHeight p) 2
          - W.S.FIREWALL_AVERAGE_TOLERANCE - W.S.FIREWALL_AVERAGE_RANGE)
      ∧ inInt32 (Int.tdiv (W.G.Firewall_AverageHeight + Examination.NodeHeight p) 2
          - W.S.FIREWALL_AVERAGE_TOLERANCE + W.S.FIREWALL_AVERAGE_RANGE)) :
    ∃ e, Examination env W p = Except.ok e
      ∧ (e.W.G.Firewall_AverageHeight, e.W.G.Firewall_AverageHeight_Min,
          e.W.G.Firewall_AverageHeight_Max)
        = specUpdateHeight W.S.FIREWALL_AVERAGE_TOLERANCE W.S.FIREWALL_AVERAGE_RANGE
            (W.G.Firewall_AverageHeight, W.G.Firewall_AverageHeight_Min,
              W.G.Firewall_AverageHeight_Max)
            (Examination.NodeHeight p) := by
  obtain ⟨e, he, _, _, h1, h2, h3, _⟩ := Examination_globals env W p
  refine ⟨e, he, ?_⟩
  rw [h1, h2, h3]
  exact updateHeight_spec W.S W.G _ hrange

/-- C25 at the scenario-4 peer (height 1050) in the settled state (average 1000, tolerance 2,
range 100): the average becomes 1023, the minimum 923 and the maximum 1123. -/
theorem C25_witness :
    ∃ e, Examination sampleEnv settledWorld floodingPeer = Except.ok e
      ∧ (e.W.G.Firewall_AverageHeight, e.W.G.Firewall_AverageHeight_Min,
          e.W.G.Firewall_AverageHeight_Max)
        = specUpdateHeight 2 100 (1000, 900, 1100) 1050
      ∧ specUpdateHeight 2 100 (1000, 900, 1100) 1050 = (1023, 923, 1123) := by
  obtain ⟨e, he, h⟩ := C25_height_update sampleEnv settledWorld floodingPeer
    (fun _ => by decide)
  exact ⟨e, he, h, by decide⟩

/-- C26 as stated fails: a peer with `nRecvBytes > 0` examined exactly five seconds after
its last sample. The claim folds it into the traffic baseline, which would move the average
traffic from 0 to 5/28 - 1/10000; the examination leaves the three values unchanged, because
the test is `GetTime() - pnode->nTrafficTimestamp > 5`. -/
theorem C26_counterexample :
    0 < fiveSecondPeer.nRecvBytes
    ∧ fiveSecondPeer.nTrafficTimestamp ≠ 0
    ∧ sampleEnv.now - fiveSecondPeer.nTrafficTimestamp = 5
    ∧ (specUpdateTraffic sampleWorld.S.FIREWALL_TRAFFIC_TOLERANCE
        sampleWorld.S.FIREWALL_TRAFFIC_ZONE sampleWorld.G.Firewall_AverageTraffic
        (fiveSecondPeer.nTrafficAverage
          + (fiveSecondPeer.nSendBytes : Rat) / (fiveSecondPeer.nRecvBytes : Rat) / 2)).1
      = 5 / 28 - 1 / 10000
    ∧ ∃ e, Examination sampleEnv sampleWorld fiveSecondPeer = Except.ok e
        ∧ e.W.G.Firewall_AverageTraffic = 0
        ∧ e.W.G.Firewall_AverageTraffic_Min = 0
        ∧ e.W.G.Firewall_AverageTraffic_Max = 0 := by
  refine ⟨by decide, by decide, by decide, ?_, ?_⟩
  · norm_num [specUpdateTraffic, sampleWorld, defaultSettings, initialGlobals, fiveSecondPeer,
      invalidPeer]
  · obtain ⟨e, he, _, _, _, _, _, ht, _⟩ :=
      Examination_globals sampleEnv sampleWorld fiveSecondPeer
    have hu : ¬ (0 < fiveSecondPeer.nRecvBytes
        ∧ Examination.UpdateNodeStats sampleEnv fiveSecondPeer = true) := by decide
    rw [if_neg hu] at ht
    simp only [Prod.mk.injEq] at ht
    exact ⟨e, he, ht.1, ht.2.1, ht.2.2⟩

theorem UpdateNodeStats_iff (env : Env) (p : CNode) :
    Examination.UpdateNodeStats env p = true
      ↔ p.nTrafficTimestamp = 0 ∨ env.now - p.nTrafficTimestamp > 5 := by
  simp [Examination.UpdateNodeStats]

/-- C26 amended (doubles read as exact rationals): in an examination with `nRecvBytes > 0`
that is the first sample of the peer (no sample timestamp yet) or comes more than 5 seconds
after its last sample, the average traffic becomes (average traffic + the updated traffic
average of the peer) / 2 minus the traffic tolerance, and its minimum and maximum become that
value minus and plus the traffic zone; in every other examination the three are unchanged. -/
theorem C26_traffic_baseline_update (env : Env) (W : World) (p : CNode) :
    ∃ e, Examination env W p = Except.ok e
      ∧ (e.W.G.Firewall_AverageTraffic, e.W.G.Firewall_AverageTraffic_Min,
          e.W.G.Firewall_AverageTraffic_Max)
        = (if 0 < p.nRecvBytes
              ∧ (p.nTrafficTimestamp = 0 ∨ env.now - p.nTrafficTimestamp > 5)
            then specUpdateTraffic W.S.FIREWALL_TRAFFIC_TOLERANCE W.S.FIREWALL_TRAFFIC_ZONE
              W.G.Firewall_AverageTraffic
              (p.nTrafficAverage + (p.nSendBytes : Rat) / (p.nRecvBytes : Rat) / 2)
            else (W.G.Firewall_AverageTraffic, W.G.Firewall_AverageTraffic_Min,
              W.G.Firewall_AverageTraffic_Max)) := by
  obtain ⟨e, he, _, _, _, _, _, ht, _⟩ := Examination_globals env W p
  refine ⟨e, he, ?_⟩
  rw [ht]
  simp only [UpdateNodeStats_iff]


/-! ## The settings are loaded once -/

theorem firstRun_spec (gArgs : ArgsManager) (W : World) :
    (FireWall.firstRun gArgs W).1.G.Firewall_FirstRun = true
    ∧ (FireWall.firstRun gArgs W).1.S
        = (if W.G.Firewall_FirstRun = false then LoadFirewallSettings gArgs W.S else W.S)
    ∧ (FireWall.firstRun gArgs W).2
        = (if W.G.Firewall_FirstRun = false then [Event.loadSettings] else []) := by
  unfold FireWall.firstRun
  cases h : W.G.Firewall_FirstRun <;> simp [h]

theorem clearBans_frame (env : Env) (W : World) (p : CNode) :
    (FireWall.clearBans env W p).1.S = W.S ∧ (FireWall.clearBans env W p).1.G = W.G
    ∧ Event.loadSettings ∉ (FireWall.clearBans env W p).2 := by
  unfold FireWall.clearBans
  split_ifs <;> simp

theorem FireWall_settings (gArgs : ArgsManager) (env : Env) (W : World) (p : CNode) :
    ∃ out, FireWall gArgs env W (some p) = Except.ok out
      ∧ out.W.G.Firewall_FirstRun = true
      ∧ out.W.S
          = (if W.G.Firewall_FirstRun = false then LoadFirewallSettings gArgs W.S else W.S)
      ∧ out.events.count Event.loadSettings
          = (if W.G.Firewall_FirstRun = false then 1 else 0) := by
  obtain ⟨hlatch, hS, hev⟩ := firstRun_spec gArgs W
  have hcount : (FireWall.firstRun gArgs W).2.count Event.loadSettings
      = (if W.G.Firewall_FirstRun = false then 1 else 0) := by
    rw [hev]
    split_ifs <;> simp
  unfold FireWall
  by_cases hen : (FireWall.firstRun gArgs W).1.S.FIREWALL_ENABLED = false
  · simp only [hen, if_true]
    exact ⟨_, rfl, hlatch, hS, hcount⟩
  · by_cases hwl : p.fWhitelisted = true
    · simp only [hen, hwl, if_true, if_false]
      exact ⟨_, rfl, hlatch, hS, hcount⟩
    · simp only [hen, hwl, if_false]
      obtain ⟨c1, c2, c3⟩ := clearBans_frame env (FireWall.firstRun gArgs W).1 p
      obtain ⟨e, he, eS, eF, _, _, _, _, eev⟩ := Examination_globals env
        (FireWall.clearBans env (FireWall.firstRun gArgs W).1 p).1 p
      rw [he, bind_ok]
      refine ⟨_, rfl, ?_, ?_, ?_⟩
      · show e.W.G.Firewall_FirstRun = true
        rw [eF, c2]
        exact hlatch
      · show e.W.S = _
        rw [eS, c1]
        exact hS
      · show ((FireWall.firstRun gArgs W).2 ++ (FireWall.clearBans env
          (FireWall.firstRun gArgs W).1 p).2 ++ e.events).count Event.loadSettings = _
        rw [List.count_append, List.count_append, hcount,
          List.count_eq_zero.mpr c3, List.count_eq_zero.mpr eev]
        simp

/-- C24: the settings are loaded from the startup configuration exactly once. A call of
`FireWall` with a non-null peer runs `LoadFirewallSettings` (once) when the first-run latch
is unset and not at all when it is set, and it always leaves the latch set; so after the
first such call no call loads again, and the settings a later call finds (also those changed
through the control surface in between, which never touches the latch) are the settings it
leaves. A call with a null peer neither loads nor sets the latch. -/
theorem C24_settings_loaded_once (gArgs : ArgsManager) (env : Env) (W : World) (p : CNode) :
    (∃ out, FireWall gArgs env W (some p) = Except.ok out
      ∧ out.W.G.Firewall_FirstRun = true
      ∧ out.W.S
          = (if W.G.Firewall_FirstRun = false then LoadFirewallSettings gArgs W.S else W.S)
      ∧ out.events.count Event.loadSettings
          = (if W.G.Firewall_FirstRun = false then 1 else 0))
    ∧ FireWall gArgs env W none
        = Except.ok { result := false, W := W, pnode := none, events := [] } :=
  ⟨FireWall_settings gArgs env W p, rfl⟩


/-! ## The master switch of the control surface -/

/-- C22: the setter `firewallenabled` never rejects its argument. For every argument string
`s` the call returns, the master enable flag is true if `s` is exactly "true" and false for
every other string (such as "True", "1", "yes" or the empty string), no other setting
changes, and the reply echoes `s`. -/
theorem C22_firewallenabled_string_equality (S : Settings) (s : String) :
    firewallenabled S { fHelp := false, params := [s] }
      = Except.ok ({ S with FIREWALL_ENABLED := decide (s = "true") }, s)
    ∧ decide ("true" = "true") = true
    ∧ decide ("True" = "true") = false
    ∧ decide ("1" = "true") = false
    ∧ decide ("yes" = "true") = false
    ∧ decide ("" = "true") = false := by
  refine ⟨?_, by decide, by decide, by decide, by decide, by decide⟩
  unfold firewallenabled
  by_cases hs : s = "true"
  · simp [hs, pure, Except.pure]
  · simp [hs, pure, Except.pure]

/-! ## The check windows of Filter 4 -/

/-- The probes 19 to 22 compare the connection age with sixty times the check windows. -/
theorem probes_19_to_22 (env : Env) (W : World) (p : CNode) (a : AttackState) :
    (CheckAttack.probeOutcomes env W p a).getD 18 false
      = decide (CheckAttack.nTimeConnected env p
          > toInt32 (W.S.FIREWALL_FLOODINGWALLET_MINCHECK * 60))
    ∧ (CheckAttack.probeOutcomes env W p a).getD 19 false
      = decide (CheckAttack.nTimeConnected env p
          < toInt32 (W.S.FIREWALL_FLOODINGWALLET_MINCHECK * 60))
    ∧ (CheckAttack.probeOutcomes env W p a).getD 20 false
      = decide (CheckAttack.nTimeConnected env p
          > toInt32 (W.S.FIREWALL_FLOODINGWALLET_MAXCHECK * 60))
    ∧ (CheckAttack.probeOutcomes env W p a).getD 21 false
      = decide (CheckAttack.nTimeConnected env p
          < toInt32 (W.S.FIREWALL_FLOODINGWALLET_MAXCHECK * 60)) :=
  ⟨rfl, rfl, rfl, rfl⟩

/-- C23 at the failing input: default check windows 30 and 90 (documented as seconds), a
peer connected for 100 s. The age is greater than both windows, yet probes 19 and 21
("above") are false and probes 20 and 22 ("below") are true: the probes compare the age in
seconds with `FIREWALL_FLOODINGWALLET_MINCHECK * 60` and `..._MAXCHECK * 60`. -/
theorem C23_check_windows_times_sixty :
    settledWorld.S.FIREWALL_FLOODINGWALLET_MINCHECK = 30
    ∧ settledWorld.S.FIREWALL_FLOODINGWALLET_MAXCHECK = 90
    ∧ CheckAttack.nTimeConnected sampleEnv hundredSecondPeer = 100
    ∧ (CheckAttack.probeOutcomes sampleEnv settledWorld hundredSecondPeer
        AttackState.init).getD 18 false = false
    ∧ (CheckAttack.probeOutcomes sampleEnv settledWorld hundredSecondPeer
        AttackState.init).getD 19 false = true
    ∧ (CheckAttack.probeOutcomes sampleEnv settledWorld hundredSecondPeer
        AttackState.init).getD 20 false = false
    ∧ (CheckAttack.probeOutcomes sampleEnv settledWorld hundredSecondPeer
        AttackState.init).getD 21 false = true
    ∧ CheckAttack.WARNINGS sampleEnv settledWorld hundredSecondPeer AttackState.init
        = "57910121517202223" := by
  refine ⟨rfl, rfl, ?_, ?_, ?_, ?_, ?_, ?_⟩ <;> decide

/-! ## The raw ratio of the no-false-positive stage -/

theorem highBWLowHeight_eq (S : Settings) (G : Globals) (p : CNode) (a : AttackState) :
    NoFalsePositive.highBWLowHeight S G p a
      = (if a.ATTACK_TYPE = "3-HighBW-LowHeight" then
          NoFalsePositive.tnTraffic p >>= fun tnTraffic =>
            pure (if p.nSendBytes > p.nRecvBytes then
                (if p.nTrafficAverage < G.Firewall_AverageTraffic_Max then
                  if tnTraffic < S.FIREWALL_BANDWIDTHABUSE_MINATTACK
                      ∨ tnTraffic > S.FIREWALL_BANDWIDTHABUSE_MAXATTACK then a.clear else a
                else a).clear
              else
                (if p.nTrafficAverage < G.Firewall_AverageTraffic_Max then
                  if tnTraffic < S.FIREWALL_BANDWIDTHABUSE_MINATTACK
                      ∨ tnTraffic > S.FIREWALL_BANDWIDTHABUSE_MAXATTACK then a.clear else a
                else a))
        else pure a) := by
  unfold NoFalsePositive.highBWLowHeight NoFalsePositive.tnTraffic udiv
  by_cases hty : a.ATTACK_TYPE = "3-HighBW-LowHeight"
  · rw [if_pos hty, if_pos hty]
    by_cases h0 : p.nRecvBytes = 0
    · rw [if_pos h0]
      rfl
    · rw [if_neg h0]
      rfl
  · rw [if_neg hty, if_neg hty]


/-- The raw ratio of the no-false-positive stage is the integer quotient of the two byte
counters: a natural number, and zero whenever fewer bytes were sent than received. -/
theorem tnTraffic_floor (p : CNode) (h : p.nRecvBytes ≠ 0) :
    NoFalsePositive.tnTraffic p = Except.ok ((p.nSendBytes / p.nRecvBytes : Nat) : Rat)
    ∧ (p.nSendBytes < p.nRecvBytes → NoFalsePositive.tnTraffic p = Except.ok 0) := by
  have h1 : NoFalsePositive.tnTraffic p
      = Except.ok ((p.nSendBytes / p.nRecvBytes : Nat) : Rat) := by
    unfold NoFalsePositive.tnTraffic udiv
    rw [if_neg h]
    rfl
  refine ⟨h1, fun hlt => ?_⟩
  rw [h1, Nat.div_eq_of_lt hlt]
  rfl

/-- What the code does for the tag `3-HighBW-LowHeight`: the detection is cleared exactly
when (traffic average below the baseline maximum and the integer quotient outside the band)
or more bytes were sent than received. -/
theorem highBWLowHeight_clears_iff (S : Settings) (G : Globals) (p : CNode) (a : AttackState)
    (hty : a.ATTACK_TYPE = "3-HighBW-LowHeight") (hdet : a.DETECTED_ATTACK = true)
    (hrecv : p.nRecvBytes ≠ 0) :
    ∃ b, NoFalsePositive.highBWLowHeight S G p a = Except.ok b
      ∧ (b.DETECTED_ATTACK = false ↔
          (p.nTrafficAverage < G.Firewall_AverageTraffic_Max
            ∧ (((p.nSendBytes / p.nRecvBytes : Nat) : Rat) < S.FIREWALL_BANDWIDTHABUSE_MINATTACK
              ∨ ((p.nSendBytes / p.nRecvBytes : Nat) : Rat)
                  > S.FIREWALL_BANDWIDTHABUSE_MAXATTACK))
          ∨ p.nSendBytes > p.nRecvBytes) := by
  rw [highBWLowHeight_eq, if_pos hty, (tnTraffic_floor p hrecv).1, bind_ok]
  refine ⟨_, rfl, ?_⟩
  by_cases hs : p.nSendBytes > p.nRecvBytes
  · simp [hs, AttackState.clear]
  · by_cases ha : p.nTrafficAverage < G.Firewall_AverageTraffic_Max
    · by_cases hb : ((p.nSendBytes / p.nRecvBytes : Nat) : Rat)
          < S.FIREWALL_BANDWIDTHABUSE_MINATTACK
        ∨ ((p.nSendBytes / p.nRecvBytes : Nat) : Rat) > S.FIREWALL_BANDWIDTHABUSE_MAXATTACK
      · rw [if_neg hs, if_pos ha, if_pos hb]
        simp only [AttackState.clear, true_iff]
        exact Or.inl ⟨ha, hb⟩
      · rw [if_neg hs, if_pos ha, if_neg hb]
        simp only [hdet, Bool.true_eq_false, false_iff]
        rintro (⟨_, h⟩ | h)
        · exact hb h
        · exact hs h
    · rw [if_neg hs, if_neg ha]
      simp only [hdet, Bool.true_eq_false, false_iff]
      rintro (⟨h, _⟩ | h)
      · exact ha h
      · exact hs h

/-- C30 at the failing input: for 500,000 bytes sent and 1,000,000,000 received the raw ratio
of the no-false-positive stage is 0 (unsigned integer division), not the exact quotient
0.0005. With the band 0.0001 .. 0.001, a traffic average below the baseline maximum and no
more bytes sent than received, the exact quotient lies inside the band, so the stated
condition for clearing is false, yet the stage clears the detection tagged
`3-HighBW-LowHeight`. -/
theorem C30_raw_ratio_is_integer_quotient :
    NoFalsePositive.tnTraffic downloadingPeer = Except.ok 0
    ∧ (downloadingPeer.nSendBytes : Rat) / (downloadingPeer.nRecvBytes : Rat) = 1 / 2000
    ∧ ¬ ((calmPeer.nTrafficAverage < settledWorld.G.Firewall_AverageTraffic_Max
          ∧ ((calmPeer.nSendBytes : Rat) / (calmPeer.nRecvBytes : Rat)
                < lowBandSettings.FIREWALL_BANDWIDTHABUSE_MINATTACK
              ∨ (calmPeer.nSendBytes : Rat) / (calmPeer.nRecvBytes : Rat)
                > lowBandSettings.FIREWALL_BANDWIDTHABUSE_MAXATTACK))
        ∨ calmPeer.nSendBytes > calmPeer.nRecvBytes)
    ∧ NoFalsePositive lowBandSettings settledWorld.G calmPeer
        (AttackState.init.detect "3-HighBW-LowHeight")
      = Except.ok AttackState.init := by
  refine ⟨rfl, ?_, ?_, ?_⟩
  · norm_num [downloadingPeer]
  · norm_num [calmPeer, downloadingPeer, lowBandSettings, settledWorld]
  · have h1 : NoFalsePositive lowBandSettings settledWorld.G calmPeer
        (AttackState.init.detect "3-HighBW-LowHeight")
        = NoFalsePositive.highBWLowHeight lowBandSettings settledWorld.G calmPeer
          (AttackState.init.detect "3-HighBW-LowHeight") := rfl
    have h2 : NoFalsePositive.tnTraffic calmPeer = Except.ok 0 := rfl
    have hs : ¬ calmPeer.nSendBytes > calmPeer.nRecvBytes := by decide
    have ha : calmPeer.nTrafficAverage < settledWorld.G.Firewall_AverageTraffic_Max := by
      norm_num [calmPeer, settledWorld]
    have hb : (0 : Rat) < lowBandSettings.FIREWALL_BANDWIDTHABUSE_MINATTACK
        ∨ (0 : Rat) > lowBandSettings.FIREWALL_BANDWIDTHABUSE_MAXATTACK :=
      Or.inl (by norm_num [lowBandSettings])
    rw [h1, highBWLowHeight_eq, if_pos (by decide), h2, bind_ok, if_neg hs, if_pos ha,
      if_pos hb]
    rfl


/-! ## Filter 2 and the tags it sets -/

/-- The flag and the tag that the detection part of Filter 2 leaves. -/
theorem FilterInvalidWallet_flag_tag (S : Settings) (p : CNode) (t : Int) (a : AttackState)
    (hdet : S.FIREWALL_DETECT_INVALIDWALLET = true) :
    (t > S.FIREWALL_INVALIDWALLET_MAXCHECK ∧ (p.nStartingHeight < 0 ∨ p.nRecvVersion < 1) →
      (FilterInvalidWallet S p t a).DETECTED_ATTACK = true
      ∧ (FilterInvalidWallet S p t a).ATTACK_TYPE
          = (if p.nRecvVersion < 1 then "1-Protocol-Invalid" else "1-StartHeight-Invalid"))
    ∧ (¬ (t > S.FIREWALL_INVALIDWALLET_MAXCHECK
          ∧ (p.nStartingHeight < 0 ∨ p.nRecvVersion < 1)) →
      (FilterInvalidWallet S p t a).DETECTED_ATTACK = a.DETECTED_ATTACK
      ∧ (FilterInvalidWallet S p t a).ATTACK_TYPE = a.ATTACK_TYPE) := by
  unfold FilterInvalidWallet
  rw [if_pos hdet]
  simp only [mitigate_detected, mitigate_type]
  constructor
  · rintro ⟨hage, hbad⟩
    simp only [if_pos hage]
    by_cases hv : p.nRecvVersion < 1
    · rw [if_pos hv, if_pos hv]
      exact ⟨rfl, rfl⟩
    · have hs : p.nStartingHeight < 0 := hbad.resolve_right hv
      have hv0 : ¬ p.nRecvVersion = 0 := fun h => hv (by omega)
      rw [if_neg hv, if_neg hv, if_neg hv0, if_pos hs]
      exact ⟨rfl, rfl⟩
  · intro hnot
    by_cases hage : t > S.FIREWALL_INVALIDWALLET_MAXCHECK
    · have hs : ¬ p.nStartingHeight < 0 := fun h => hnot ⟨hage, Or.inl h⟩
      have hv : ¬ p.nRecvVersion < 1 := fun h => hnot ⟨hage, Or.inr h⟩
      have hs1 : ¬ p.nStartingHeight = -1 := fun h => hs (by omega)
      have hv0 : ¬ p.nRecvVersion = 0 := fun h => hv (by omega)
      simp only [if_pos hage, if_neg hs, if_neg hv, if_neg hs1, if_neg hv0]
      constructor <;> first | rfl | trivial
    · simp only [if_neg hage]
      constructor <;> first | rfl | trivial

/-- C31: with invalid-wallet detection enabled, Filter 2 sets the detection flag exactly when
the connection age is strictly greater than the invalid-wallet threshold and (the starting
height is below 0 or the protocol version is below 1); the tag it sets is
`1-Protocol-Invalid` when the protocol version is below 1 and `1-StartHeight-Invalid`
otherwise. When the condition fails, in particular at an age equal to the threshold, the
flag and the tag are left as they were. -/
theorem C31_invalid_wallet_condition (S : Settings) (p : CNode) (t : Int) (a : AttackState)
    (hdet : S.FIREWALL_DETECT_INVALIDWALLET = true) :
    (a.DETECTED_ATTACK = false →
      ((FilterInvalidWallet S p t a).DETECTED_ATTACK = true
        ↔ t > S.FIREWALL_INVALIDWALLET_MAXCHECK
          ∧ (p.nStartingHeight < 0 ∨ p.nRecvVersion < 1)))
    ∧ (t > S.FIREWALL_INVALIDWALLET_MAXCHECK ∧ (p.nStartingHeight < 0 ∨ p.nRecvVersion < 1) →
        (FilterInvalidWallet S p t a).DETECTED_ATTACK = true
        ∧ (FilterInvalidWallet S p t a).ATTACK_TYPE
            = (if p.nRecvVersion < 1 then "1-Protocol-Invalid" else "1-StartHeight-Invalid"))
    ∧ (¬ (t > S.FIREWALL_INVALIDWALLET_MAXCHECK
          ∧ (p.nStartingHeight < 0 ∨ p.nRecvVersion < 1)) →
        (FilterInvalidWallet S p t a).DETECTED_ATTACK = a.DETECTED_ATTACK
        ∧ (FilterInvalidWallet S p t a).ATTACK_TYPE = a.ATTACK_TYPE)
    ∧ (t = S.FIREWALL_INVALIDWALLET_MAXCHECK →
        (FilterInvalidWallet S p t a).DETECTED_ATTACK = a.DETECTED_ATTACK
        ∧ (FilterInvalidWallet S p t a).ATTACK_TYPE = a.ATTACK_TYPE) := by
  obtain ⟨hyes, hno⟩ := FilterInvalidWallet_flag_tag S p t a hdet
  refine ⟨fun ha => ⟨fun hb => ?_, fun hc => (hyes hc).1⟩, hyes, hno, fun ht => ?_⟩
  · by_contra hc
    rw [(hno hc).1, ha] at hb
    cases hb
  · exact hno (fun hc => by omega)

/-- C31 at the scenario-1 peer (starting height -1, protocol version 70015, age 70 s against
the default threshold): the flag is set with the tag `1-StartHeight-Invalid`. -/
theorem C31_witness :
    (FilterInvalidWallet sampleWorld.S invalidPeer
        (CheckAttack.nTimeConnected sampleEnv invalidPeer) AttackState.init).DETECTED_ATTACK
      = true
    ∧ (FilterInvalidWallet sampleWorld.S invalidPeer
        (CheckAttack.nTimeConnected sampleEnv invalidPeer) AttackState.init).ATTACK_TYPE
      = "1-StartHeight-Invalid" :=
  (C31_invalid_wallet_condition sampleWorld.S invalidPeer
    (CheckAttack.nTimeConnected sampleEnv invalidPeer) AttackState.init (by decide)).2.1
    (by decide)

/-! ## Probes with the same condition -/

/-- C33: the duplicate probes fire together. For every peer, every settings and every
baseline, probe 2 and probe 3 have the same outcome, as have probes 10 and 12 and probes 11
and 13; the warning string is the concatenation of the codes of the probes whose outcome is
true, so it holds the code of one exactly when it holds the code of the other. -/
theorem C33_duplicate_probes_agree (env : Env) (W : World) (p : CNode) (a : AttackState) :
    (CheckAttack.probeOutcomes env W p a).getD 1 false
      = (CheckAttack.probeOutcomes env W p a).getD 2 false
    ∧ (CheckAttack.probeOutcomes env W p a).getD 9 false
      = (CheckAttack.probeOutcomes env W p a).getD 11 false
    ∧ (CheckAttack.probeOutcomes env W p a).getD 10 false
      = (CheckAttack.probeOutcomes env W p a).getD 12 false
    ∧ CheckAttack.WARNINGS env W p a = specWarnings (CheckAttack.probeOutcomes env W p a)
    ∧ (CheckAttack.probeOutcomes env W p a).getD 1 false
      = decide (p.nSendBytes < toSizeT W.S.FIREWALL_FLOODINGWALLET_MINBYTES) := by
  refine ⟨rfl, rfl, rfl, ?_, rfl⟩
  rw [WARNINGS_eq_warningOf]
  exact warningOf_eq_specWarnings _ (probeOutcomes_length env W p a)


/-! ## The attack-ratio band inside the classifier -/

/-- Filter 1 sets the tag `3-HighBW-LowHeight` only for a traffic average above the baseline
maximum, and sets the detection flag with it. -/
theorem FilterBandwidthAbuse_highBW_tag (S : Settings) (G : Globals) (p : CNode) (t n : Int)
    (htag : (FilterBandwidthAbuse S G p t n AttackState.init).ATTACK_TYPE
      = "3-HighBW-LowHeight") :
    p.nTrafficAverage > G.Firewall_AverageTraffic_Max
    ∧ (FilterBandwidthAbuse S G p t n AttackState.init).DETECTED_ATTACK = true := by
  unfold FilterBandwidthAbuse at htag ⊢
  split_ifs at htag ⊢ <;>
    simp_all [mitigate_detected, mitigate_type, AttackState.detect, AttackState.init]

/-- The no-false-positive stage on a detection tagged `3-HighBW-LowHeight` for a peer whose
traffic average is above the baseline maximum: only the comparison of the byte counters
decides. -/
theorem NoFalsePositive_highBW_above (S : Settings) (G : Globals) (p : CNode) (a : AttackState)
    (hnfp : S.FIREWALL_NOFALSEPOSITIVE_BANDWIDTHABUSE = true)
    (hdet : a.DETECTED_ATTACK = true) (hty : a.ATTACK_TYPE = "3-HighBW-LowHeight")
    (hhigh : p.nTrafficAverage > G.Firewall_AverageTraffic_Max) (hrecv : p.nRecvBytes ≠ 0) :
    NoFalsePositive S G p a
      = Except.ok (if p.nSendBytes > p.nRecvBytes then a.clear else a) := by
  have hnot : ¬ p.nTrafficAverage < G.Firewall_AverageTraffic_Max := not_lt.mpr (le_of_lt hhigh)
  unfold NoFalsePositive
  rw [if_pos hnfp, if_pos hdet, syncTags_highBW a hty, highBWLowHeight_eq, if_pos hty,
    (tnTraffic_floor p hrecv).1, bind_ok, if_neg hnot]
  by_cases hs : p.nSendBytes > p.nRecvBytes
  · rw [if_pos hs]
    rfl
  · rw [if_neg hs]
    rfl

/-- C34: inside `CheckAttack` the attack-ratio band never decides. Whenever the
no-false-positive stage runs on the tag `3-HighBW-LowHeight` set by Filter 1, the traffic
average of the peer is above the baseline maximum; for a peer that has received bytes (the
only peers `Examination` passes to `CheckAttack`) the stage returns the detection cleared when
more bytes were sent than received and unchanged otherwise, and it does so for every value
of the minimum and maximum attack ratio. -/
theorem C34_attack_ratio_band_never_decides (S : Settings) (G : Globals) (p : CNode)
    (t n : Int)
    (hnfp : S.FIREWALL_NOFALSEPOSITIVE_BANDWIDTHABUSE = true)
    (htag : (FilterBandwidthAbuse S G p t n AttackState.init).ATTACK_TYPE
      = "3-HighBW-LowHeight")
    (hrecv : p.nRecvBytes ≠ 0) :
    p.nTrafficAverage > G.Firewall_AverageTraffic_Max
    ∧ (∀ lo hi : Rat,
        NoFalsePositive
            { S with FIREWALL_BANDWIDTHABUSE_MINATTACK := lo
                     FIREWALL_BANDWIDTHABUSE_MAXATTACK := hi } G p
            (FilterBandwidthAbuse S G p t n AttackState.init)
          = Except.ok (if p.nSendBytes > p.nRecvBytes
              then (FilterBandwidthAbuse S G p t n AttackState.init).clear
              else FilterBandwidthAbuse S G p t n AttackState.init))
    ∧ ∃ b, NoFalsePositive S G p (FilterBandwidthAbuse S G p t n AttackState.init)
          = Except.ok b
        ∧ (b.DETECTED_ATTACK = false ↔ p.nSendBytes > p.nRecvBytes) := by
  obtain ⟨hhigh, hdet⟩ := FilterBandwidthAbuse_highBW_tag S G p t n htag
  refine ⟨hhigh, fun lo hi => ?_, _, NoFalsePositive_highBW_above S G p _ hnfp hdet htag hhigh
    hrecv, ?_⟩
  · exact NoFalsePositive_highBW_above _ G p _ hnfp hdet htag hhigh hrecv
  · by_cases hs : p.nSendBytes > p.nRecvBytes
    · rw [if_pos hs]
      simp [AttackState.clear, hs]
    · rw [if_neg hs]
      simp [hdet, hs]

/-- C34 at the scenario-2 peer in the settled state: the tag is `3-HighBW-LowHeight`, the
traffic average 6 is above the baseline maximum 5, and the detection is kept (500,000 bytes
sent, 1,000,000,000 received) whatever the band. -/
theorem C34_witness :
    downloadingPeer.nTrafficAverage > settledWorld.G.Firewall_AverageTraffic_Max
    ∧ (∀ lo hi : Rat,
        NoFalsePositive
            { settledWorld.S with FIREWALL_BANDWIDTHABUSE_MINATTACK := lo
                                  FIREWALL_BANDWIDTHABUSE_MAXATTACK := hi }
            settledWorld.G downloadingPeer
            (FilterBandwidthAbuse settledWorld.S settledWorld.G downloadingPeer
              (CheckAttack.nTimeConnected sampleEnv downloadingPeer)
              (CheckAttack.NodeHeight downloadingPeer) AttackState.init)
          = Except.ok (if downloadingPeer.nSendBytes > downloadingPeer.nRecvBytes
              then (FilterBandwidthAbuse settledWorld.S settledWorld.G downloadingPeer
                (CheckAttack.nTimeConnected sampleEnv downloadingPeer)
                (CheckAttack.NodeHeight downloadingPeer) AttackState.init).clear
              else FilterBandwidthAbuse settledWorld.S settledWorld.G downloadingPeer
                (CheckAttack.nTimeConnected sampleEnv downloadingPeer)
                (CheckAttack.NodeHeight downloadingPeer) AttackState.init))
    ∧ ∃ b, NoFalsePositive settledWorld.S settledWorld.G downloadingPeer
          (FilterBandwidthAbuse settledWorld.S settledWorld.G downloadingPeer
            (CheckAttack.nTimeConnected sampleEnv downloadingPeer)
            (CheckAttack.NodeHeight downloadingPeer) AttackState.init)
          = Except.ok b
        ∧ (b.DETECTED_ATTACK = false
            ↔ downloadingPeer.nSendBytes > downloadingPeer.nRecvBytes) :=
  C34_attack_ratio_band_never_decides settledWorld.S settledWorld.G downloadingPeer
    (CheckAttack.nTimeConnected sampleEnv downloadingPeer)
    (CheckAttack.NodeHeight downloadingPeer) (by decide) (by decide) (by decide)


/-! ## Removing a flood pattern -/

theorem CountStringArray_le_length (l : List String) : CountStringArray l ≤ l.length := by
  induction l with
  | nil => simp [CountStringArray]
  | cons s rest ih =>
    unfold CountStringArray
    split_ifs
    · simpa using ih
    · simp

theorem getD_append_length (pre : List String) (x : String) (xs : List String) :
    (pre ++ x :: xs).getD pre.length "" = x := by
  induction pre with
  | nil => rfl
  | cons y ys ih => simpa using ih

/-- The loop of the removal over the indices of a segment of the array. -/
theorem removeLoop_segment (p : String) :
    ∀ (k : Nat) (suf pre : List String) (m : String), k ≤ suf.length →
      (List.range' pre.length k).foldl (removeStep p) (pre ++ suf, m)
        = (pre ++ ((suf.take k).map (fun s => if s = p then "" else s) ++ suf.drop k),
            if p ∈ suf.take k then p else m) := by
  intro k
  induction k with
  | zero =>
    intro suf pre m _
    simp
  | succ k ih =>
    intro suf pre m hk
    cases suf with
    | nil => simp at hk
    | cons x xs =>
      have hk1 : k ≤ xs.length := by simpa using hk
      have hget := getD_append_length pre x xs
      rw [List.range'_succ, List.foldl_cons]
      by_cases hpx : p = x
      · have hset : setSlot (pre ++ x :: xs) pre.length "" = (pre ++ [""]) ++ xs := by
          unfold setSlot
          rw [if_pos (by simp)]
          simp
        have hstep : removeStep p (pre ++ x :: xs, m) pre.length = ((pre ++ [""]) ++ xs, x) := by
          unfold removeStep
          simp only [hget]
          rw [if_pos hpx, hset]
        have hlen : pre.length + 1 = (pre ++ [""]).length := by simp
        rw [hstep, hlen, ih xs (pre ++ [""]) x hk1]
        subst hpx
        simp
      · have hstep : removeStep p (pre ++ x :: xs, m) pre.length = ((pre ++ [x]) ++ xs, m) := by
          unfold removeStep
          simp only [hget]
          rw [if_neg hpx]
          simp
        have hlen : pre.length + 1 = (pre ++ [x]).length := by simp
        rw [hstep, hlen, ih xs (pre ++ [x]) m hk1]
        have hxp : ¬ x = p := fun h => hpx h.symm
        simp [hxp, hpx]

/-- The loop of the removal over the leading `n` slots. -/
theorem removeLoop_spec (p : String) (slots : List String) (n : Nat) (hn : n ≤ slots.length) :
    (List.range n).foldl (removeStep p) (slots, "Not Found")
      = ((slots.take n).map (fun s => if s = p then "" else s) ++ slots.drop n,
          if p ∈ slots.take n then p else "Not Found") := by
  have h := removeLoop_segment p n slots [] "Not Found" hn
  simpa [List.range_eq_range'] using h

/-- The call of the removal with one parameter. -/
theorem remove_spec (S : Settings) (p : String) :
    firewallfloodingwalletattackpatternremove S (JSONRPCRequest.mk false [p])
      = Except.ok ({ S with FIREWALL_FLOODPATTERNS := specRemove p S.FIREWALL_FLOODPATTERNS },
          if p ∈ S.FIREWALL_FLOODPATTERNS.take (CountStringArray S.FIREWALL_FLOODPATTERNS)
            then p else "Not Found") := by
  have h := removeLoop_spec p S.FIREWALL_FLOODPATTERNS _
    (CountStringArray_le_length S.FIREWALL_FLOODPATTERNS)
  unfold firewallfloodingwalletattackpatternremove
  rw [if_neg (by simp), if_pos (by simp)]
  simp only [List.getD_cons_zero, h]
  rfl


theorem specRemove_length (p : String) (slots : List String) :
    (specRemove p slots).length = slots.length := by
  unfold specRemove
  have h := CountStringArray_le_length slots
  simp
  omega

theorem specRemove_getD (p : String) (slots : List String) (i : Nat) :
    (specRemove p slots).getD i ""
      = if i < CountStringArray slots ∧ slots.getD i "" = p then "" else slots.getD i "" := by
  unfold specRemove
  have hle := CountStringArray_le_length slots
  simp only [List.getD_eq_getElem?_getD]
  by_cases hi : i < CountStringArray slots
  · have hlen : i < ((slots.take (CountStringArray slots)).map
        (fun s => if s = p then "" else s)).length := by
      simp
      omega
    rw [List.getElem?_append_left hlen, List.getElem?_map, List.getElem?_take_of_lt hi]
    have hi2 : i < slots.length := by omega
    rw [List.getElem?_eq_getElem hi2]
    simp only [Option.map_some', Option.getD_some, hi, true_and]
  · have hlen : ((slots.take (CountStringArray slots)).map
        (fun s => if s = p then "" else s)).length ≤ i := by
      simp
      omega
    rw [List.getElem?_append_right hlen, List.getElem?_drop]
    have hidx : CountStringArray slots + (i - ((slots.take (CountStringArray slots)).map
        (fun s => if s = p then "" else s)).length) = i := by
      simp
      omega
    rw [hidx]
    simp [hi]

/-- C32: removing a flood pattern blanks and does not compact. On an array with a terminator
inside its 256 slots, the call with the single parameter `p` returns; every slot before the
first blank slot whose content equals `p` becomes the empty string, every other slot keeps
its content and its position (the list keeps its length), no other setting changes, and the
reply is `p` when a slot matched and "Not Found" otherwise. -/
theorem C32_remove_blanks_in_place (S : Settings) (p : String)
    (_hcount : CountStringArray S.FIREWALL_FLOODPATTERNS < 256) :
    firewallfloodingwalletattackpatternremove S (JSONRPCRequest.mk false [p])
      = Except.ok ({ S with FIREWALL_FLOODPATTERNS := specRemove p S.FIREWALL_FLOODPATTERNS },
          if p ∈ S.FIREWALL_FLOODPATTERNS.take (CountStringArray S.FIREWALL_FLOODPATTERNS)
            then p else "Not Found")
    ∧ (specRemove p S.FIREWALL_FLOODPATTERNS).length = S.FIREWALL_FLOODPATTERNS.length
    ∧ ∀ i, (specRemove p S.FIREWALL_FLOODPATTERNS).getD i ""
        = if i < CountStringArray S.FIREWALL_FLOODPATTERNS
              ∧ S.FIREWALL_FLOODPATTERNS.getD i "" = p
          then "" else S.FIREWALL_FLOODPATTERNS.getD i "" :=
  ⟨remove_spec S p, specRemove_length p _, specRemove_getD p _⟩

/-- C32 at the compiled-in list of three patterns: removing the first pattern leaves a blank
in slot 0 and the other two patterns in slots 1 and 2, and the reply is the pattern. -/
theorem C32_witness :
    firewallfloodingwalletattackpatternremove settledWorld.S removeRequest
      = Except.ok (removedWorld.S, "56810121416192123")
    ∧ removedWorld.S.FIREWALL_FLOODPATTERNS
      = ["", "57910121517202223", "57910121416202223"] :=
  ⟨(C32_remove_blanks_in_place settledWorld.S "56810121416192123" (by decide)).1.trans rfl,
    rfl⟩


/-! ## What a removal does to the patterns behind the removed one -/

/-- After a removal from a list without blank slots, the slots that the count still covers
are the patterns in front of the first occurrence of the removed pattern. -/
theorem specRemove_active (p : String) (slots : List String) (hblank : ∀ s ∈ slots, s ≠ "") :
    (specRemove p slots).take (CountStringArray (specRemove p slots))
      = slots.takeWhile (fun s => decide (s ≠ p)) := by
  have hfull : specRemove p slots = slots.map (fun s => if s = p then "" else s) := by
    unfold specRemove
    rw [CountStringArray_of_no_blank slots hblank]
    simp
  rw [hfull]
  clear hfull
  induction slots with
  | nil => rfl
  | cons x xs ih =>
    have hx : x ≠ "" := hblank x (List.mem_cons_self x xs)
    have hxs : ∀ s ∈ xs, s ≠ "" := fun s hs => hblank s (List.mem_cons_of_mem x hs)
    by_cases hxp : x = p
    · simp [hxp, CountStringArray]
    · simp [hxp, CountStringArray, hx, ih hxs]

/-- C35 at the failing input: the compiled-in list of three patterns has no blank slot;
after the first pattern is removed, slot 0 is blank, the count of the list is 0 and the peer
of scenario 4, whose warning string is the second pattern, is no longer flagged, although it
was flagged before the removal and the second pattern is still in the list. -/
theorem C35_removal_disables_later_patterns :
    settledWorld.S.FIREWALL_FLOODPATTERNS
      = ["56810121416192123", "57910121517202223", "57910121416202223"]
    ∧ firewallfloodingwalletattackpatternremove settledWorld.S removeRequest
      = Except.ok (removedWorld.S, "56810121416192123")
    ∧ CheckAttack.beforeFlooding sampleEnv removedWorld floodingPeer
      = Except.ok AttackState.init
    ∧ CheckAttack.WARNINGS sampleEnv removedWorld floodingPeer AttackState.init
      = "57910121517202223"
    ∧ "57910121517202223" ∈ removedWorld.S.FIREWALL_FLOODPATTERNS
    ∧ CountStringArray removedWorld.S.FIREWALL_FLOODPATTERNS = 0
    ∧ (∃ c, CheckAttack sampleEnv settledWorld floodingPeer = Except.ok c
        ∧ c.result = true ∧ c.verdict.ATTACK_TYPE = "Flooding Wallet")
    ∧ (∃ c, CheckAttack sampleEnv removedWorld floodingPeer = Except.ok c
        ∧ c.result = false ∧ c.verdict.DETECTED_ATTACK = false) := by
  refine ⟨rfl, ?_, rfl, by decide, by decide, by decide, ⟨_, rfl, by decide, by decide⟩,
    ⟨_, rfl, by decide, by decide⟩⟩
  exact (remove_spec settledWorld.S "56810121416192123").trans rfl


/-! ## The height baseline never runs ahead of the peers -/

theorem updateHeight_average (S : Settings) (G : Globals) (n : Int) :
    (updateHeight S G n).Firewall_AverageHeight
      = if n > G.Firewall_AverageHeight then
          toInt32 (Int.tdiv (toInt32 (G.Firewall_AverageHeight + n)) 2
            - S.FIREWALL_AVERAGE_TOLERANCE)
        else G.Firewall_AverageHeight := by
  unfold updateHeight
  split_ifs <;> rfl

/-- A triggered height update without overflow leaves the average at most the resolved
height minus the tolerance. -/
theorem updateHeight_le (S : Settings) (G : Globals) (n : Int)
    (hgt : n > G.Firewall_AverageHeight)
    (hsum : inInt32 (G.Firewall_AverageHeight + n))
    (hsub : inInt32 (Int.tdiv (G.Firewall_AverageHeight + n) 2
      - S.FIREWALL_AVERAGE_TOLERANCE)) :
    (updateHeight S G n).Firewall_AverageHeight ≤ n - S.FIREWALL_AVERAGE_TOLERANCE := by
  rw [updateHeight_average, if_pos hgt, toInt32_of_range _ hsum.1 hsum.2,
    toInt32_of_range _ hsub.1 hsub.2]
  rcases tdiv_two_spec (G.Firewall_AverageHeight + n) with ⟨_, h⟩ | ⟨_, h⟩ <;>
    rw [h] <;> omega

theorem heightsInRange_congr (S : Settings) (hs : List Int) :
    ∀ G G' : Globals, G.Firewall_AverageHeight = G'.Firewall_AverageHeight →
      heightsInRange S G hs = heightsInRange S G' hs := by
  induction hs with
  | nil => intro _ _ _; rfl
  | cons n rest ih =>
    intro G G' h
    unfold heightsInRange
    rw [h, ih (updateHeight S G n) (updateHeight S G' n)
      (by rw [updateHeight_average, updateHeight_average, h])]

theorem foldl_max_mono (l : List Int) :
    ∀ a b : Int, a ≤ b → l.foldl max a ≤ l.foldl max b := by
  induction l with
  | nil => intro a b h; exact h
  | cons x xs ih =>
    intro a b h
    exact ih _ _ (max_le_max h le_rfl)

/-- A sequence of examinations returns, keeps the settings, and leaves an average height
that is at most the largest of the average it started from and the resolved heights
examined. -/
theorem examineAll_average (calls : List (Env × CNode)) :
    ∀ W : World, 0 ≤ W.S.FIREWALL_AVERAGE_TOLERANCE →
      heightsInRange W.S W.G (calls.map (fun c => Examination.NodeHeight c.2)) = true →
      ∃ W', examineAll W calls = Except.ok W'
        ∧ W'.S = W.S
        ∧ W'.G.Firewall_AverageHeight
            ≤ (calls.map (fun c => Examination.NodeHeight c.2)).foldl max
                W.G.Firewall_AverageHeight := by
  induction calls with
  | nil =>
    intro W _ _
    exact ⟨W, rfl, rfl, le_rfl⟩
  | cons c rest ih =>
    intro W htol hrange
    obtain ⟨e, he, eS, _, eH, _, _, _, _⟩ := Examination_globals c.1 W c.2
    rw [List.map_cons] at hrange
    unfold heightsInRange at hrange
    rw [Bool.and_eq_true, decide_eq_true_eq] at hrange
    obtain ⟨hstep, hrest⟩ := hrange
    have hrest' : heightsInRange e.W.S e.W.G
        (rest.map (fun c => Examination.NodeHeight c.2)) = true := by
      rw [eS, heightsInRange_congr W.S _ e.W.G
        (updateHeight W.S W.G (Examination.NodeHeight c.2)) eH]
      exact hrest
    have htol' : 0 ≤ e.W.S.FIREWALL_AVERAGE_TOLERANCE := by
      rw [eS]
      exact htol
    obtain ⟨W', hW', hS', hle⟩ := ih e.W htol' hrest'
    have hone : e.W.G.Firewall_AverageHeight
        ≤ max W.G.Firewall_AverageHeight (Examination.NodeHeight c.2) := by
      rw [eH]
      by_cases hgt : Examination.NodeHeight c.2 > W.G.Firewall_AverageHeight
      · have h := updateHeight_le W.S W.G _ hgt (hstep hgt).1 (hstep hgt).2
        exact le_trans h (le_trans (by omega) (le_max_right _ _))
      · rw [updateHeight_average, if_neg hgt]
        exact le_max_left _ _
    refine ⟨W', ?_, hS'.trans eS, ?_⟩
    · show (Examination c.1 W c.2 >>= fun e => examineAll e.W rest) = Except.ok W'
      rw [he, bind_ok]
      exact hW'
    · rw [List.map_cons, List.foldl_cons]
      exact le_trans hle (foldl_max_mono _ _ _ hone)

/-- C36: the height baseline never runs ahead of the peers. With a tolerance that is not
negative and no integer overflow, a height update triggered by the resolved height `h`
leaves `Firewall_AverageHeight` at most `h` minus the tolerance; so, starting from
`Firewall_AverageHeight = 0`, every sequence of examinations returns and leaves
`Firewall_AverageHeight` at most the maximum of 0 and the resolved heights examined. -/
theorem C36_baseline_never_ahead (W : World) (calls : List (Env × CNode))
    (htol : 0 ≤ W.S.FIREWALL_AVERAGE_TOLERANCE)
    (hzero : W.G.Firewall_AverageHeight = 0)
    (hrange : heightsInRange W.S W.G (calls.map (fun c => Examination.NodeHeight c.2))
      = true) :
    (∀ (G : Globals) (h : Int), h > G.Firewall_AverageHeight →
        inInt32 (G.Firewall_AverageHeight + h) →
        inInt32 (Int.tdiv (G.Firewall_AverageHeight + h) 2 - W.S.FIREWALL_AVERAGE_TOLERANCE) →
        (updateHeight W.S G h).Firewall_AverageHeight ≤ h - W.S.FIREWALL_AVERAGE_TOLERANCE)
    ∧ ∃ W', examineAll W calls = Except.ok W'
        ∧ W'.G.Firewall_AverageHeight
            ≤ (calls.map (fun c => Examination.NodeHeight c.2)).foldl max 0 := by
  refine ⟨fun G h hgt hsum hsub => updateHeight_le W.S G h hgt hsum hsub, ?_⟩
  obtain ⟨W', hW', _, hle⟩ := examineAll_average calls W htol hrange
  rw [hzero] at hle
  exact ⟨W', hW', hle⟩

/-- C36 at three examinations from the start-up state (resolved heights 1, 500000 and 1):
the average height left is at most 500000. -/
theorem C36_witness :
    ∃ W', examineAll sampleWorld threeCalls = Except.ok W'
      ∧ W'.G.Firewall_AverageHeight ≤ 500000 :=
  (C36_baseline_never_ahead sampleWorld threeCalls (by decide) rfl (by decide)).2


/-! ## Which sets of fired probes a warning string stands for -/

/-- The characters of the warning string: the characters of the codes of the fired probes,
in probe order. -/
theorem warnLoop_data (probes : List (Bool × String)) :
    ∀ w : String, (probes.foldl warnStep w).data
      = w.data ++ ((probes.filter (fun q => q.1)).map (fun q => q.2.data)).flatten := by
  induction probes with
  | nil => intro w; simp
  | cons q rest ih =>
    intro w
    obtain ⟨x, c⟩ := q
    cases x
    · simpa [warnStep] using ih w
    · simpa [warnStep, String.data_append, List.append_assoc] using ih (w ++ c)

theorem warningOf_data (b : List Bool) :
    (warningOf b).data
      = (((b.zip probeCodes).filter (fun q => q.1)).map (fun q => q.2.data)).flatten := by
  unfold warningOf buildWarnings
  rw [warnLoop_data]
  rfl

/-- The characters selected from a list of codes are empty or start with one of the codes. -/
theorem selected_head (codes : List String) :
    ∀ b : List Bool,
      (((b.zip codes).filter (fun q => q.1)).map (fun q => q.2.data)).flatten = []
      ∨ ∃ c ∈ codes,
          c.data <+: (((b.zip codes).filter (fun q => q.1)).map (fun q => q.2.data)).flatten := by
  induction codes with
  | nil => intro b; left; simp
  | cons c cs ih =>
    intro b
    cases b with
    | nil => left; simp
    | cons x xs =>
      cases x
      · rcases ih xs with h | ⟨d, hd, hpre⟩
        · left
          simpa using h
        · right
          exact ⟨d, List.mem_cons_of_mem c hd, by simpa using hpre⟩
      · right
        exact ⟨c, List.mem_cons_self c cs, by simp⟩

/-- Codes none of which is empty or a prefix of another determine the outcomes from the
characters they select. -/
theorem selected_injective (codes : List String)
    (hne : ∀ c ∈ codes, c.data ≠ [])
    (hfree : codes.Pairwise (fun c d => ¬ c.data <+: d.data ∧ ¬ d.data <+: c.data)) :
    ∀ a b : List Bool, a.length = codes.length → b.length = codes.length →
      (((a.zip codes).filter (fun q => q.1)).map (fun q => q.2.data)).flatten
        = (((b.zip codes).filter (fun q => q.1)).map (fun q => q.2.data)).flatten →
      a = b := by
  induction codes with
  | nil =>
    intro a b ha hb _
    rw [List.length_eq_zero.mp ha, List.length_eq_zero.mp hb]
  | cons c cs ih =>
    intro a b ha hb h
    rw [List.pairwise_cons] at hfree
    obtain ⟨hc, hcs⟩ := hfree
    have hne' : ∀ d ∈ cs, d.data ≠ [] := fun d hd => hne d (List.mem_cons_of_mem c hd)
    have hcne : c.data ≠ [] := hne c (List.mem_cons_self c cs)
    have clash : ∀ (u v : List Bool),
        c.data ++ (((u.zip cs).filter (fun q => q.1)).map (fun q => q.2.data)).flatten
          = (((v.zip cs).filter (fun q => q.1)).map (fun q => q.2.data)).flatten → False := by
      intro u v huv
      rcases selected_head cs v with hnil | ⟨d, hd, hpre⟩
      · rw [hnil] at huv
        exact hcne (List.append_eq_nil.mp huv).1
      · rw [← huv] at hpre
        rcases List.prefix_or_prefix_of_prefix (List.prefix_append c.data _) hpre with h1 | h1
        · exact (hc d hd).1 h1
        · exact (hc d hd).2 h1
    cases a with
    | nil => simp at ha
    | cons x xs =>
      cases b with
      | nil => simp at hb
      | cons y ys =>
        have hxs : xs.length = cs.length := by simpa using ha
        have hys : ys.length = cs.length := by simpa using hb
        cases x <;> cases y
        · rw [ih hne' hcs xs ys hxs hys (by simpa using h)]
        · exact (clash ys xs (by simpa using h.symm)).elim
        · exact (clash xs ys (by simpa using h)).elim
        · rw [ih hne' hcs xs ys hxs hys (by simpa using h)]

/-- When the characters selected from prefix-free codes start with the code at index `i`,
that code is the first one selected: the outcomes in front of `i` are false and the outcome
at `i` is true. -/
theorem selected_first (codes : List String)
    (hne : ∀ c ∈ codes, c.data ≠ [])
    (hfree : codes.Pairwise (fun c d => ¬ c.data <+: d.data ∧ ¬ d.data <+: c.data)) :
    ∀ (v : List Bool) (i : Nat) (c : String), codes[i]? = some c →
      c.data <+: (((v.zip codes).filter (fun q => q.1)).map (fun q => q.2.data)).flatten →
      (∀ j < i, v.getD j false = false) ∧ v.getD i false = true := by
  induction codes with
  | nil =>
    intro v i c hc _
    simp at hc
  | cons c0 cs ih =>
    intro v i c hc hpre
    rw [List.pairwise_cons] at hfree
    obtain ⟨h0, hcs⟩ := hfree
    have hne' : ∀ d ∈ cs, d.data ≠ [] := fun d hd => hne d (List.mem_cons_of_mem c0 hd)
    have hmem : c ∈ c0 :: cs := List.mem_iff_getElem?.mpr ⟨i, hc⟩
    cases v with
    | nil =>
      have hnil : c.data = [] := by simpa using hpre
      exact (hne c hmem hnil).elim
    | cons x xs =>
      cases i with
      | zero =>
        have hcc : c0 = c := by simpa using hc
        subst hcc
        cases x
        · exfalso
          have hpre' : c0.data
              <+: (((xs.zip cs).filter (fun q => q.1)).map (fun q => q.2.data)).flatten := by
            simpa using hpre
          rcases selected_head cs xs with hnil | ⟨d, hd, hdpre⟩
          · rw [hnil, List.prefix_nil] at hpre'
            exact hne c0 hmem hpre'
          · rcases List.prefix_or_prefix_of_prefix hpre' hdpre with h1 | h1
            · exact (h0 d hd).1 h1
            · exact (h0 d hd).2 h1
        · exact ⟨fun j hj => absurd hj (Nat.not_lt_zero j), rfl⟩
      | succ k =>
        have hck : cs[k]? = some c := by simpa using hc
        have hcmem : c ∈ cs := List.mem_iff_getElem?.mpr ⟨k, hck⟩
        cases x
        · have hpre' : c.data
              <+: (((xs.zip cs).filter (fun q => q.1)).map (fun q => q.2.data)).flatten := by
            simpa using hpre
          obtain ⟨hlow, hk⟩ := ih hne' hcs xs k c hck hpre'
          refine ⟨fun j hj => ?_, hk⟩
          cases j with
          | zero => rfl
          | succ j => exact hlow j (by omega)
        · exfalso
          have hpre' : c.data <+: c0.data
              ++ (((xs.zip cs).filter (fun q => q.1)).map (fun q => q.2.data)).flatten := by
            simpa using hpre
          rcases List.prefix_or_prefix_of_prefix (List.prefix_append c0.data _) hpre'
            with h1 | h1
          · exact (h0 c hcmem).1 h1
          · exact (h0 c hcmem).2 h1

/-- The characters of a warning string, split into the codes of the probes 1, 2 and 3 and
the codes of the probes 4 to 25. -/
theorem warningOf_data_split (x1 x2 x3 : Bool) (t : List Bool) :
    (warningOf (x1 :: x2 :: x3 :: t)).data
      = (if x1 = true then ['1'] else []) ++ ((if x2 = true then ['2'] else [])
          ++ ((if x3 = true then ['3'] else [])
          ++ (((t.zip (probeCodes.drop 3)).filter (fun q => q.1)).map
              (fun q => q.2.data)).flatten)) := by
  rw [warningOf_data]
  have hcodes : probeCodes = "1" :: "2" :: "3" :: probeCodes.drop 3 := rfl
  generalize probeCodes.drop 3 = rest at hcodes
  rw [hcodes]
  cases x1 <;> cases x2 <;> cases x3 <;> simp


/-- The codes of the probes 4 to 25: none is empty, none is a prefix of another. -/
theorem codes_from_4 :
    (∀ c ∈ probeCodes.drop 3, c.data ≠ [])
    ∧ (probeCodes.drop 3).Pairwise (fun c d => ¬ c.data <+: d.data ∧ ¬ d.data <+: c.data)
    ∧ (∀ c ∈ probeCodes.drop 3, c.data.head? ≠ some '0')
    ∧ (∀ i < 6, ((probeCodes.drop 3).getD i "").data.head? ≠ some '1') := by
  decide

/-- The codes of the probes 4 to 25 of a run cannot start with "23": that needs the probes
4 to 22 false, while probe 10 is true whenever the probes 4 to 9 are false. -/
theorem no_23_first (t : List Bool) (r : List Char)
    (h3 : (∀ j < 6, t.getD j false = false) → t.getD 6 false = true)
    (h : '2' :: '3' :: r
      = (((t.zip (probeCodes.drop 3)).filter (fun q => q.1)).map
          (fun q => q.2.data)).flatten) : False := by
  have hpre : ("23" : String).data
      <+: (((t.zip (probeCodes.drop 3)).filter (fun q => q.1)).map
          (fun q => q.2.data)).flatten := ⟨r, h⟩
  obtain ⟨hlow, _⟩ := selected_first (probeCodes.drop 3) codes_from_4.1 codes_from_4.2.1
    t 19 "23" rfl hpre
  have h6 := h3 (fun j hj => hlow j (by omega))
  rw [hlow 6 (by omega)] at h6
  cases h6

/-- The codes of the probes 4 to 25 of a run cannot start with "12": probe 10 is true
whenever probe 12 is. -/
theorem no_12_first (t : List Bool) (r : List Char)
    (h2 : t.getD 6 false = t.getD 8 false)
    (h : '1' :: '2' :: r
      = (((t.zip (probeCodes.drop 3)).filter (fun q => q.1)).map
          (fun q => q.2.data)).flatten) : False := by
  have hpre : ("12" : String).data
      <+: (((t.zip (probeCodes.drop 3)).filter (fun q => q.1)).map
          (fun q => q.2.data)).flatten := ⟨r, h⟩
  obtain ⟨hlow, h8⟩ := selected_first (probeCodes.drop 3) codes_from_4.1 codes_from_4.2.1
    t 8 "12" rfl hpre
  rw [hlow 6 (by omega), h8] at h2
  cases h2

/-- The codes of the probes 4 to 25 of one run are not the character 1 followed by those of
another run: the first code would be "10", and no code starts with 0. -/
theorem no_1_first (t u : List Bool)
    (h3 : (∀ j < 6, u.getD j false = false) → u.getD 6 false = true)
    (h : '1' :: (((t.zip (probeCodes.drop 3)).filter (fun q => q.1)).map
          (fun q => q.2.data)).flatten
      = (((u.zip (probeCodes.drop 3)).filter (fun q => q.1)).map
          (fun q => q.2.data)).flatten) : False := by
  obtain ⟨hne, hfree, hzero, hone⟩ := codes_from_4
  rcases selected_head (probeCodes.drop 3) u with hnil | ⟨c, hc, hpre⟩
  · rw [hnil] at h
    cases h
  · obtain ⟨i, hi⟩ := List.mem_iff_getElem?.mp hc
    obtain ⟨hlow, htrue⟩ := selected_first (probeCodes.drop 3) hne hfree u i c hi hpre
    rw [← h] at hpre
    have hhead : c.data.head? = some '1' := by
      cases hcd : c.data with
      | nil => exact (hne c hc hcd).elim
      | cons y ys =>
        rw [hcd, List.cons_prefix_cons] at hpre
        rw [hpre.1]
        rfl
    have hgetD : (probeCodes.drop 3).getD i "" = c := by
      rw [List.getD_eq_getElem?_getD, hi]
      rfl
    have hi6 : 6 ≤ i := by
      by_contra hlt
      exact hone i (by omega) (by rw [hgetD]; exact hhead)
    have h6 := h3 (fun j hj => hlow j (by omega))
    have hi6' : i = 6 := by
      by_contra hne6
      rw [hlow 6 (by omega)] at h6
      cases h6
    subst hi6'
    have hc10 : c = "10" := by
      have h10 : (probeCodes.drop 3)[6]? = some "10" := rfl
      rw [h10] at hi
      exact (Option.some.inj hi).symm
    subst hc10
    have hpre0 : ['0'] <+: (((t.zip (probeCodes.drop 3)).filter (fun q => q.1)).map
        (fun q => q.2.data)).flatten := by
      have hdata : ("10" : String).data = ['1', '0'] := rfl
      rw [hdata, List.cons_prefix_cons] at hpre
      exact hpre.2
    rcases selected_head (probeCodes.drop 3) t with hnil | ⟨d, hd, hdpre⟩
    · rw [hnil, List.prefix_nil] at hpre0
      cases hpre0
    · obtain ⟨r0, hr0⟩ := hpre0
      rw [← hr0] at hdpre
      cases hdd : d.data with
      | nil => exact hne d hd hdd
      | cons y ys =>
        rw [hdd] at hdpre
        have hy : y = '0' := (List.cons_prefix_cons.mp hdpre).1
        exact hzero d hd (by rw [hdd, hy]; rfl)

/-- The codes of the probes 1 to 3 are determined by the string when probes 2 and 3 fire
together and the rest cannot start in one of the three ambiguous ways. -/
theorem heads_determined (x1 x2 y1 y2 : Bool) (Ta Tb : List Char)
    (ha23 : ∀ r, '2' :: '3' :: r ≠ Ta) (hb23 : ∀ r, '2' :: '3' :: r ≠ Tb)
    (ha12 : ∀ r, '1' :: '2' :: r ≠ Ta) (hb12 : ∀ r, '1' :: '2' :: r ≠ Tb)
    (hab : '1' :: Ta ≠ Tb) (hba : '1' :: Tb ≠ Ta)
    (h : (if x1 = true then ['1'] else []) ++ ((if x2 = true then ['2'] else [])
          ++ ((if x2 = true then ['3'] else []) ++ Ta))
      = (if y1 = true then ['1'] else []) ++ ((if y2 = true then ['2'] else [])
          ++ ((if y2 = true then ['3'] else []) ++ Tb))) :
    x1 = y1 ∧ x2 = y2 := by
  cases x1 <;> cases x2 <;> cases y1 <;> cases y2 <;> simp at h <;>
    first
    | exact ⟨rfl, rfl⟩
    | exact (ha23 _ h.symm).elim
    | exact (hb23 _ h).elim
    | exact (ha12 _ h.symm).elim
    | exact (hb12 _ h).elim
    | exact (hab h).elim
    | exact (hba h.symm).elim


/-- Two assignments to the 25 probes that agree on probe 1 and on probe 2 and build the same
warning string are equal: the codes of the probes 3 to 25 are prefix-free. -/
theorem warningOf_injective_of_heads (a b : List Bool)
    (ha : a.length = 25) (hb : b.length = 25)
    (h1 : a.getD 0 false = b.getD 0 false) (h2 : a.getD 1 false = b.getD 1 false)
    (hw : warningOf a = warningOf b) : a = b := by
  have hd : (warningOf a).data = (warningOf b).data := by rw [hw]
  rw [warningOf_data, warningOf_data] at hd
  cases a with
  | nil => simp at ha
  | cons x1 a1 =>
    cases a1 with
    | nil => simp at ha
    | cons x2 a2 =>
      cases b with
      | nil => simp at hb
      | cons y1 b1 =>
        cases b1 with
        | nil => simp at hb
        | cons y2 b2 =>
          have hx1 : x1 = y1 := h1
          have hx2 : x2 = y2 := h2
          subst hx1 hx2
          have ha2 : a2.length = (probeCodes.drop 2).length := by
            simp at ha
            simp [probeCodes, ha]
          have hb2 : b2.length = (probeCodes.drop 2).length := by
            simp at hb
            simp [probeCodes, hb]
          have htail : (((a2.zip (probeCodes.drop 2)).filter (fun q => q.1)).map
                (fun q => q.2.data)).flatten
              = (((b2.zip (probeCodes.drop 2)).filter (fun q => q.1)).map
                (fun q => q.2.data)).flatten := by
            have hcodes : probeCodes = "1" :: "2" :: probeCodes.drop 2 := rfl
            rw [hcodes] at hd
            cases x1 <;> cases x2 <;> simpa using hd
          rw [selected_injective (probeCodes.drop 2) (by decide) (by decide) a2 b2 ha2 hb2
            htail]

/-- Two assignments to the 25 probes in which probe 2 agrees with probe 3, probe 10 with
probe 12, and probe 10 is true whenever the probes 4 to 9 are false, are equal when they
build the same warning string. -/
theorem warningOf_injective_of_consistent (a b : List Bool)
    (ha : a.length = 25) (hb : b.length = 25)
    (a23 : a.getD 1 false = a.getD 2 false) (a12 : a.getD 9 false = a.getD 11 false)
    (a10 : (∀ j, 3 ≤ j → j < 9 → a.getD j false = false) → a.getD 9 false = true)
    (b23 : b.getD 1 false = b.getD 2 false) (b12 : b.getD 9 false = b.getD 11 false)
    (b10 : (∀ j, 3 ≤ j → j < 9 → b.getD j false = false) → b.getD 9 false = true)
    (hw : warningOf a = warningOf b) : a = b := by
  have hd : (warningOf a).data = (warningOf b).data := by rw [hw]
  match a, ha, a23, a12, a10, hw, hd with
  | [], ha, _, _, _, _, _ => simp at ha
  | [_], ha, _, _, _, _, _ => simp at ha
  | [_, _], ha, _, _, _, _, _ => simp at ha
  | x1 :: x2 :: x3 :: ta, ha, a23, a12, a10, hw, hd =>
    match b, hb, b23, b12, b10, hw, hd with
    | [], hb, _, _, _, _, _ => simp at hb
    | [_], hb, _, _, _, _, _ => simp at hb
    | [_, _], hb, _, _, _, _, _ => simp at hb
    | y1 :: y2 :: y3 :: tb, hb, b23, b12, b10, hw, hd =>
      have hx : x2 = x3 := a23
      have hy : y2 = y3 := b23
      subst hx hy
      have h2a : ta.getD 6 false = ta.getD 8 false := a12
      have h2b : tb.getD 6 false = tb.getD 8 false := b12
      have h3a : (∀ j < 6, ta.getD j false = false) → ta.getD 6 false = true := by
        intro h
        refine a10 (fun j hlo hhi => ?_)
        obtain ⟨k, rfl⟩ := Nat.exists_eq_add_of_le hlo
        have hk := h k (by omega)
        rw [Nat.add_comm]
        exact hk
      have h3b : (∀ j < 6, tb.getD j false = false) → tb.getD 6 false = true := by
        intro h
        refine b10 (fun j hlo hhi => ?_)
        obtain ⟨k, rfl⟩ := Nat.exists_eq_add_of_le hlo
        have hk := h k (by omega)
        rw [Nat.add_comm]
        exact hk
      rw [warningOf_data_split, warningOf_data_split] at hd
      obtain ⟨e1, e2⟩ := heads_determined x1 x2 y1 y2 _ _
        (fun r hr => no_23_first ta r h3a hr) (fun r hr => no_23_first tb r h3b hr)
        (fun r hr => no_12_first ta r h2a hr) (fun r hr => no_12_first tb r h2b hr)
        (fun h => no_1_first ta tb h3b h) (fun h => no_1_first tb ta h3a h) hd
      exact warningOf_injective_of_heads _ _ ha hb e1 e2 hw

/-- For a peer that has received bytes, probe 10 is true whenever the probes 4 to 9 are
false: then `nSendBytes` equals the maximum and `nRecvBytes` equals half the minimum and
half the maximum, so `nSendBytes` is above half the minimum. -/
theorem probe_10_of_4_to_9 (env : Env) (W : World) (p : CNode) (a : AttackState)
    (hrecv : 0 < p.nRecvBytes)
    (h : ∀ j, 3 ≤ j → j < 9 → (CheckAttack.probeOutcomes env W p a).getD j false = false) :
    (CheckAttack.probeOutcomes env W p a).getD 9 false = true := by
  have h4 : decide (p.nSendBytes < toSizeT W.S.FIREWALL_FLOODINGWALLET_MAXBYTES) = false :=
    h 3 (by omega) (by omega)
  have h5 : decide (p.nSendBytes > toSizeT W.S.FIREWALL_FLOODINGWALLET_MAXBYTES) = false :=
    h 4 (by omega) (by omega)
  have h6 : decide (p.nRecvBytes > toSizeT W.S.FIREWALL_FLOODINGWALLET_MINBYTES / 2)
      = false := h 5 (by omega) (by omega)
  have h7 : decide (p.nRecvBytes < toSizeT W.S.FIREWALL_FLOODINGWALLET_MINBYTES / 2)
      = false := h 6 (by omega) (by omega)
  have h8 : decide (p.nRecvBytes > toSizeT W.S.FIREWALL_FLOODINGWALLET_MAXBYTES / 2)
      = false := h 7 (by omega) (by omega)
  have h9 : decide (p.nRecvBytes < toSizeT W.S.FIREWALL_FLOODINGWALLET_MAXBYTES / 2)
      = false := h 8 (by omega) (by omega)
  show decide (p.nSendBytes > toSizeT W.S.FIREWALL_FLOODINGWALLET_MINBYTES / 2) = true
  rw [decide_eq_false_iff_not] at h4 h5 h6 h7 h8 h9
  rw [decide_eq_true_eq]
  generalize toSizeT W.S.FIREWALL_FLOODINGWALLET_MINBYTES = lo at *
  generalize toSizeT W.S.FIREWALL_FLOODINGWALLET_MAXBYTES = hi at *
  omega

/-- C37: a flood-pattern signature identifies one set of fired probes. For any two runs of
the probes of Filter 4 on peers that have received bytes (the only peers `Examination`
passes to `CheckAttack`), with whatever settings, baselines, clocks and detection flags, if
the two warning strings are equal then the two assignments of true/false to the 25 probes
are equal. -/
theorem C37_signature_identifies_fired_probes (env env2 : Env) (W W2 : World) (p p2 : CNode)
    (a a2 : AttackState) (hrecv : 0 < p.nRecvBytes) (hrecv2 : 0 < p2.nRecvBytes)
    (hw : CheckAttack.WARNINGS env W p a = CheckAttack.WARNINGS env2 W2 p2 a2) :
    CheckAttack.probeOutcomes env W p a = CheckAttack.probeOutcomes env2 W2 p2 a2 := by
  rw [WARNINGS_eq_warningOf, WARNINGS_eq_warningOf] at hw
  exact warningOf_injective_of_consistent _ _ (probeOutcomes_length env W p a)
    (probeOutcomes_length env2 W2 p2 a2) rfl rfl (probe_10_of_4_to_9 env W p a hrecv)
    rfl rfl (probe_10_of_4_to_9 env2 W2 p2 a2 hrecv2) hw

/-- C37 at the scenario-4 peer connected for 70 s and for 100 s: the two runs build the
same warning string "57910121517202223", and the outcomes of their 25 probes are the same. -/
theorem C37_witness :
    CheckAttack.WARNINGS sampleEnv settledWorld floodingPeer AttackState.init
      = "57910121517202223"
    ∧ CheckAttack.probeOutcomes sampleEnv settledWorld floodingPeer AttackState.init
      = CheckAttack.probeOutcomes sampleEnv settledWorld hundredSecondPeer AttackState.init :=
  ⟨by decide,
    C37_signature_identifies_fired_probes sampleEnv sampleEnv settledWorld settledWorld
      floodingPeer hundredSecondPeer AttackState.init AttackState.init (by decide) (by decide)
      (by decide)⟩

/-- Outside the runs the string does not determine the assignment: the assignment with
exactly the probes 1 and 2 true and the assignment with exactly probe 12 true both build
"12". No run produces either of them, since probe 2 fires with probe 3 and probe 12 with
probe 10. -/
theorem warningOf_collision_outside_runs :
    warningOf (outcomesOf [1, 2]) = "12" ∧ warningOf (outcomesOf [12]) = "12"
    ∧ outcomesOf [1, 2] ≠ outcomesOf [12]
    ∧ (outcomesOf [1, 2]).getD 1 false ≠ (outcomesOf [1, 2]).getD 2 false
    ∧ (outcomesOf [12]).getD 9 false ≠ (outcomesOf [12]).getD 11 false := by
  decide


end Firewall
